import Mathlib

/-!
# Real3D: scene-state model

A shallow embedding of the scene graph of Real3D (`opengl/light.cpp`,
`opengl/texture.cpp`, `opengl/object.cpp`, `opengl/scene.cpp`) and the
properties of its mutators and texture loaders.

Conventions of the embedding:

* C++ `float` values are elements of a field `F` (exact arithmetic; rounding,
  infinities and NaN are outside the model).  Concrete evaluations use `ℚ`.
* `QVector<T>` is a `List T`; `operator[]` with an index outside `[0, size)`
  is undefined behaviour and is an explicit outcome of the model.
* `std::string` is a `String` whose size is its number of characters.
* The file system, the image decoders (`cv::imread`, `loadPFM`), the mesh file
  reader and the trigonometric functions are collected in a `World` record.
* The OpenGL texture name space is an explicit state `GLState`.
-/

namespace Real3D

/-! ## Qt value types -/

/-- Qt `QVector2D`. -/
structure QVector2D (F : Type) where
  x : F
  y : F
deriving DecidableEq

/-- Qt `QVector3D`. -/
structure QVector3D (F : Type) where
  x : F
  y : F
  z : F
deriving DecidableEq

/-- Qt `QVector4D`. -/
structure QVector4D (F : Type) where
  x : F
  y : F
  z : F
  w : F
deriving DecidableEq

/-- Qt `QColor` built from integer red, green and blue components. -/
structure QColor where
  r : Int
  g : Int
  b : Int
deriving DecidableEq

/-- Qt `QMatrix4x4`, as the mathematical 4x4 matrix it stores (row, column). -/
abbrev QMatrix4x4 (F : Type) := Matrix (Fin 4) (Fin 4) F

section Matrices
variable {F : Type} [Field F]

/-- The matrix of a translation by `(x, y, z)`. -/
def translationMatrix (x y z : F) : QMatrix4x4 F :=
  !![1, 0, 0, x; 0, 1, 0, y; 0, 0, 1, z; 0, 0, 0, 1]

/-- The matrix of a scaling by `(x, y)` in the first two coordinates. -/
def scaleMatrix (x y : F) : QMatrix4x4 F :=
  !![x, 0, 0, 0; 0, y, 0, 0; 0, 0, 1, 0; 0, 0, 0, 1]

/-- The matrix of a rotation about the unit axis `v`, given the cosine `c` and
the sine `s` of the angle. -/
def rotationMatrix (c s : F) (v : QVector3D F) : QMatrix4x4 F :=
  !![v.x * v.x * (1 - c) + c, v.x * v.y * (1 - c) - v.z * s, v.x * v.z * (1 - c) + v.y * s, 0;
     v.y * v.x * (1 - c) + v.z * s, v.y * v.y * (1 - c) + c, v.y * v.z * (1 - c) - v.x * s, 0;
     v.x * v.z * (1 - c) - v.y * s, v.y * v.z * (1 - c) + v.x * s, v.z * v.z * (1 - c) + c, 0;
     0, 0, 0, 1]

/-- Qt `QMatrix4x4::setToIdentity`. -/
def QMatrix4x4.setToIdentity (_ : QMatrix4x4 F) : QMatrix4x4 F := 1

/-- Qt `QMatrix4x4::translate(x, y, z)`: multiplies this matrix by a translation. -/
def QMatrix4x4.translate (m : QMatrix4x4 F) (x y z : F) : QMatrix4x4 F :=
  m * translationMatrix x y z

/-- Qt `QMatrix4x4::scale(x, y)`: multiplies this matrix by a scaling. -/
def QMatrix4x4.scale (m : QMatrix4x4 F) (x y : F) : QMatrix4x4 F :=
  m * scaleMatrix x y

end Matrices

/-! ## Outcomes of calls, containers and strings -/

/-- How a call on a state of type `σ` with result type `α` ends. -/
inductive Outcome (σ : Type) (α : Type) where
  /-- The call returns `a` and leaves the state `s`. -/
  | returned (a : α) (s : σ) : Outcome σ α
  /-- A C++ exception (`std::out_of_range`) leaves the call; `s` is the state
  reached when it was thrown. -/
  | threw (s : σ) : Outcome σ α
  /-- The call has undefined behaviour (a `QVector` indexed out of range). -/
  | undefinedBehaviour : Outcome σ α
deriving DecidableEq

/-- Qt `QVector<T>::size()`, a C++ `int`. -/
def QVector.size {α : Type} (v : List α) : Int := (v.length : Int)

/-- Qt `QVector<T>::operator[](int i)`: the element at `i`, defined only for
`0 ≤ i < size`. -/
def QVector.index {α : Type} (v : List α) (i : Int) : Option α :=
  if 0 ≤ i then v[i.toNat]? else none

/-- Writes `a` through the reference returned by `operator[](i)`. -/
def QVector.assign {α : Type} (v : List α) (i : Int) (a : α) : List α :=
  v.set i.toNat a

/-- The number of values of a 64-bit `size_t`, that is 2^64. -/
def sizeModulus : Nat := 18446744073709551616

/-- The bytes of the `std::string` that holds the text `s` (UTF-8), as numbers:
the elements that `size()` counts and `substr` cuts. -/
def stdBytes (s : String) : List Nat := s.toUTF8.data.toList.map UInt8.toNat

/-- The call `std::string::substr(pos, n)` on the bytes of a string, with `pos`
already a `size_t`: throws `std::out_of_range` (here `none`) when
`pos > size()`. -/
def substr (s : List Nat) (pos n : Nat) : Option (List Nat) :=
  if s.length < pos then none else some ((s.drop pos).take n)

/-- The subtraction `a - b` of two `size_t` values (both below 2^64), which
wraps around below 0. -/
def sizeSub (a b : Nat) : Nat :=
  if b ≤ a then a - b else sizeModulus - (b - a)

/-- The expression `filePath.substr(filePath.size()-3, 3)`: the subtraction is
done in `size_t` and wraps around for strings shorter than three bytes. -/
def lastThree (filePath : String) : Option (List Nat) :=
  substr (stdBytes filePath) (sizeSub (stdBytes filePath).length 3) 3

/-! ## The outside world -/

/-- An OpenCV `cv::Mat` as far as the texture loaders read it: its size, its
channel count and whether its `data` pointer is non-null. -/
structure Mat where
  cols : Int
  rows : Int
  channels : Int
  hasData : Bool
deriving DecidableEq

/-- Triangle-mesh data (`opengl/mesh.h`). -/
structure Mesh (F : Type) where
  m_vertices : List (QVector3D F)
  m_indices : List (QVector3D F)
  m_indicesArray : List Nat
  m_triangleNormals : List (QVector3D F)
  m_vertexNormals : List (QVector3D F)
  m_textureCoordinates : List (QVector2D F)
deriving DecidableEq

/-- Everything the scene code reads from outside the program. -/
structure World (F : Type) where
  /-- OpenCV `cv::imread(path, CV_LOAD_IMAGE_COLOR)`. -/
  imread : String → Mat
  /-- The reader `loadPFM(path)` of `other/PFMReadWrite.h`. -/
  loadPFM : String → Mat
  /-- Qt `qApp->applicationDirPath()`. -/
  applicationDirPath : String
  /-- What `Mesh::offReader(fileName)` reads into an empty mesh. -/
  offReader : String → Mesh F
  /-- Cosine of an angle given in degrees, as `QMatrix4x4::rotate` computes it. -/
  cosDeg : F → F
  /-- Sine of an angle given in degrees, as `QMatrix4x4::rotate` computes it. -/
  sinDeg : F → F

/-- The OpenGL texture names: the next unused name and the names that
currently are textures. -/
structure GLState where
  nextName : Nat
  textures : List Nat
deriving DecidableEq

/-- OpenGL `glIsTexture(id) == GL_TRUE`. -/
def GLState.glIsTexture (gl : GLState) (id : Nat) : Bool := id != 0 && gl.textures.contains id

/-- OpenGL `glDeleteTextures(1, &id)`. -/
def GLState.glDeleteTextures (gl : GLState) (id : Nat) : GLState :=
  { gl with textures := gl.textures.erase id }

/-- OpenGL `glGenTextures(1, &id)` followed by `glBindTexture(GL_TEXTURE_2D, id)`, the
upload and the final unbind: returns the new name, which is now a texture. -/
def GLState.glGenTextures (gl : GLState) : Nat × GLState :=
  (max gl.nextName 1, { nextName := max gl.nextName 1 + 1, textures := max gl.nextName 1 :: gl.textures })

/-! ## Light (`opengl/light.cpp`) -/

/-- A point light source (`opengl/light.h`). -/
structure Light (F : Type) where
  m_lightPosition : QVector4D F
  m_modelMatrix : QMatrix4x4 F
  m_lightColor : QVector3D F
  m_lightIntensity : F
deriving DecidableEq

section LightOps
variable {F : Type} [Field F]

/-- The constructor `Light::Light(lightPosition, lightColor, lightIntensity)`. -/
def Light.new (lightPosition : QVector4D F) (lightColor : QVector3D F) (lightIntensity : F) :
    Light F :=
  { m_lightPosition := lightPosition
    m_modelMatrix := QMatrix4x4.setToIdentity (1 : QMatrix4x4 F)
    m_lightColor := lightColor
    m_lightIntensity := lightIntensity }

/-- The method `Light::setPosition(x, y, z)`. -/
def Light.setPosition (l : Light F) (x y z : F) : Light F :=
  { l with
    m_lightPosition := ⟨x, y, z, 1⟩
    m_modelMatrix := (QMatrix4x4.setToIdentity l.m_modelMatrix).translate x y z }

/-- The method `Light::translateX(translationX)`. -/
def Light.translateX (l : Light F) (translationX : F) : Light F :=
  { l with
    m_modelMatrix := l.m_modelMatrix.translate translationX 0 0
    m_lightPosition := { l.m_lightPosition with x := l.m_lightPosition.x + translationX } }

/-- The method `Light::translateY(translationY)`. -/
def Light.translateY (l : Light F) (translationY : F) : Light F :=
  { l with
    m_modelMatrix := l.m_modelMatrix.translate 0 translationY 0
    m_lightPosition := { l.m_lightPosition with y := l.m_lightPosition.y + translationY } }

/-- The method `Light::translateZ(translationZ)`. -/
def Light.translateZ (l : Light F) (translationZ : F) : Light F :=
  { l with
    m_modelMatrix := l.m_modelMatrix.translate 0 0 translationZ
    m_lightPosition := { l.m_lightPosition with z := l.m_lightPosition.z + translationZ } }

/-- The public mutators of a light after its construction. -/
inductive LightOp (F : Type) where
  | setPosition (x y z : F) : LightOp F
  | translateX (t : F) : LightOp F
  | translateY (t : F) : LightOp F
  | translateZ (t : F) : LightOp F

/-- Runs one mutator. -/
def Light.apply (l : Light F) : LightOp F → Light F
  | .setPosition x y z => l.setPosition x y z
  | .translateX t => l.translateX t
  | .translateY t => l.translateY t
  | .translateZ t => l.translateZ t

/-- Runs a sequence of mutators, first to last. -/
def Light.run (l : Light F) (ops : List (LightOp F)) : Light F :=
  ops.foldl Light.apply l

/-- The invariant of the specification: the model matrix is the pure
translation to the current position. -/
def Light.ModelMatchesPosition (l : Light F) : Prop :=
  l.m_modelMatrix =
    translationMatrix l.m_lightPosition.x l.m_lightPosition.y l.m_lightPosition.z

end LightOps

/-! ## Texture (`opengl/texture.cpp`) -/

/-- A GPU image (`opengl/texture.h`). -/
structure Texture where
  m_textureId : Nat
  m_filePath : String
  m_isLoaded : Bool
  m_width : Int
  m_height : Int
  m_numberOfComponents : Int
deriving DecidableEq

/-- The default constructor `Texture::Texture()`. -/
def Texture.default : Texture :=
  { m_textureId := 0, m_filePath := "", m_isLoaded := false, m_width := 0, m_height := 0,
    m_numberOfComponents := 0 }

/-- The constructor `Texture::Texture(filePath)`. -/
def Texture.new (filePath : String) : Texture :=
  { m_textureId := 0, m_filePath := filePath, m_isLoaded := false, m_width := 0, m_height := 0,
    m_numberOfComponents := 0 }

/-- The method `Texture::load_8UC3()`: the boolean returned, the texture and
the OpenGL state afterwards.  The conversion to `CV_32FC3` and the division by
255 keep the size of the image and whether it has data. -/
def Texture.load_8UC3 {F : Type} (W : World F) (t : Texture) (gl : GLState) :
    Bool × Texture × GLState :=
  let gl1 := if gl.glIsTexture t.m_textureId then gl.glDeleteTextures t.m_textureId else gl
  let texture := W.imread t.m_filePath
  if !texture.hasData then
    (false, { t with m_isLoaded := false }, gl1)
  else
    let t1 := { t with m_width := texture.cols, m_height := texture.rows,
                       m_numberOfComponents := texture.channels }
    let gen := gl1.glGenTextures
    (true, { t1 with m_textureId := gen.1, m_isLoaded := true }, gen.2)

/-- The method `Texture::load_32FC3()`: the boolean returned, the texture and
the OpenGL state afterwards.  The conversion to `CV_32FC3` keeps the size of
the image and whether it has data. -/
def Texture.load_32FC3 {F : Type} (W : World F) (t : Texture) (gl : GLState) :
    Bool × Texture × GLState :=
  let gl1 := if gl.glIsTexture t.m_textureId then gl.glDeleteTextures t.m_textureId else gl
  let texture := W.loadPFM t.m_filePath
  if !texture.hasData then
    (false, { t with m_isLoaded := false }, gl1)
  else
    let t1 := { t with m_width := texture.cols, m_height := texture.rows,
                       m_numberOfComponents := texture.channels }
    let gen := gl1.glGenTextures
    (true, { t1 with m_textureId := gen.1, m_isLoaded := true }, gen.2)

/-- The method `Texture::getAspectRatio()`: `(float)m_width/(float)m_height`. -/
def Texture.getAspectRatio (F : Type) [Field F] (t : Texture) : F :=
  (t.m_width : F) / (t.m_height : F)

/-- The method `Texture::isLoaded()`. -/
def Texture.isLoaded (t : Texture) : Bool := t.m_isLoaded

/-- The method `Texture::getTextureId()`. -/
def Texture.getTextureId (t : Texture) : Nat := t.m_textureId

/-! ## Material, mesh and object (`opengl/material.cpp`, `opengl/mesh.cpp`, `opengl/object.cpp`) -/

/-- A surface material (`opengl/material.h`). -/
structure Material (F : Type) where
  m_ambientColor : QColor
  m_diffuseColor : QColor
  m_specularColor : QColor
  m_ambientCoefficient : F
  m_diffuseCoefficient : F
  m_specularCoefficient : F
  m_shininess : F
deriving DecidableEq

/-- A scene entity (`opengl/object.h`). -/
structure Object (F : Type) where
  m_mesh : Mesh F
  m_material : Material F
  m_modelMatrix : QMatrix4x4 F
  m_diffuseTexture : Texture
  m_specularTexture : Texture
  m_normalMap : Texture
  m_roughnessMap : Texture
deriving DecidableEq

section ObjectOps
variable {F : Type} [Field F]

/-- The method `Mesh::loadPathAndTextureCoordinates(objectName)` on an empty
mesh (Linux path): the file name and the texture coordinates it pushes. -/
def Mesh.loadPathAndTextureCoordinates (W : World F) (objectName : String) :
    String × List (QVector2D F) :=
  if objectName = "square" then
    (W.applicationDirPath ++ "/off/square.off", [⟨1, 1⟩, ⟨0, 1⟩, ⟨0, 0⟩, ⟨1, 0⟩])
  else
    ("", [])

/-- The constructor `Mesh::Mesh(objectName)`. -/
def Mesh.new (W : World F) (objectName : String) : Mesh F :=
  let r := Mesh.loadPathAndTextureCoordinates W objectName
  { W.offReader r.1 with m_textureCoordinates := r.2 }

/-- The constructor `Object::Object(objectName)`. -/
def Object.new (W : World F) (objectName : String) : Object F :=
  { m_mesh := Mesh.new W objectName
    m_material :=
      { m_ambientColor := ⟨128, 128, 0⟩, m_diffuseColor := ⟨128, 128, 0⟩,
        m_specularColor := ⟨255, 255, 255⟩, m_ambientCoefficient := 1 / 10,
        m_diffuseCoefficient := 1, m_specularCoefficient := 1, m_shininess := 500 }
    m_modelMatrix := QMatrix4x4.setToIdentity (1 : QMatrix4x4 F)
    m_diffuseTexture := Texture.default
    m_specularTexture := Texture.default
    m_normalMap := Texture.default
    m_roughnessMap := Texture.default }

/-- The method `Object::resetModelMatrix()`. -/
def Object.resetModelMatrix (o : Object F) : Object F :=
  { o with m_modelMatrix := QMatrix4x4.setToIdentity o.m_modelMatrix }

/-- The method `Object::setAspectRatio()` (no argument). -/
def Object.setAspectRatio (o : Object F) : Object F :=
  let aspectRatio : F :=
    if o.m_diffuseTexture.isLoaded then o.m_diffuseTexture.getAspectRatio F
    else if o.m_specularTexture.isLoaded then o.m_diffuseTexture.getAspectRatio F
    else if o.m_normalMap.isLoaded then o.m_diffuseTexture.getAspectRatio F
    else if o.m_roughnessMap.isLoaded then o.m_diffuseTexture.getAspectRatio F
    else 1
  { o with m_modelMatrix := o.m_modelMatrix.scale 1 (1 / aspectRatio) }

variable [DecidableEq F]

/-- Qt `QMatrix4x4::rotate(angle, vector)` for a unit-length axis: multiplies
this matrix by the rotation through `angle` degrees about `vector`.  Angle 0
leaves the matrix alone and the right angles use exact sines and cosines. -/
def QMatrix4x4.rotate (W : World F) (m : QMatrix4x4 F) (angle : F) (vector : QVector3D F) :
    QMatrix4x4 F :=
  if angle = 0 then m
  else
    let cs : F × F :=
      if angle = 90 ∨ angle = -270 then (0, 1)
      else if angle = -90 ∨ angle = 270 then (0, -1)
      else if angle = 180 ∨ angle = -180 then (-1, 0)
      else (W.cosDeg angle, W.sinDeg angle)
    m * rotationMatrix cs.1 cs.2 vector

/-- The method `Object::rotateX(angleX)`; `%=` is the truncated remainder. -/
def Object.rotateX (W : World F) (o : Object F) (angleX : Int) : Object F :=
  { o with m_modelMatrix := QMatrix4x4.rotate W o.m_modelMatrix ((angleX.tmod 360 : Int) : F) ⟨1, 0, 0⟩ }

/-- The method `Object::rotateY(angleY)`. -/
def Object.rotateY (W : World F) (o : Object F) (angleY : Int) : Object F :=
  { o with m_modelMatrix := QMatrix4x4.rotate W o.m_modelMatrix ((angleY.tmod 360 : Int) : F) ⟨0, 1, 0⟩ }

/-- The method `Object::rotateZ(angleZ)`. -/
def Object.rotateZ (W : World F) (o : Object F) (angleZ : Int) : Object F :=
  { o with m_modelMatrix := QMatrix4x4.rotate W o.m_modelMatrix ((angleZ.tmod 360 : Int) : F) ⟨0, 0, 1⟩ }

end ObjectOps

section ObjectLoads
variable {F : Type}

/-- The body shared by the four loaders of `opengl/object.cpp` once the slot
has been overwritten with `Texture(filePath)`: the suffix test, then the HDR or
the LDR load of the slot `slot`.  The result is the boolean, the slot and the
OpenGL state, or `none` when `substr` throws. -/
def loadBySuffix (W : World F) (filePath : String) (slot : Texture) (gl : GLState) :
    Option (Bool × Texture × GLState) :=
  match lastThree filePath with
  | none => none
  | some suffix =>
    if suffix = stdBytes "pfm" then some (slot.load_32FC3 W gl) else some (slot.load_8UC3 W gl)

/-- The method `Object::loadDiffuseTexture(filePath)`. -/
def Object.loadDiffuseTexture (W : World F) (filePath : String) (o : Object F) (gl : GLState) :
    Outcome (Object F × GLState) Bool :=
  let o1 := { o with m_diffuseTexture := Texture.new filePath }
  match loadBySuffix W filePath o1.m_diffuseTexture gl with
  | none => .threw (o1, gl)
  | some r => .returned r.1 ({ o1 with m_diffuseTexture := r.2.1 }, r.2.2)

/-- The method `Object::loadSpecularTexture(filePath)`. -/
def Object.loadSpecularTexture (W : World F) (filePath : String) (o : Object F) (gl : GLState) :
    Outcome (Object F × GLState) Bool :=
  let o1 := { o with m_specularTexture := Texture.new filePath }
  match loadBySuffix W filePath o1.m_specularTexture gl with
  | none => .threw (o1, gl)
  | some r => .returned r.1 ({ o1 with m_specularTexture := r.2.1 }, r.2.2)

/-- The method `Object::loadNormalMap(filePath)`. -/
def Object.loadNormalMap (W : World F) (filePath : String) (o : Object F) (gl : GLState) :
    Outcome (Object F × GLState) Bool :=
  let o1 := { o with m_normalMap := Texture.new filePath }
  match loadBySuffix W filePath o1.m_normalMap gl with
  | none => .threw (o1, gl)
  | some r => .returned r.1 ({ o1 with m_normalMap := r.2.1 }, r.2.2)

/-- The method `Object::loadRoughnessMap(filePath)`. -/
def Object.loadRoughnessMap (W : World F) (filePath : String) (o : Object F) (gl : GLState) :
    Outcome (Object F × GLState) Bool :=
  let o1 := { o with m_roughnessMap := Texture.new filePath }
  match loadBySuffix W filePath o1.m_roughnessMap gl with
  | none => .threw (o1, gl)
  | some r => .returned r.1 ({ o1 with m_roughnessMap := r.2.1 }, r.2.2)

end ObjectLoads

/-! ## Scene (`opengl/scene.cpp`) -/

/-- A scene: objects, point lights and three environment textures
(`opengl/scene.h`). -/
structure Scene (F : Type) where
  m_objects : List (Object F)
  m_pointLights : List (Light F)
  m_environmentMap : Texture
  m_environmentMapRough : Texture
  m_environmentMapDiffuse : Texture
deriving DecidableEq

section SceneOps
variable {F : Type} [Field F]

/-- The method `Scene::buildScene()`. -/
def Scene.buildScene (W : World F) (s : Scene F) : Scene F :=
  { s with
    m_objects := s.m_objects ++ [Object.new W "square"]
    m_pointLights := s.m_pointLights ++ [Light.new ⟨0, 0, 30, 1⟩ ⟨1, 1, 1⟩ 1] }

/-- The default constructor `Scene::Scene()`. -/
def Scene.new (W : World F) : Scene F :=
  Scene.buildScene W
    { m_objects := [], m_pointLights := [], m_environmentMap := Texture.new "",
      m_environmentMapRough := Texture.new "", m_environmentMapDiffuse := Texture.new "" }

/-- The constructor `Scene::Scene(listOfObjectNames, listOfPointLights)`. -/
def Scene.fromLists (W : World F) (listOfObjectNames : List String)
    (listOfPointLights : List (Light F)) : Scene F :=
  { m_objects := listOfObjectNames.map (Object.new W), m_pointLights := listOfPointLights,
    m_environmentMap := Texture.default, m_environmentMapRough := Texture.default,
    m_environmentMapDiffuse := Texture.default }

/-- The method `Scene::translateLightSourceX`. -/
def Scene.translateLightSourceX (s : Scene F) (lightNumber : Int) (translationX : F) :
    Outcome (Scene F) Unit :=
  if lightNumber < QVector.size s.m_pointLights then
    match QVector.index s.m_pointLights lightNumber with
    | none => .undefinedBehaviour
    | some e => .returned () { s with m_pointLights := QVector.assign s.m_pointLights lightNumber (e.translateX translationX) }
  else
    .returned () s

/-- The method `Scene::translateLightSourceY`. -/
def Scene.translateLightSourceY (s : Scene F) (lightNumber : Int) (translationY : F) :
    Outcome (Scene F) Unit :=
  if lightNumber < QVector.size s.m_pointLights then
    match QVector.index s.m_pointLights lightNumber with
    | none => .undefinedBehaviour
    | some e => .returned () { s with m_pointLights := QVector.assign s.m_pointLights lightNumber (e.translateY translationY) }
  else
    .returned () s

/-- The method `Scene::translateLightSourceZ`. -/
def Scene.translateLightSourceZ (s : Scene F) (lightNumber : Int) (translationZ : F) :
    Outcome (Scene F) Unit :=
  if lightNumber < QVector.size s.m_pointLights then
    match QVector.index s.m_pointLights lightNumber with
    | none => .undefinedBehaviour
    | some e => .returned () { s with m_pointLights := QVector.assign s.m_pointLights lightNumber (e.translateZ translationZ) }
  else
    .returned () s

/-- The method `Scene::setLightSourcePosition`. -/
def Scene.setLightSourcePosition (s : Scene F) (lightNumber : Int) (x y z : F) :
    Outcome (Scene F) Unit :=
  if lightNumber < QVector.size s.m_pointLights then
    match QVector.index s.m_pointLights lightNumber with
    | none => .undefinedBehaviour
    | some e => .returned () { s with m_pointLights := QVector.assign s.m_pointLights lightNumber (e.setPosition x y z) }
  else
    .returned () s

variable [DecidableEq F]

/-- The method `Scene::rotateObjectX`. -/
def Scene.rotateObjectX (W : World F) (s : Scene F) (objectNumber : Int) (rotationX : Int) :
    Outcome (Scene F) Unit :=
  if objectNumber < QVector.size s.m_objects then
    match QVector.index s.m_objects objectNumber with
    | none => .undefinedBehaviour
    | some e =>
      .returned () { s with m_objects := QVector.assign s.m_objects objectNumber (e.rotateX W rotationX) }
  else
    .returned () s

/-- The method `Scene::rotateObjectY`. -/
def Scene.rotateObjectY (W : World F) (s : Scene F) (objectNumber : Int) (rotationY : Int) :
    Outcome (Scene F) Unit :=
  if objectNumber < QVector.size s.m_objects then
    match QVector.index s.m_objects objectNumber with
    | none => .undefinedBehaviour
    | some e =>
      .returned () { s with m_objects := QVector.assign s.m_objects objectNumber (e.rotateY W rotationY) }
  else
    .returned () s

/-- The method `Scene::rotateObjectZ`. -/
def Scene.rotateObjectZ (W : World F) (s : Scene F) (objectNumber : Int) (rotationZ : Int) :
    Outcome (Scene F) Unit :=
  if objectNumber < QVector.size s.m_objects then
    match QVector.index s.m_objects objectNumber with
    | none => .undefinedBehaviour
    | some e =>
      .returned () { s with m_objects := QVector.assign s.m_objects objectNumber (e.rotateZ W rotationZ) }
  else
    .returned () s

end SceneOps

section SceneLoads
variable {F : Type} [Field F]

/-- The method `Scene::loadDiffuseMap(filePath, objectNumber)`. -/
def Scene.loadDiffuseMap (W : World F) (filePath : String) (objectNumber : Int) (s : Scene F)
    (gl : GLState) : Outcome (Scene F × GLState) Bool :=
  if objectNumber < QVector.size s.m_objects then
    match QVector.index s.m_objects objectNumber with
    | none => .undefinedBehaviour
    | some e =>
      match Object.loadDiffuseTexture W filePath e gl with
      | .returned loaded r =>
        if loaded then
          .returned loaded
            ({ s with m_objects :=
                 QVector.assign s.m_objects objectNumber r.1.resetModelMatrix.setAspectRatio }, r.2)
        else
          .returned loaded ({ s with m_objects := QVector.assign s.m_objects objectNumber r.1 }, r.2)
      | .threw r => .threw ({ s with m_objects := QVector.assign s.m_objects objectNumber r.1 }, r.2)
      | .undefinedBehaviour => .undefinedBehaviour
  else
    .returned false (s, gl)

/-- The method `Scene::loadSpecularMap(filePath, objectNumber)`. -/
def Scene.loadSpecularMap (W : World F) (filePath : String) (objectNumber : Int) (s : Scene F)
    (gl : GLState) : Outcome (Scene F × GLState) Bool :=
  if objectNumber < QVector.size s.m_objects then
    match QVector.index s.m_objects objectNumber with
    | none => .undefinedBehaviour
    | some e =>
      match Object.loadSpecularTexture W filePath e gl with
      | .returned loaded r =>
        .returned loaded ({ s with m_objects := QVector.assign s.m_objects objectNumber r.1 }, r.2)
      | .threw r => .threw ({ s with m_objects := QVector.assign s.m_objects objectNumber r.1 }, r.2)
      | .undefinedBehaviour => .undefinedBehaviour
  else
    .returned false (s, gl)

/-- The method `Scene::loadNormalMap(filePath, objectNumber)`. -/
def Scene.loadNormalMap (W : World F) (filePath : String) (objectNumber : Int) (s : Scene F)
    (gl : GLState) : Outcome (Scene F × GLState) Bool :=
  if objectNumber < QVector.size s.m_objects then
    match QVector.index s.m_objects objectNumber with
    | none => .undefinedBehaviour
    | some e =>
      match Object.loadNormalMap W filePath e gl with
      | .returned loaded r =>
        .returned loaded ({ s with m_objects := QVector.assign s.m_objects objectNumber r.1 }, r.2)
      | .threw r => .threw ({ s with m_objects := QVector.assign s.m_objects objectNumber r.1 }, r.2)
      | .undefinedBehaviour => .undefinedBehaviour
  else
    .returned false (s, gl)

/-- The method `Scene::loadRoughnessMap(filePath, objectNumber)`. -/
def Scene.loadRoughnessMap (W : World F) (filePath : String) (objectNumber : Int) (s : Scene F)
    (gl : GLState) : Outcome (Scene F × GLState) Bool :=
  if objectNumber < QVector.size s.m_objects then
    match QVector.index s.m_objects objectNumber with
    | none => .undefinedBehaviour
    | some e =>
      match Object.loadRoughnessMap W filePath e gl with
      | .returned loaded r =>
        .returned loaded ({ s with m_objects := QVector.assign s.m_objects objectNumber r.1 }, r.2)
      | .threw r => .threw ({ s with m_objects := QVector.assign s.m_objects objectNumber r.1 }, r.2)
      | .undefinedBehaviour => .undefinedBehaviour
  else
    .returned false (s, gl)

/-- The method `Scene::loadEnvironmentMap(EMPath, EMDiffusePath, EMRoughPath)`:
the boolean returned, the scene and the OpenGL state afterwards. -/
def Scene.loadEnvironmentMap (W : World F) (EMPath EMDiffusePath EMRoughPath : String)
    (s : Scene F) (gl : GLState) : Bool × Scene F × GLState :=
  let s1 := { s with m_environmentMap := Texture.new EMPath
                     m_environmentMapRough := Texture.new EMDiffusePath
                     m_environmentMapDiffuse := Texture.new EMRoughPath }
  let em := s1.m_environmentMap.load_32FC3 W gl
  let emRough := s1.m_environmentMapRough.load_32FC3 W em.2.2
  let emDiffuse := s1.m_environmentMapDiffuse.load_32FC3 W emRough.2.2
  (em.1 && emRough.1 && emDiffuse.1,
    { s1 with m_environmentMap := em.2.1, m_environmentMapRough := emRough.2.1,
              m_environmentMapDiffuse := emDiffuse.2.1 },
    emDiffuse.2.2)

/-- The method `Scene::getEnvironmentMapId()`. -/
def Scene.getEnvironmentMapId (s : Scene F) : Nat := s.m_environmentMap.getTextureId

/-- The method `Scene::getEnvironmentMapRoughId()`. -/
def Scene.getEnvironmentMapRoughId (s : Scene F) : Nat := s.m_environmentMapRough.getTextureId

/-- The method `Scene::getEnvironmentMapDiffuseId()`. -/
def Scene.getEnvironmentMapDiffuseId (s : Scene F) : Nat := s.m_environmentMapDiffuse.getTextureId

end SceneLoads

/-! ## Vectors, the C math library and the viewing matrices of Qt -/

/-- The functions of the C math library the program calls (`std::sqrt`,
`std::sin`, `std::cos`, `acos`, angles in radians), the constant `M_PI`, and
the two fuzzy comparisons of Qt: `qFuzzyIsNull(double d)`, which holds when
`|d| <= 0.000000000001`, and `qFuzzyIsNull(float f)`, which holds when
`|f| <= 0.00001f`. -/
structure CMath (F : Type) where
  sqrt : F → F
  sin : F → F
  cos : F → F
  acos : F → F
  pi : F
  qFuzzyIsNull : F → Bool
  qFuzzyIsNullFloat : F → Bool

/-- The math library made of the given functions and of the fuzzy comparisons
of Qt with their thresholds. -/
def CMath.ofLibrary {F : Type} [LinearOrderedField F] (sqrt sin cos acos : F → F) (pi : F) :
    CMath F :=
  { sqrt := sqrt, sin := sin, cos := cos, acos := acos, pi := pi
    qFuzzyIsNull := fun d => decide (|d| ≤ 1 / 1000000000000)
    qFuzzyIsNullFloat := fun f => decide (|f| ≤ 1 / 100000) }

section Vectors
variable {F : Type} [Field F]

/-- Qt `QVector3D` difference. -/
def QVector3D.sub (a b : QVector3D F) : QVector3D F := ⟨a.x - b.x, a.y - b.y, a.z - b.z⟩

/-- Qt `QVector3D` sum. -/
def QVector3D.add (a b : QVector3D F) : QVector3D F := ⟨a.x + b.x, a.y + b.y, a.z + b.z⟩

/-- Qt `QVector3D` opposite. -/
def QVector3D.neg (a : QVector3D F) : QVector3D F := ⟨-a.x, -a.y, -a.z⟩

/-- Qt product of a factor and a `QVector3D`. -/
def QVector3D.smul (k : F) (a : QVector3D F) : QVector3D F := ⟨k * a.x, k * a.y, k * a.z⟩

/-- Qt `QVector3D::crossProduct(a, b)`. -/
def QVector3D.crossProduct (a b : QVector3D F) : QVector3D F :=
  ⟨a.y * b.z - a.z * b.y, a.z * b.x - a.x * b.z, a.x * b.y - a.y * b.x⟩

/-- Qt `QVector3D::dotProduct(a, b)`. -/
def QVector3D.dotProduct (a b : QVector3D F) : F := a.x * b.x + a.y * b.y + a.z * b.z

/-- Qt `QVector3D::lengthSquared()`. -/
def QVector3D.lengthSquared (a : QVector3D F) : F := a.x * a.x + a.y * a.y + a.z * a.z

/-- Qt `QVector4D` difference (all four components). -/
def QVector4D.sub (a b : QVector4D F) : QVector4D F :=
  ⟨a.x - b.x, a.y - b.y, a.z - b.z, a.w - b.w⟩

/-- Qt product of a factor and a `QVector4D` (all four components). -/
def QVector4D.smul (k : F) (a : QVector4D F) : QVector4D F := ⟨k * a.x, k * a.y, k * a.z, k * a.w⟩

/-- Qt `QVector4D::toVector3D()`: drops the w component. -/
def QVector4D.toVector3D (a : QVector4D F) : QVector3D F := ⟨a.x, a.y, a.z⟩

/-- Qt product of a `QMatrix4x4` and a `QVector4D`. -/
def QMatrix4x4.map (m : QMatrix4x4 F) (v : QVector4D F) : QVector4D F :=
  ⟨m 0 0 * v.x + m 0 1 * v.y + m 0 2 * v.z + m 0 3 * v.w,
   m 1 0 * v.x + m 1 1 * v.y + m 1 2 * v.z + m 1 3 * v.w,
   m 2 0 * v.x + m 2 1 * v.y + m 2 2 * v.z + m 2 3 * v.w,
   m 3 0 * v.x + m 3 1 * v.y + m 3 2 * v.z + m 3 3 * v.w⟩

/-- Qt `QVector3D::normalize()` (in place): with `len` the squared length, the
vector is left alone when `qFuzzyIsNull(len - 1.0f) || qFuzzyIsNull(len)`, and
is divided by `std::sqrt(len)` otherwise. -/
def QVector3D.normalize (M : CMath F) (a : QVector3D F) : QVector3D F :=
  let len := a.lengthSquared
  if M.qFuzzyIsNull (len - 1) || M.qFuzzyIsNull len then a
  else ⟨a.x / M.sqrt len, a.y / M.sqrt len, a.z / M.sqrt len⟩

/-- Qt `QVector3D::normalized()`: the vector itself when
`qFuzzyIsNull(len - 1.0f)`, the vector divided by `std::sqrt(len)` when
`!qFuzzyIsNull(len)`, the null vector otherwise. -/
def QVector3D.normalized (M : CMath F) (a : QVector3D F) : QVector3D F :=
  let len := a.lengthSquared
  if M.qFuzzyIsNull (len - 1) then a
  else if !M.qFuzzyIsNull len then ⟨a.x / M.sqrt len, a.y / M.sqrt len, a.z / M.sqrt len⟩
  else ⟨0, 0, 0⟩

variable [DecidableEq F]

/-- Qt `QMatrix4x4::lookAt(eye, center, up)`: multiplies this matrix by the
viewing matrix of an eye at `eye` looking at `center`; a viewing direction whose
three components are fuzzily null leaves the matrix alone. -/
def QMatrix4x4.lookAt (M : CMath F) (m : QMatrix4x4 F) (eye center up : QVector3D F) :
    QMatrix4x4 F :=
  let forward := center.sub eye
  if M.qFuzzyIsNullFloat forward.x && M.qFuzzyIsNullFloat forward.y &&
      M.qFuzzyIsNullFloat forward.z then m
  else
    let forward := forward.normalize M
    let side := (QVector3D.crossProduct forward up).normalized M
    let upVector := QVector3D.crossProduct side forward
    let r : QMatrix4x4 F :=
      !![side.x, side.y, side.z, 0;
         upVector.x, upVector.y, upVector.z, 0;
         -forward.x, -forward.y, -forward.z, 0;
         0, 0, 0, 1]
    QMatrix4x4.translate (m * r) (-eye.x) (-eye.y) (-eye.z)

/-- Qt `QMatrix4x4::perspective(verticalAngle, aspectRatio, nearPlane, farPlane)`:
multiplies this matrix by the perspective projection; equal planes, a zero
aspect ratio or a zero sine of the half angle leave the matrix alone. -/
def QMatrix4x4.perspective (W : World F) (m : QMatrix4x4 F)
    (verticalAngle aspectRatio nearPlane farPlane : F) : QMatrix4x4 F :=
  if nearPlane = farPlane ∨ aspectRatio = 0 then m
  else
    let sine := W.sinDeg (verticalAngle / 2)
    if sine = 0 then m
    else
      let cotan := W.cosDeg (verticalAngle / 2) / sine
      let clip := farPlane - nearPlane
      m * !![cotan / aspectRatio, 0, 0, 0;
             0, cotan, 0, 0;
             0, 0, -(nearPlane + farPlane) / clip, -(2 * nearPlane * farPlane) / clip;
             0, 0, -1, 0]

/-- Qt `QMatrix4x4::ortho(left, right, bottom, top, nearPlane, farPlane)`:
multiplies this matrix by the orthographic projection; a box with two equal
opposite planes leaves the matrix alone. -/
def QMatrix4x4.ortho (m : QMatrix4x4 F) (left right bottom top nearPlane farPlane : F) :
    QMatrix4x4 F :=
  if left = right ∨ bottom = top ∨ nearPlane = farPlane then m
  else
    let width := right - left
    let invheight := top - bottom
    let clip := farPlane - nearPlane
    m * !![2 / width, 0, 0, -(left + right) / width;
           0, 2 / invheight, 0, -(top + bottom) / invheight;
           0, 0, -2 / clip, -(nearPlane + farPlane) / clip;
           0, 0, 0, 1]

end Vectors

/-! ## Camera (`opengl/camera.cpp`) -/

/-- A camera (`opengl/camera.h`). -/
structure Camera (F : Type) where
  m_position : QVector4D F
  m_upVector : QVector4D F
  m_center : QVector4D F
  m_perspectiveCamera : Bool
  m_aspectRatio : F
  m_fieldOfView : F
  m_viewMatrix : QMatrix4x4 F
  m_projectionMatrix : QMatrix4x4 F
deriving DecidableEq

section CameraOps
variable {F : Type} [Field F] [DecidableEq F]

/-- The method `Camera::viewMatrix(position, upVector, center)`. -/
def Camera.viewMatrix (M : CMath F) (cam : Camera F) (position upVector center : QVector4D F) :
    Camera F :=
  { cam with
    m_viewMatrix :=
      QMatrix4x4.lookAt M (QMatrix4x4.setToIdentity cam.m_viewMatrix) position.toVector3D
        center.toVector3D upVector.toVector3D }

/-- The method `Camera::projectionMatrix(aspectRatio, fieldOfView)`. -/
def Camera.projectionMatrix (W : World F) (cam : Camera F) (aspectRatio fieldOfView : F) :
    Camera F :=
  { cam with
    m_projectionMatrix :=
      if cam.m_perspectiveCamera then
        QMatrix4x4.perspective W (QMatrix4x4.setToIdentity cam.m_projectionMatrix) fieldOfView
          aspectRatio (1 / 1000) 10000
      else
        QMatrix4x4.ortho (QMatrix4x4.setToIdentity cam.m_projectionMatrix) (-(1 / 2)) (1 / 2)
          (-(1 / 2)) (1 / 2) (1 / 1000) 10000 }

/-- The six-argument constructor `Camera::Camera(position, upVector, center,
perspectiveCamera, aspectRatio, fieldOfView)`. -/
def Camera.new (W : World F) (M : CMath F) (position upVector center : QVector4D F)
    (perspectiveCamera : Bool) (aspectRatio fieldOfView : F) : Camera F :=
  let cam : Camera F :=
    { m_position := position, m_upVector := upVector, m_center := center,
      m_perspectiveCamera := perspectiveCamera, m_aspectRatio := aspectRatio,
      m_fieldOfView := fieldOfView, m_viewMatrix := 1, m_projectionMatrix := 1 }
  let cam := cam.viewMatrix M cam.m_position cam.m_upVector cam.m_center
  cam.projectionMatrix W cam.m_aspectRatio cam.m_fieldOfView

/-- The method `Camera::rotateX(xRotation)`. -/
def Camera.rotateX (W : World F) (M : CMath F) (cam : Camera F) (xRotation : F) : Camera F :=
  let cameraTransformation := QMatrix4x4.rotate W (1 : QMatrix4x4 F) xRotation ⟨1, 0, 0⟩
  let newPosition := cameraTransformation.map cam.m_position
  let newUpVector := cameraTransformation.map cam.m_upVector
  { cam with
    m_position := newPosition
    m_upVector := newUpVector
    m_viewMatrix :=
      QMatrix4x4.lookAt M (QMatrix4x4.setToIdentity cam.m_viewMatrix) newPosition.toVector3D
        cam.m_center.toVector3D newUpVector.toVector3D }

/-- The method `Camera::rotateY(yRotation)`. -/
def Camera.rotateY (W : World F) (M : CMath F) (cam : Camera F) (yRotation : F) : Camera F :=
  let cameraTransformation := QMatrix4x4.rotate W (1 : QMatrix4x4 F) yRotation ⟨0, 1, 0⟩
  let newPosition := cameraTransformation.map cam.m_position
  let newUpVector := cameraTransformation.map cam.m_upVector
  { cam with
    m_position := newPosition
    m_upVector := newUpVector
    m_viewMatrix :=
      QMatrix4x4.lookAt M (QMatrix4x4.setToIdentity cam.m_viewMatrix) newPosition.toVector3D
        cam.m_center.toVector3D newUpVector.toVector3D }

/-- The method `Camera::translateAlongOriginAxis(translation)`. -/
def Camera.translateAlongOriginAxis (M : CMath F) (cam : Camera F) (translation : F) :
    Camera F :=
  let newPosition := QVector4D.smul translation (cam.m_position.sub cam.m_center)
  { cam with
    m_position := newPosition
    m_viewMatrix :=
      QMatrix4x4.lookAt M (QMatrix4x4.setToIdentity cam.m_viewMatrix) newPosition.toVector3D
        cam.m_center.toVector3D cam.m_upVector.toVector3D }

/-- The method `Camera::resetCamera()`. -/
def Camera.resetCamera (M : CMath F) (cam : Camera F) : Camera F :=
  let cam1 := { cam with m_position := ⟨0, 0, 5, 1⟩, m_upVector := ⟨0, 1, 0, 1⟩,
                         m_center := ⟨0, 0, 0, 1⟩ }
  cam1.viewMatrix M cam1.m_position cam1.m_upVector cam1.m_center

/-- The public operations of a camera after its construction. -/
inductive CameraOp (F : Type) where
  | viewMatrix (position upVector center : QVector4D F) : CameraOp F
  | projectionMatrix (aspectRatio fieldOfView : F) : CameraOp F
  | rotateX (xRotation : F) : CameraOp F
  | rotateY (yRotation : F) : CameraOp F
  | translateAlongOriginAxis (translation : F) : CameraOp F
  | resetCamera : CameraOp F

/-- Runs one operation. -/
def Camera.apply (W : World F) (M : CMath F) (cam : Camera F) : CameraOp F → Camera F
  | .viewMatrix position upVector center => cam.viewMatrix M position upVector center
  | .projectionMatrix aspectRatio fieldOfView => cam.projectionMatrix W aspectRatio fieldOfView
  | .rotateX xRotation => cam.rotateX W M xRotation
  | .rotateY yRotation => cam.rotateY W M yRotation
  | .translateAlongOriginAxis translation => cam.translateAlongOriginAxis M translation
  | .resetCamera => cam.resetCamera M

/-- Runs a sequence of operations, first to last. -/
def Camera.run (W : World F) (M : CMath F) (cam : Camera F) (ops : List (CameraOp F)) :
    Camera F :=
  ops.foldl (Camera.apply W M) cam

end CameraOps

/-! ## Reading a mesh (`opengl/mesh.cpp`) -/

/-- What `Mesh::offReader` extracts from its file: the two counts it converts
with `atoi`, and for every `i` the `i`-th vertex and the `i`-th index triple it
would read. -/
structure OffFile (F : Type) where
  numberOfVertices : Int
  numberOfTriangles : Int
  vertexAt : Nat → QVector3D F
  triangleAt : Nat → Int × Int × Int

/-- The conversion of an `int` to `GLuint` (32 bits) done by
`m_indicesArray.push_back(index)`. -/
def toGLuint (index : Int) : Nat := (index % 4294967296).toNat

/-- The conversion of a 32-bit `int` to `float` (IEEE 754 single precision,
round to nearest, ties to even), given as the whole number the `float` holds:
the number itself up to 2^24 = 16777216 in absolute value, the nearest number
with 24 significant bits beyond, where `e` bits are dropped. -/
def floatOfInt (n : Int) : Int :=
  let a := n.natAbs
  if a ≤ 16777216 then n
  else
    let e : Nat :=
      if a < 33554432 then 1 else if a < 67108864 then 2 else if a < 134217728 then 3
      else if a < 268435456 then 4 else if a < 536870912 then 5 else if a < 1073741824 then 6
      else if a < 2147483648 then 7 else 8
    let q := a / 2 ^ e
    let r := a % 2 ^ e
    let m := if 2 ^ e < 2 * r ∨ (2 * r = 2 ^ e ∧ q % 2 = 1) then q + 1 else q
    if n < 0 then -((m * 2 ^ e : Nat) : Int) else ((m * 2 ^ e : Nat) : Int)

/-- The index triple as `m_indices[i] = QVector3D(index1, index2, index3)`
stores it, each index converted to `float`; given as whole numbers. -/
def Mesh.storedTriple (t : Int × Int × Int) : Int × Int × Int :=
  (floatOfInt t.1, floatOfInt t.2.1, floatOfInt t.2.2)

section MeshReader
variable {F : Type} [Field F]

/-- The normal of one triangle in `Mesh::offReader`: the normalized cross
product of `v1 - v2` and `v1 - v3`; `none` when a vertex lookup is out of
range. -/
def Mesh.faceNormal (M : CMath F) (vertices : List (QVector3D F)) (t : Int × Int × Int) :
    Option (QVector3D F) :=
  match QVector.index vertices t.1, QVector.index vertices t.2.1,
      QVector.index vertices t.2.2 with
  | some v1, some v2, some v3 =>
    some ((QVector3D.crossProduct (v1.sub v2) (v1.sub v3)).normalize M)
  | _, _, _ => none

/-- The first loop over the triangles in `Mesh::offReader`: the normal of every
triangle, in file order. -/
def Mesh.faceNormals (M : CMath F) (vertices : List (QVector3D F)) :
    List (Int × Int × Int) → Option (List (QVector3D F))
  | [] => some []
  | t :: ts =>
    match Mesh.faceNormal M vertices t, Mesh.faceNormals M vertices ts with
    | some n, some ns => some (n :: ns)
    | _, _ => none

/-- The angle-weighted normal `acos(dotProduct(vector1, vector2)) * normal`
at vertex `k` between the edges to the vertices `a` and `b`. -/
def Mesh.corner (M : CMath F) (vertices : List (QVector3D F)) (k a b : Int)
    (normal : QVector3D F) : Option (QVector3D F) :=
  match QVector.index vertices a, QVector.index vertices b, QVector.index vertices k with
  | some va, some vb, some vk =>
    let vector1 := (va.sub vk).normalize M
    let vector2 := (vb.sub vk).normalize M
    some (QVector3D.smul (M.acos (QVector3D.dotProduct vector1 vector2)) normal)
  | _, _, _ => none

/-- What one triangle adds to the normal of vertex `k` in `Mesh::offReader`:
the `if / else if / else if` on the three indices of the triangle, with `t` the
triple stored in `m_indices[i]`.  The comparison `m_indices[i].x() == k`
converts `k` to `float`, and the lookups `m_vertices[m_indices[i].y()]` convert
the stored `float` back to `int`. -/
def Mesh.contribution (M : CMath F) (vertices : List (QVector3D F)) (k : Int)
    (t : Int × Int × Int) (normal : QVector3D F) : Option (QVector3D F) :=
  if t.1 = floatOfInt k then Mesh.corner M vertices k t.2.1 t.2.2 normal
  else if t.2.1 = floatOfInt k then Mesh.corner M vertices k t.2.2 t.1 normal
  else if t.2.2 = floatOfInt k then Mesh.corner M vertices k t.1 t.2.1 normal
  else some ⟨0, 0, 0⟩

/-- The inner loop of `Mesh::offReader` for vertex `k`: the sum, from `acc` on,
of the contributions of the triangles. -/
def Mesh.weightedNormal (M : CMath F) (vertices : List (QVector3D F)) (k : Int) :
    List ((Int × Int × Int) × QVector3D F) → QVector3D F → Option (QVector3D F)
  | [], acc => some acc
  | (t, normal) :: rest, acc =>
    match Mesh.contribution M vertices k t normal with
    | none => none
    | some c => Mesh.weightedNormal M vertices k rest (acc.add c)

/-- The outer loop of `Mesh::offReader` over the vertices `ks`: for each one
the normalized sum of the contributions, starting from the null vector. -/
def Mesh.vertexNormals (M : CMath F) (vertices : List (QVector3D F))
    (triangles : List ((Int × Int × Int) × QVector3D F)) :
    List Nat → Option (List (QVector3D F))
  | [] => some []
  | k :: ks =>
    match Mesh.weightedNormal M vertices (k : Int) triangles ⟨0, 0, 0⟩,
        Mesh.vertexNormals M vertices triangles ks with
    | some a, some ns => some (a.normalize M :: ns)
    | _, _ => none

/-- The method `Mesh::offReader` run by the constructor on an empty mesh, on
the content of its file; `none` is undefined behaviour (a negative count given
to `resize`, or a vertex lookup out of range).  The face normals use the
indices as parsed; the vertex normals use the triples stored in `m_indices`,
where every index has gone through a `float`. -/
def Mesh.offReader (M : CMath F) (file : OffFile F) : Option (Mesh F) :=
  if file.numberOfVertices < 0 ∨ file.numberOfTriangles < 0 then none
  else
    let vertices := (List.range file.numberOfVertices.toNat).map file.vertexAt
    let triangles := (List.range file.numberOfTriangles.toNat).map file.triangleAt
    match Mesh.faceNormals M vertices triangles with
    | none => none
    | some normals =>
      match Mesh.vertexNormals M vertices ((triangles.map Mesh.storedTriple).zip normals)
          (List.range file.numberOfVertices.toNat) with
      | none => none
      | some vertexNormals =>
        some
          { m_vertices := vertices
            m_indices := triangles.map fun t =>
              ⟨(floatOfInt t.1 : F), (floatOfInt t.2.1 : F), (floatOfInt t.2.2 : F)⟩
            m_indicesArray :=
              (triangles.map fun t => [toGLuint t.1, toGLuint t.2.1, toGLuint t.2.2]).flatten
            m_triangleNormals := normals
            m_vertexNormals := vertexNormals
            m_textureCoordinates := [] }

end MeshReader

/-! ## Scene reset and the renderer (`opengl/scene.cpp`, `qt/gldisplay.cpp`) -/

section Renderer
variable {F : Type} [Field F]

/-- The method `Scene::resetTransformationsObjects()`: every object, in list
order, gets `resetModelMatrix()` then `setAspectRatio()`. -/
def Scene.resetTransformationsObjects (s : Scene F) : Scene F :=
  { s with m_objects := s.m_objects.map fun o => o.resetModelMatrix.setAspectRatio }

/-- The method `GLDisplay::loadEnvironmentMap(environmentMapPathNoExtension)`
on the scene of the display: the boolean returned, the scene and the OpenGL
state afterwards (the log message is left out). -/
def GLDisplay.loadEnvironmentMap (W : World F) (environmentMapPathNoExtension : String)
    (m_scene : Scene F) (gl : GLState) : Bool × Scene F × GLState :=
  let EMDiffuse := environmentMapPathNoExtension ++ "_diffuse.pfm"
  let EMRough := environmentMapPathNoExtension ++ "_rough.pfm"
  let environmentMapPathNoExtension := environmentMapPathNoExtension ++ ".pfm"
  Scene.loadEnvironmentMap W environmentMapPathNoExtension EMDiffuse EMRough m_scene gl

/-- The texture bindings of `GLDisplay::sendObjectDataToShaders(object)`: the
texture name bound to each of the texture units 0 to 6, in unit order.  The
samplers `diffuse_texture`, `specular_texture`, `normal_map`, `roughness_map`,
`environmentMap`, `environmentMapRough`, `environmentMapDiffuse` read the units
0 to 6 in this order. -/
def GLDisplay.sendObjectDataToShaders (m_scene : Scene F) (object : Object F) : List Nat :=
  [object.m_diffuseTexture.getTextureId, object.m_specularTexture.getTextureId,
   object.m_normalMap.getTextureId, object.m_roughnessMap.getTextureId,
   m_scene.getEnvironmentMapId, m_scene.getEnvironmentMapRoughId,
   m_scene.getEnvironmentMapDiffuseId]

/-- The value `GLDisplay::renderScene` uploads as `lightPosition_camSpace`:
`viewMatrixScene*lightModelMatrix*lightPosition` for the first light of the
scene; `none` when the scene has no light (`pointLights[0]` out of range). -/
def GLDisplay.lightPosition_camSpace (viewMatrixScene : QMatrix4x4 F) (m_scene : Scene F) :
    Option (QVector4D F) :=
  match QVector.index m_scene.m_pointLights 0 with
  | none => none
  | some light =>
    some (QMatrix4x4.map (viewMatrixScene * light.m_modelMatrix) light.m_lightPosition)

/-- Runs `f` on the state a call ended in, when it returned. -/
def Outcome.andThen {σ : Type} (o : Outcome σ Unit) (f : σ → Outcome σ Unit) : Outcome σ Unit :=
  match o with
  | .returned _ s => f s
  | .threw s => .threw s
  | .undefinedBehaviour => .undefinedBehaviour

/-- An `if` without `else` around a call on the scene. -/
def whenElapsed (c : Bool) (f : Scene F → Outcome (Scene F) Unit) (s : Scene F) :
    Outcome (Scene F) Unit :=
  if c then f s else .returned () s

/-- The method `GLDisplay::animation()` on the scene of the display, with
`elapsed` the value `m_animationTime.elapsed()` (milliseconds) returns during
the call. -/
def GLDisplay.animation (M : CMath F) (elapsed : Int) (m_scene : Scene F) :
    Outcome (Scene F) Unit :=
  let maxDistanceZ : F := 25
  let scaleFactor : F := 300
  let radius : F := 30
  let e : F := (elapsed : F)
  (whenElapsed (decide (0 ≤ elapsed) && decide (elapsed < 1000)) (fun s =>
      let theta : F := 0
      s.setLightSourcePosition 0 0 (radius * M.sin theta) (radius * M.cos theta)) m_scene)
  |>.andThen (whenElapsed (decide (1000 ≤ elapsed) && decide (elapsed < 3000)) fun s =>
      let theta : F := (e - 1000) / 2000 * (M.pi / 12)
      s.setLightSourcePosition 0 0 (radius * M.sin theta) (radius * M.cos theta))
  |>.andThen (whenElapsed (decide (3000 ≤ elapsed) && decide (elapsed < 5000)) fun s =>
      let theta : F := M.pi / 12 - (e - 3000) / 2000 * (M.pi / 12)
      s.setLightSourcePosition 0 0 (radius * M.sin theta) (radius * M.cos theta))
  |>.andThen (whenElapsed (decide (5000 ≤ elapsed) && decide (elapsed < 7000)) fun s =>
      let theta : F := -(e - 5000) / 2000 * (M.pi / 12)
      s.setLightSourcePosition 0 0 (radius * M.sin theta) (radius * M.cos theta))
  |>.andThen (whenElapsed (decide (7000 ≤ elapsed) && decide (elapsed < 9000)) fun s =>
      let theta : F := -M.pi / 12 + (e - 7000) / 2000 * (M.pi / 12)
      s.setLightSourcePosition 0 0 (radius * M.sin theta) (radius * M.cos theta))
  |>.andThen (whenElapsed (decide (9000 ≤ elapsed) && decide (elapsed < 11000)) fun s =>
      let theta : F := (e - 9000) / 2000 * (M.pi / 12)
      s.setLightSourcePosition 0 (radius * M.sin theta) 0 (radius * M.cos theta))
  |>.andThen (whenElapsed (decide (11000 ≤ elapsed) && decide (elapsed < 13000)) fun s =>
      let theta : F := M.pi / 12 - (e - 11000) / 2000 * (M.pi / 12)
      s.setLightSourcePosition 0 (radius * M.sin theta) 0 (radius * M.cos theta))
  |>.andThen (whenElapsed (decide (13000 ≤ elapsed) && decide (elapsed < 15000)) fun s =>
      let theta : F := -(e - 13000) / 2000 * (M.pi / 12)
      s.setLightSourcePosition 0 (radius * M.sin theta) 0 (radius * M.cos theta))
  |>.andThen (whenElapsed (decide (15000 ≤ elapsed) && decide (elapsed < 17000)) fun s =>
      let theta : F := -M.pi / 12 + (e - 15000) / 2000 * (M.pi / 12)
      s.setLightSourcePosition 0 (radius * M.sin theta) 0 (radius * M.cos theta))
  |>.andThen (whenElapsed (decide (17000 ≤ elapsed) && decide (elapsed < 19000)) fun s =>
      s.translateLightSourceZ 0 (-5 * maxDistanceZ / scaleFactor))
  |>.andThen (whenElapsed (decide (19000 ≤ elapsed) && decide (elapsed < 21000)) fun s =>
      s.translateLightSourceZ 0 (5 * maxDistanceZ / scaleFactor))

end Renderer

/-! ## The windows and the angle of the animation (`qt/gldisplay.cpp`) -/

/-- The conditions of the eleven `if` statements of `GLDisplay::animation()`, in
source order, for the value `elapsed` that `m_animationTime.elapsed()` returns
during the call. -/
def GLDisplay.animationWindows (elapsed : Int) : List Bool :=
  [decide (0 ≤ elapsed) && decide (elapsed < 1000),
   decide (1000 ≤ elapsed) && decide (elapsed < 3000),
   decide (3000 ≤ elapsed) && decide (elapsed < 5000),
   decide (5000 ≤ elapsed) && decide (elapsed < 7000),
   decide (7000 ≤ elapsed) && decide (elapsed < 9000),
   decide (9000 ≤ elapsed) && decide (elapsed < 11000),
   decide (11000 ≤ elapsed) && decide (elapsed < 13000),
   decide (13000 ≤ elapsed) && decide (elapsed < 15000),
   decide (15000 ≤ elapsed) && decide (elapsed < 17000),
   decide (17000 ≤ elapsed) && decide (elapsed < 19000),
   decide (19000 ≤ elapsed) && decide (elapsed < 21000)]

section AnimationAngle
variable {F : Type} [Field F]

/-- The right-hand side of the assignment to `theta` in the `k`-th `if` of
`GLDisplay::animation()`, k = 0 .. 8, as a function of the elapsed time `e`
taken as a floating-point number.  The two last windows do not assign `theta`,
which keeps the 0.0 of its declaration. -/
def GLDisplay.windowTheta (M : CMath F) (k : Nat) (e : F) : F :=
  match k with
  | 0 => 0
  | 1 => (e - 1000) / 2000 * (M.pi / 12)
  | 2 => M.pi / 12 - (e - 3000) / 2000 * (M.pi / 12)
  | 3 => -(e - 5000) / 2000 * (M.pi / 12)
  | 4 => -M.pi / 12 + (e - 7000) / 2000 * (M.pi / 12)
  | 5 => (e - 9000) / 2000 * (M.pi / 12)
  | 6 => M.pi / 12 - (e - 11000) / 2000 * (M.pi / 12)
  | 7 => -(e - 13000) / 2000 * (M.pi / 12)
  | 8 => -M.pi / 12 + (e - 15000) / 2000 * (M.pi / 12)
  | _ => 0

/-- The local variable `theta` of `GLDisplay::animation()` when the call ends:
0.0 at its declaration, then assigned in every sweep window whose condition
holds. -/
def GLDisplay.theta (M : CMath F) (elapsed : Int) : F :=
  let e : F := (elapsed : F)
  let theta : F := 0
  let theta := if decide (0 ≤ elapsed) && decide (elapsed < 1000) then
    GLDisplay.windowTheta M 0 e else theta
  let theta := if decide (1000 ≤ elapsed) && decide (elapsed < 3000) then
    GLDisplay.windowTheta M 1 e else theta
  let theta := if decide (3000 ≤ elapsed) && decide (elapsed < 5000) then
    GLDisplay.windowTheta M 2 e else theta
  let theta := if decide (5000 ≤ elapsed) && decide (elapsed < 7000) then
    GLDisplay.windowTheta M 3 e else theta
  let theta := if decide (7000 ≤ elapsed) && decide (elapsed < 9000) then
    GLDisplay.windowTheta M 4 e else theta
  let theta := if decide (9000 ≤ elapsed) && decide (elapsed < 11000) then
    GLDisplay.windowTheta M 5 e else theta
  let theta := if decide (11000 ≤ elapsed) && decide (elapsed < 13000) then
    GLDisplay.windowTheta M 6 e else theta
  let theta := if decide (13000 ≤ elapsed) && decide (elapsed < 15000) then
    GLDisplay.windowTheta M 7 e else theta
  let theta := if decide (15000 ≤ elapsed) && decide (elapsed < 17000) then
    GLDisplay.windowTheta M 8 e else theta
  theta

/-- The calls `this->animation()` that successive executions of
`GLDisplay::paintGL()` make while the animation is on, one for each elapsed
time of `ticks`. -/
def GLDisplay.animationTicks (M : CMath F) : List Int → Scene F → Outcome (Scene F) Unit
  | [], s => .returned () s
  | t :: ts, s => (GLDisplay.animation M t s).andThen (GLDisplay.animationTicks M ts)

end AnimationAngle

/-! ## Scene reset (`opengl/scene.cpp`, `opengl/object.cpp`) -/

section SceneReset
variable {F : Type} [Field F] [DecidableEq F]

/-- The method `Object::setPositionAndRotation(x, y, z, angleX, angleY, angleZ)`. -/
def Object.setPositionAndRotation (W : World F) (o : Object F) (x y z : F)
    (angleX angleY angleZ : Int) : Object F :=
  let o1 := { o with m_modelMatrix := QMatrix4x4.setToIdentity o.m_modelMatrix }
  let o2 := o1.setAspectRatio
  let o3 := { o2 with m_modelMatrix := o2.m_modelMatrix.translate x y z }
  let angleX := angleX.tmod 360
  let angleY := angleY.tmod 360
  let angleZ := angleZ.tmod 360
  ((o3.rotateX W angleX).rotateY W angleY).rotateZ W angleZ

/-- The method `Scene::removeObjects()`. -/
def Scene.removeObjects (s : Scene F) : Scene F :=
  { s with m_objects := [] }

/-- The second loop of `Scene::resetScene()`, over the values `ks` of `k`:
`m_pointLights[k].setPosition(0.0, 0.0, 30.0)`; `none` when `k` is not an
index of the light list. -/
def Scene.resetLights : List Nat → List (Light F) → Option (List (Light F))
  | [], lights => some lights
  | k :: ks, lights =>
    match QVector.index lights (k : Int) with
    | none => none
    | some e => Scene.resetLights ks (QVector.assign lights (k : Int) (e.setPosition 0 0 30))

/-- The method `Scene::resetScene()`: both loops run `k` from 0 up to
`m_objects.size()`. -/
def Scene.resetScene (W : World F) (s : Scene F) : Outcome (Scene F) Unit :=
  let objects := s.m_objects.map fun o => o.setPositionAndRotation W 0 0 0 0 0 0
  match Scene.resetLights (List.range objects.length) s.m_pointLights with
  | none => .undefinedBehaviour
  | some lights => .returned () { s with m_objects := objects, m_pointLights := lights }

end SceneReset

/-! ## The display widget and the main window (`qt/gldisplay.cpp`, `qt/mainwindow.cpp`) -/

/-- The members of `GLDisplay` behind the FPS overlay. -/
structure FPSCounter where
  m_lastFPSUpdate : Int
  m_frameCounter : Int
  m_FPS : Int
deriving DecidableEq

/-- The three members as the constructors of `GLDisplay` initialise them. -/
def FPSCounter.new : FPSCounter :=
  { m_lastFPSUpdate := 0, m_frameCounter := 0, m_FPS := 0 }

/-- The method `GLDisplay::drawFPS()` on these members, with `currentTime` the
value `m_timeFPS.elapsed()` returns; the text drawn shows `m_FPS`. -/
def GLDisplay.drawFPS (currentTime : Int) (st : FPSCounter) : FPSCounter :=
  let m_frameCounter := st.m_frameCounter + 1
  if currentTime - st.m_lastFPSUpdate ≥ 1000 then
    { m_FPS := m_frameCounter, m_frameCounter := 0, m_lastFPSUpdate := currentTime }
  else
    { st with m_frameCounter := m_frameCounter }

/-- The members of `GLDisplay` that drive the redraw timer: the animation flag
and whether `m_updateDisplayTimer` is active (`QTimer::isActive()`).  The timer
is not single-shot: once started it stays active until `stop()`. -/
structure AnimationControl where
  m_animationStarted : Bool
  m_updateDisplayTimer : Bool
deriving DecidableEq

/-- The two members as the constructors of `GLDisplay` initialise them. -/
def AnimationControl.new : AnimationControl :=
  { m_animationStarted := false, m_updateDisplayTimer := false }

/-- The method `GLDisplay::paintGL()` on these members: its last statement
starts the timer when the animation is on. -/
def GLDisplay.paintGL (st : AnimationControl) : AnimationControl :=
  if st.m_animationStarted then { st with m_updateDisplayTimer := true } else st

/-- Qt `QGLWidget::updateGL()`: executes `paintGL()`. -/
def GLDisplay.updateGL (st : AnimationControl) : AnimationControl :=
  GLDisplay.paintGL st

/-- The slot `GLDisplay::startStopAnimation()`. -/
def GLDisplay.startStopAnimation (st : AnimationControl) : AnimationControl :=
  let st1 : AnimationControl :=
    if !st.m_animationStarted then
      { m_animationStarted := true, m_updateDisplayTimer := true }
    else
      { m_animationStarted := false, m_updateDisplayTimer := false }
  GLDisplay.updateGL st1

/-- The keys `GLDisplay::keyPressEvent` tests, and any other key. -/
inductive Key where
  | Key_Z : Key
  | Key_X : Key
  | Key_K : Key
  | Key_S : Key
  | Key_D : Key
  | other : Key
deriving DecidableEq

/-- The method `GLDisplay::keyPressEvent(event)` on these members: `Key_S`
calls `startStopAnimation()`, `Key_D` clears the flag (and resets the
animation time, the camera and the scene), and every key ends in
`updateGL()`.  `Key_Z`, `Key_X` and `Key_K` touch the scene and the
screenshot only. -/
def GLDisplay.keyPressEvent (key : Key) (st : AnimationControl) : AnimationControl :=
  let st1 := if key = Key.Key_S then GLDisplay.startStopAnimation st else st
  let st2 := if key = Key.Key_D then { st1 with m_animationStarted := false } else st1
  GLDisplay.updateGL st2

/-- The slot `GLDisplay::updateDisplay()`, connected to the `timeout()` signal
of `m_updateDisplayTimer`. -/
def GLDisplay.updateDisplay (st : AnimationControl) : AnimationControl :=
  GLDisplay.updateGL st

/-- What happens to a display: a key press, a call of `startStopAnimation()`
(the button of the main window), an execution of `paintGL()` (resize, expose)
or a tick of the timer. -/
inductive DisplayEvent where
  | keyPress (key : Key) : DisplayEvent
  | startStopAnimation : DisplayEvent
  | paintGL : DisplayEvent
  | timeout : DisplayEvent
deriving DecidableEq

/-- The display after one event; the timer ticks only while it is active. -/
def GLDisplay.handle (st : AnimationControl) : DisplayEvent → AnimationControl
  | .keyPress key => GLDisplay.keyPressEvent key st
  | .startStopAnimation => GLDisplay.startStopAnimation st
  | .paintGL => GLDisplay.paintGL st
  | .timeout => if st.m_updateDisplayTimer then GLDisplay.updateDisplay st else st

/-- The display after a sequence of events. -/
def GLDisplay.handleAll (st : AnimationControl) (events : List DisplayEvent) :
    AnimationControl :=
  events.foldl GLDisplay.handle st

/-- The members of `GLDisplay` behind environment mapping: the scene, the
flag `m_environmentMapping`, and the OpenGL texture names. -/
structure EnvironmentControl (F : Type) where
  m_scene : Scene F
  m_environmentMapping : Bool
  gl : GLState
deriving DecidableEq

section MainWindowOps
variable {F : Type} [Field F]

/-- The members as the constructors of `GLDisplay` initialise them:
`m_scene = Scene()` and `m_environmentMapping(false)`. -/
def EnvironmentControl.new (W : World F) (gl : GLState) : EnvironmentControl F :=
  { m_scene := Scene.new W, m_environmentMapping := false, gl := gl }

/-- The method `MainWindow::EMNameToFilePath(environmentMapName)`. -/
def MainWindow.EMNameToFilePath (W : World F) (environmentMapName : String) : String :=
  if environmentMapName = "Grace Cathedral" then
    W.applicationDirPath ++ "/EnvironmentMaps/grace"
  else if environmentMapName = "Uffizi Gallery" then
    W.applicationDirPath ++ "/EnvironmentMaps/uffizi"
  else if environmentMapName = "St Peter's Basilica" then
    W.applicationDirPath ++ "/EnvironmentMaps/stpeters"
  else if environmentMapName = "Pisa Courtyard" then
    W.applicationDirPath ++ "/EnvironmentMaps/pisa"
  else if environmentMapName = "Bar" then
    W.applicationDirPath ++ "/EnvironmentMaps/bar"
  else ""

/-- The method `GLDisplay::enableEnvironmentMapping(enableEM)`. -/
def GLDisplay.enableEnvironmentMapping (enableEM : Bool) (st : EnvironmentControl F) :
    EnvironmentControl F :=
  { st with m_environmentMapping := enableEM }

/-- The method `MainWindow::loadEnvironmentMap(environmentMapName)`, with
`isEMEnabled` the state of the check box; the overload without argument is the
same with the current text of the combo box as name. -/
def MainWindow.loadEnvironmentMap (W : World F) (isEMEnabled : Bool)
    (environmentMapName : String) (st : EnvironmentControl F) : EnvironmentControl F :=
  if isEMEnabled then
    let filePathNoExtension := MainWindow.EMNameToFilePath W environmentMapName
    let loaded := GLDisplay.loadEnvironmentMap W filePathNoExtension st.m_scene st.gl
    let st1 := { st with m_scene := loaded.2.1, gl := loaded.2.2 }
    let correctlyLoaded := loaded.1
    if correctlyLoaded then GLDisplay.enableEnvironmentMapping isEMEnabled st1 else st1
  else
    GLDisplay.enableEnvironmentMapping isEMEnabled st

end MainWindowOps

/-! ## Screenshot (`qt/gldisplay.cpp`) -/

/-- The read `data[i]` of a C array: defined only for `0 ≤ i` below its length. -/
def arrayAt {α : Type} (data : List α) (i : Int) : Option α :=
  if 0 ≤ i then data[i.toNat]? else none

/-- All the values of a list of lookups, when every one of them is defined. -/
def allDefined {α : Type} : List (Option α) → Option (List α)
  | [] => some []
  | x :: xs => x.bind fun a => (allDefined xs).map fun as => a :: as

section Screenshot
variable {F : Type} [LinearOrderedField F] [FloorRing F]

/-- The body of the two loops of `GLDisplay::takeScreenshot()` for row `i` and
column `j`: the three values `val[0]`, `val[1]`, `val[2]` written to
`picture.at<Vec3f>(i, j)`; `none` when a read of `data` is out of range. -/
def GLDisplay.screenshotPixel (width height : Int) (data : List F) (i j : Int) :
    Option (List F) :=
  match arrayAt data (3 * ((height - 1 - i) * width + j)),
      arrayAt data (3 * ((height - 1 - i) * width + j) + 1),
      arrayAt data (3 * ((height - 1 - i) * width + j) + 2) with
  | some d0, some d1, some d2 =>
    some [((Int.floor (255 * d2) : Int) : F), ((Int.floor (255 * d1) : Int) : F),
      ((Int.floor (255 * d0) : Int) : F)]
  | _, _, _ => none

/-- The picture `GLDisplay::takeScreenshot()` builds from the `data` read back
from a framebuffer of `width` by `height` pixels: its rows, each a list of
pixels, each the list of its three channel values. -/
def GLDisplay.takeScreenshot (width height : Int) (data : List F) :
    Option (List (List (List F))) :=
  allDefined ((List.range height.toNat).map fun i : Nat =>
    allDefined ((List.range width.toNat).map fun j : Nat =>
      GLDisplay.screenshotPixel width height data (i : Int) (j : Int)))

end Screenshot

/-! ## Vocabulary of the properties -/

/-- The four texture slots of an object. -/
inductive Slot where
  | diffuse : Slot
  | specular : Slot
  | normal : Slot
  | roughness : Slot
deriving DecidableEq

/-- The texture an object holds in a slot. -/
def Object.slot {F : Type} (o : Object F) : Slot → Texture
  | .diffuse => o.m_diffuseTexture
  | .specular => o.m_specularTexture
  | .normal => o.m_normalMap
  | .roughness => o.m_roughnessMap

/-- The object with one slot replaced. -/
def Object.setSlot {F : Type} (o : Object F) (slot : Slot) (t : Texture) : Object F :=
  match slot with
  | .diffuse => { o with m_diffuseTexture := t }
  | .specular => { o with m_specularTexture := t }
  | .normal => { o with m_normalMap := t }
  | .roughness => { o with m_roughnessMap := t }

/-- The scene loader of a slot: `Scene::loadDiffuseMap`, `loadSpecularMap`,
`loadNormalMap` or `loadRoughnessMap`. -/
def Scene.loadMap {F : Type} [Field F] (W : World F) (slot : Slot) (filePath : String)
    (objectNumber : Int) (s : Scene F) (gl : GLState) : Outcome (Scene F × GLState) Bool :=
  match slot with
  | .diffuse => Scene.loadDiffuseMap W filePath objectNumber s gl
  | .specular => Scene.loadSpecularMap W filePath objectNumber s gl
  | .normal => Scene.loadNormalMap W filePath objectNumber s gl
  | .roughness => Scene.loadRoughnessMap W filePath objectNumber s gl

/-- The image decoded for `filePath` by the decoder its last three bytes
select: `loadPFM` for `pfm`, `cv::imread` otherwise. -/
def decodedImage {F : Type} (W : World F) (filePath : String) : Mat :=
  if lastThree filePath = some (stdBytes "pfm") then W.loadPFM filePath else W.imread filePath

/-- The model matrices of the objects of a scene, in list order. -/
def Scene.modelMatrices {F : Type} (s : Scene F) : List (QMatrix4x4 F) :=
  s.m_objects.map Object.m_modelMatrix

/-- Whether a call ended by throwing. -/
def Outcome.hasThrown {σ α : Type} : Outcome σ α → Bool
  | .threw _ => true
  | _ => false

/-- The frame condition on the model matrices for a scene loader called on
scene `s`: the call ends, by returning or by throwing, and every object then
has the model matrix it had in `s`.  A call with undefined behaviour does not
meet it. -/
def KeepsModelMatrices {F : Type} (s : Scene F) :
    Outcome (Scene F × GLState) Bool → Prop
  | .returned _ st => st.1.modelMatrices = s.modelMatrices
  | .threw st => st.1.modelMatrices = s.modelMatrices
  | .undefinedBehaviour => False

/-- What an environment slot holds after `Scene::loadEnvironmentMap` tried to
load `path` into it from the OpenGL state `gl`: if the image decodes, a loaded
texture of that path and image size under a handle generated during the call;
if not, the fresh unloaded texture `Texture(path)` (handle 0, size 0). -/
def ReloadedFrom {F : Type} (W : World F) (gl : GLState) (path : String) (t : Texture) : Prop :=
  if (W.loadPFM path).hasData then
    t.m_isLoaded = true ∧ t.m_filePath = path ∧ max gl.nextName 1 ≤ t.m_textureId ∧
      t.m_width = (W.loadPFM path).cols ∧ t.m_height = (W.loadPFM path).rows
  else
    t = Texture.new path

section CameraVocabulary
variable {F : Type} [Field F] [DecidableEq F]

/-- The stored view matrix is the look-at matrix of the stored position, center
and up vector. -/
def Camera.ViewIsLookAt (M : CMath F) (cam : Camera F) : Prop :=
  cam.m_viewMatrix =
    QMatrix4x4.lookAt M (1 : QMatrix4x4 F) cam.m_position.toVector3D cam.m_center.toVector3D
      cam.m_upVector.toVector3D

/-- The projection derived from the stored projection kind, aspect ratio and
field of view. -/
def Camera.derivedProjection (W : World F) (cam : Camera F) : QMatrix4x4 F :=
  if cam.m_perspectiveCamera then
    QMatrix4x4.perspective W (1 : QMatrix4x4 F) cam.m_fieldOfView cam.m_aspectRatio (1 / 1000) 10000
  else
    QMatrix4x4.ortho (1 : QMatrix4x4 F) (-(1 / 2)) (1 / 2) (-(1 / 2)) (1 / 2) (1 / 1000) 10000

/-- The stored projection matrix is the one derived from the stored fields. -/
def Camera.ProjectionIsDerived (W : World F) (cam : Camera F) : Prop :=
  cam.m_projectionMatrix = cam.derivedProjection W

/-- Neither stored matrix is stale. -/
def Camera.NoStaleMatrix (W : World F) (M : CMath F) (cam : Camera F) : Prop :=
  cam.ViewIsLookAt M ∧ cam.ProjectionIsDerived W

/-- The operation, when it is `viewMatrix` or `projectionMatrix`, is called with
the values the camera stores; the other operations take no such argument. -/
def CameraOp.PassesStored (cam : Camera F) : CameraOp F → Prop
  | .viewMatrix position upVector center =>
    position = cam.m_position ∧ upVector = cam.m_upVector ∧ center = cam.m_center
  | .projectionMatrix aspectRatio fieldOfView =>
    aspectRatio = cam.m_aspectRatio ∧ fieldOfView = cam.m_fieldOfView
  | _ => True

/-- Every `viewMatrix` and `projectionMatrix` call of the sequence is made with
the values stored in the camera at that point of the run. -/
def Camera.PassStoredAlong (W : World F) (M : CMath F) : Camera F → List (CameraOp F) → Prop
  | _, [] => True
  | cam, op :: ops => op.PassesStored cam ∧ Camera.PassStoredAlong W M (cam.apply W M op) ops

end CameraVocabulary

/-- The three indices of a triangle are vertex indices of a mesh with `n`
vertices. -/
def TriangleInRange (n : Int) (t : Int × Int × Int) : Prop :=
  (0 ≤ t.1 ∧ t.1 < n) ∧ (0 ≤ t.2.1 ∧ t.2.1 < n) ∧ (0 ≤ t.2.2 ∧ t.2.2 < n)

/-- The counts of the file are not negative and every triangle it declares
uses vertex indices below its vertex count. -/
def OffFile.InRange {F : Type} (file : OffFile F) : Prop :=
  0 ≤ file.numberOfVertices ∧ 0 ≤ file.numberOfTriangles ∧
    ∀ i, i < file.numberOfTriangles.toNat →
      TriangleInRange file.numberOfVertices (file.triangleAt i)

/-- The vertices `Mesh::offReader` reads: as many as the file declares. -/
def OffFile.vertices {F : Type} (file : OffFile F) : List (QVector3D F) :=
  (List.range file.numberOfVertices.toNat).map file.vertexAt

/-- The index triples `Mesh::offReader` reads: as many as the file declares. -/
def OffFile.triangles {F : Type} (file : OffFile F) : List (Int × Int × Int) :=
  (List.range file.numberOfTriangles.toNat).map file.triangleAt

/-- The flattened index array `Mesh::offReader` pushes for the file: the three
indices of every triangle, converted to `GLuint`. -/
def OffFile.indicesArray {F : Type} (file : OffFile F) : List Nat :=
  (file.triangles.map fun t => [toGLuint t.1, toGLuint t.2.1, toGLuint t.2.2]).flatten

/-- The sweep window `k` and the one after it meet at `boundary` with the angle
`value`: the angle of window `k` tends to `value` as the elapsed time tends to
`boundary` from below, the formula of window `k + 1` gives `value` at
`boundary`, and so does the driver. -/
def GLDisplay.SweepsMeetAt {F : Type} [LinearOrderedField F] [TopologicalSpace F]
    (M : CMath F) (k : Nat) (boundary : Int) (value : F) : Prop :=
  Filter.Tendsto (GLDisplay.windowTheta M k)
      (nhdsWithin (boundary : F) (Set.Iio (boundary : F))) (nhds value) ∧
    GLDisplay.windowTheta M (k + 1) (boundary : F) = value ∧
    GLDisplay.theta M boundary = value

/-- The FPS members after the calls of `GLDisplay::drawFPS()` made at the
times `times`, in order. -/
def GLDisplay.drawFPSCalls (times : List Int) (st : FPSCounter) : FPSCounter :=
  times.foldl (fun s t => GLDisplay.drawFPS t s) st

/-- The value `picture.at<Vec3f>(i, j).val[c]` of a picture given by its rows. -/
def pictureAt {F : Type} (picture : List (List (List F))) (i j c : Nat) : Option F :=
  ((picture[i]?).bind fun row => row[j]?).bind fun pixel => pixel[c]?

/-! ## Sample inputs -/

/-- A sample world over `ℚ`: one decodable LDR image `wood.png` (4 x 2), three
decodable HDR images `sky.pfm`, `sky_diffuse.pfm`, `sky_rough.pfm` (8 x 4), a
unit square as the only mesh; every other path fails to decode. -/
def demoWorld : World ℚ where
  imread := fun path => if path = "wood.png" then ⟨4, 2, 3, true⟩ else ⟨0, 0, 1, false⟩
  loadPFM := fun path =>
    if path = "sky.pfm" ∨ path = "sky_diffuse.pfm" ∨ path = "sky_rough.pfm" then ⟨8, 4, 3, true⟩
    else ⟨0, 0, 1, false⟩
  applicationDirPath := "/opt/real3d"
  offReader := fun _ =>
    { m_vertices := [⟨1, 1, 0⟩, ⟨-1, 1, 0⟩, ⟨-1, -1, 0⟩, ⟨1, -1, 0⟩]
      m_indices := [⟨2, 3, 0⟩, ⟨0, 1, 2⟩]
      m_indicesArray := [2, 3, 0, 0, 1, 2]
      m_triangleNormals := [⟨0, 0, 1⟩, ⟨0, 0, 1⟩]
      m_vertexNormals := [⟨0, 0, 1⟩, ⟨0, 0, 1⟩, ⟨0, 0, 1⟩, ⟨0, 0, 1⟩]
      m_textureCoordinates := [] }
  cosDeg := fun _ => 1
  sinDeg := fun _ => 0

/-- An OpenGL state with no texture yet. -/
def demoGL : GLState := { nextName := 1, textures := [] }

/-- The default scene in the sample world. -/
def demoScene : Scene ℚ := Scene.new demoWorld

/-- The default scene after `loadDiffuseMap("wood.png", 0)`, with the OpenGL
state reached. -/
def woodScene : Scene ℚ × GLState :=
  match Scene.loadDiffuseMap demoWorld "wood.png" 0 demoScene demoGL with
  | .returned _ st => st
  | _ => (demoScene, demoGL)

/-- The default scene after loading the three `sky` environment maps, with the
OpenGL state reached. -/
def skyScene : Scene ℚ × GLState :=
  (Scene.loadEnvironmentMap demoWorld "sky.pfm" "sky_diffuse.pfm" "sky_rough.pfm" demoScene
    demoGL).2

/-- The square object once `wood.png` (4 x 2) is loaded in its diffuse slot
under handle 1, with the OpenGL state in which handle 1 is a texture. -/
def woodLoad : Object ℚ × GLState :=
  ({ Object.new demoWorld "square" with m_diffuseTexture := ⟨1, "wood.png", true, 4, 2, 3⟩ },
    { nextName := 2, textures := [1] })

/-- The light of the default scene, as `Scene::buildScene` constructs it. -/
def demoLight : Light ℚ := Light.new ⟨0, 0, 30, 1⟩ ⟨1, 1, 1⟩ 1

/-- Rough rational stand-ins for the C math library: one Newton step for the
square root, Taylor polynomials for sine, cosine and arc cosine, 22/7 for
`M_PI`.  They are exact at `sin 0`, `cos 0` and `sqrt 1`.  The fuzzy
comparisons are those of Qt. -/
def demoMath : CMath ℚ where
  sqrt := fun x => (x + 1) / 2
  sin := fun x => x - x ^ 3 / 6
  cos := fun x => 1 - x ^ 2 / 2 + x ^ 4 / 24
  acos := fun x => 11 / 7 - x - x ^ 3 / 6
  pi := 22 / 7
  qFuzzyIsNull := fun d => decide (|d| ≤ 1 / 1000000000000)
  qFuzzyIsNullFloat := fun f => decide (|f| ≤ 1 / 100000)

/-- The scene camera as `GLDisplay::initializeGL` constructs it: at (0, 0, 1),
looking at the origin, 45 degrees of field of view, the 1920 x 1080 aspect. -/
def sceneCamera : Camera ℚ :=
  Camera.new demoWorld demoMath ⟨0, 0, 1, 1⟩ ⟨0, 1, 0, 1⟩ ⟨0, 0, 0, 1⟩ true (1920 / 1080) 45

/-- A camera at (3, 1, 0) looking at the center (1, 1, 0). -/
def offCenterCamera : Camera ℚ :=
  Camera.new demoWorld demoMath ⟨3, 1, 0, 1⟩ ⟨0, 1, 0, 1⟩ ⟨1, 1, 0, 1⟩ true 1 45

/-- The default scene after the key press that calls
`translateLightSourceZ(0, 5.0)`. -/
def nudgedScene : Scene ℚ :=
  match demoScene.translateLightSourceZ 0 5 with
  | .returned _ s => s
  | _ => demoScene

/-- The default scene after `GLDisplay::loadEnvironmentMap("sky")`, with the
boolean returned and the OpenGL state reached. -/
def skyDisplay : Bool × Scene ℚ × GLState :=
  GLDisplay.loadEnvironmentMap demoWorld "sky" demoScene demoGL

/-- The sample world with small-angle stand-ins for the sine and cosine in
degrees: sin a = a / 60 and cos a = 1 - a² / 6000 (1/4 and 77/80 at 15
degrees). -/
def lensWorld : World ℚ :=
  { demoWorld with sinDeg := fun a => a / 60, cosDeg := fun a => 1 - a * a / 6000 }

/-- The quad camera as `GLDisplay::initializeGL` constructs it for a 4 : 3
window: perspective, 30 degrees of field of view. -/
def quadCamera : Camera ℚ :=
  Camera.new lensWorld demoMath ⟨0, 0, 1, 1⟩ ⟨0, 1, 0, 1⟩ ⟨0, 0, 0, 1⟩ true (4 / 3) 30

/-- A mesh file with three vertices whose only triangle names the vertex
index 3. -/
def strayIndexOff : OffFile ℚ where
  numberOfVertices := 3
  numberOfTriangles := 1
  vertexAt := fun i => if i = 0 then ⟨0, 0, 0⟩ else if i = 1 then ⟨1, 0, 0⟩ else ⟨0, 1, 0⟩
  triangleAt := fun _ => (0, 1, 3)

/-- A mesh file with the triangle (0, 0, 0), (1, 0, 0), (0, 1, 0) and a fourth
vertex that belongs to no triangle. -/
def triangleOff : OffFile ℚ where
  numberOfVertices := 4
  numberOfTriangles := 1
  vertexAt := fun i =>
    if i = 0 then ⟨0, 0, 0⟩ else if i = 1 then ⟨1, 0, 0⟩ else if i = 2 then ⟨0, 1, 0⟩
    else ⟨5, 5, 5⟩
  triangleAt := fun _ => (0, 1, 2)

/-- A mesh file with 16777220 vertices, all its indices in range, whose only
triangle names the vertex index 16777219. -/
def hugeOff : OffFile ℚ where
  numberOfVertices := 16777220
  numberOfTriangles := 1
  vertexAt := fun i => ⟨(i : ℚ), 0, 0⟩
  triangleAt := fun _ => (0, 16777219, 1)

/-- A world over any field in which no image decodes and every mesh file is
empty. -/
def bareWorld (F : Type) [Field F] : World F where
  imread := fun _ => ⟨0, 0, 1, false⟩
  loadPFM := fun _ => ⟨0, 0, 1, false⟩
  applicationDirPath := ""
  offReader := fun _ =>
    { m_vertices := [], m_indices := [], m_indicesArray := [], m_triangleNormals := [],
      m_vertexNormals := [], m_textureCoordinates := [] }
  cosDeg := fun _ => 1
  sinDeg := fun _ => 0

/-- The values read back from a framebuffer of 1 x 2 pixels: the bottom pixel
(0, 1/2, 1) first, then the top pixel (1/4, 1/5, 1/3). -/
def stripeData : List ℚ := [0, 1 / 2, 1, 1 / 4, 1 / 5, 1 / 3]

/-- The default scene after `loadSpecularMap("wood.png", 0)`, with the OpenGL
state reached: its object has the specular texture loaded (4 x 2) and no
other. -/
def glossScene : Scene ℚ × GLState :=
  match Scene.loadSpecularMap demoWorld "wood.png" 0 demoScene demoGL with
  | .returned _ st => st
  | _ => (demoScene, demoGL)

/-- The object of the scene whose specular texture alone is loaded. -/
def glossObject : Object ℚ :=
  match glossScene.1.m_objects with
  | o :: _ => o
  | [] => Object.new demoWorld "square"

/-- A scene built by `Scene(listOfObjectNames, listOfPointLights)` with two
objects and one light. -/
def twoSquares : Scene ℚ := Scene.fromLists demoWorld ["square", "square"] [demoLight]

/-- The default scene with its light moved by 5 along z, after
`removeObjects()`. -/
def emptiedScene : Scene ℚ := nudgedScene.removeObjects

/-- A world in which the three images of the Grace Cathedral environment map
decode (8 x 4) and no other image does. -/
def galleryWorld : World ℚ :=
  { demoWorld with
    loadPFM := fun path =>
      if path = "/opt/real3d/EnvironmentMaps/grace.pfm" ∨
          path = "/opt/real3d/EnvironmentMaps/grace_diffuse.pfm" ∨
          path = "/opt/real3d/EnvironmentMaps/grace_rough.pfm" then ⟨8, 4, 3, true⟩
      else ⟨0, 0, 1, false⟩ }

/-- The display after the check box is ticked and "Grace Cathedral" is
loaded. -/
def graceDisplay : EnvironmentControl ℚ :=
  MainWindow.loadEnvironmentMap galleryWorld true "Grace Cathedral"
    (EnvironmentControl.new galleryWorld demoGL)

/-- The same display after "Uffizi Gallery", whose files do not decode, is
chosen next. -/
def uffiziDisplay : EnvironmentControl ℚ :=
  MainWindow.loadEnvironmentMap galleryWorld true "Uffizi Gallery" graceDisplay

/-- The sample world in which the file named `ab` decodes too (4 x 2). -/
def shortNameWorld : World ℚ :=
  { demoWorld with
    imread := fun path =>
      if path = "ab" ∨ path = "wood.png" then ⟨4, 2, 3, true⟩ else ⟨0, 0, 1, false⟩ }

/-! ## Indexed mutators -/

section MutatorFacts
variable {F : Type} [Field F]

/-- Indexing a `QVector` with a negative index is never defined. -/
theorem QVector.index_neg {α : Type} (v : List α) (i : Int) (h : i < 0) :
    QVector.index v i = none := by
  unfold QVector.index
  rw [if_neg (by omega)]

/-- Indexing a `QVector` inside its range is defined. -/
theorem QVector.index_isSome {α : Type} (v : List α) (i : Int) (h0 : 0 ≤ i)
    (h1 : i < QVector.size v) : ∃ a, QVector.index v i = some a := by
  unfold QVector.index
  unfold QVector.size at h1
  rw [if_pos h0]
  have hlt : i.toNat < v.length := by omega
  exact ⟨v[i.toNat], List.getElem?_eq_getElem hlt⟩

end MutatorFacts

/-- C1: for every scene, an index at or above the number of lights makes each
indexed light mutator return normally with the scene unchanged, and an index at
or above the number of objects does the same for each indexed object mutator. -/
theorem indexed_mutators_ignore_large_index {F : Type} [Field F] [DecidableEq F]
    (W : World F) (s : Scene F) (i j : Int) (t x y z : F) (a : Int)
    (hi : QVector.size s.m_pointLights ≤ i) (hj : QVector.size s.m_objects ≤ j) :
    s.translateLightSourceX i t = .returned () s ∧
    s.translateLightSourceY i t = .returned () s ∧
    s.translateLightSourceZ i t = .returned () s ∧
    s.setLightSourcePosition i x y z = .returned () s ∧
    s.rotateObjectX W j a = .returned () s ∧
    s.rotateObjectY W j a = .returned () s ∧
    s.rotateObjectZ W j a = .returned () s := by
  have hi' : ¬ i < QVector.size s.m_pointLights := not_lt.mpr hi
  have hj' : ¬ j < QVector.size s.m_objects := not_lt.mpr hj
  refine ⟨?_, ?_, ?_, ?_, ?_, ?_, ?_⟩
  · unfold Scene.translateLightSourceX; rw [if_neg hi']
  · unfold Scene.translateLightSourceY; rw [if_neg hi']
  · unfold Scene.translateLightSourceZ; rw [if_neg hi']
  · unfold Scene.setLightSourcePosition; rw [if_neg hi']
  · unfold Scene.rotateObjectX; rw [if_neg hj']
  · unfold Scene.rotateObjectY; rw [if_neg hj']
  · unfold Scene.rotateObjectZ; rw [if_neg hj']

/-- Witness for C1: the default scene (one light, one object) with index 1. -/
theorem indexed_mutators_ignore_large_index_witness :
    QVector.size demoScene.m_pointLights ≤ 1 ∧ QVector.size demoScene.m_objects ≤ 1 ∧
    (demoScene.translateLightSourceX 1 5 = .returned () demoScene ∧
     demoScene.translateLightSourceY 1 5 = .returned () demoScene ∧
     demoScene.translateLightSourceZ 1 5 = .returned () demoScene ∧
     demoScene.setLightSourcePosition 1 1 2 3 = .returned () demoScene ∧
     demoScene.rotateObjectX demoWorld 1 90 = .returned () demoScene ∧
     demoScene.rotateObjectY demoWorld 1 90 = .returned () demoScene ∧
     demoScene.rotateObjectZ demoWorld 1 90 = .returned () demoScene) :=
  ⟨by decide, by decide,
    indexed_mutators_ignore_large_index demoWorld demoScene 1 1 5 1 2 3 90 (by decide) (by decide)⟩

/-- C2 (failing input): on the default scene the index -1 passes the guard
`index < size` of every indexed mutator, so the list is indexed out of range:
the call is undefined behaviour, not a no-op. -/
theorem negative_index_reaches_the_list :
    demoScene.translateLightSourceX (-1) 1 = .undefinedBehaviour ∧
    demoScene.translateLightSourceY (-1) 1 = .undefinedBehaviour ∧
    demoScene.translateLightSourceZ (-1) 1 = .undefinedBehaviour ∧
    demoScene.setLightSourcePosition (-1) 0 0 30 = .undefinedBehaviour ∧
    demoScene.rotateObjectX demoWorld (-1) 90 = .undefinedBehaviour ∧
    demoScene.rotateObjectY demoWorld (-1) 90 = .undefinedBehaviour ∧
    demoScene.rotateObjectZ demoWorld (-1) 90 = .undefinedBehaviour := by
  refine ⟨rfl, rfl, rfl, rfl, rfl, rfl, rfl⟩

/-- Every negative index, on every scene, makes each indexed mutator index its
list out of range. -/
theorem negative_index_is_undefined {F : Type} [Field F] [DecidableEq F]
    (W : World F) (s : Scene F) (i : Int) (t x y z : F) (a : Int) (hi : i < 0) :
    s.translateLightSourceX i t = .undefinedBehaviour ∧
    s.translateLightSourceY i t = .undefinedBehaviour ∧
    s.translateLightSourceZ i t = .undefinedBehaviour ∧
    s.setLightSourcePosition i x y z = .undefinedBehaviour ∧
    s.rotateObjectX W i a = .undefinedBehaviour ∧
    s.rotateObjectY W i a = .undefinedBehaviour ∧
    s.rotateObjectZ W i a = .undefinedBehaviour := by
  have hl : i < QVector.size s.m_pointLights := by unfold QVector.size; omega
  have ho : i < QVector.size s.m_objects := by unfold QVector.size; omega
  have el := QVector.index_neg s.m_pointLights i hi
  have eo := QVector.index_neg s.m_objects i hi
  refine ⟨?_, ?_, ?_, ?_, ?_, ?_, ?_⟩
  · unfold Scene.translateLightSourceX; rw [if_pos hl, el]
  · unfold Scene.translateLightSourceY; rw [if_pos hl, el]
  · unfold Scene.translateLightSourceZ; rw [if_pos hl, el]
  · unfold Scene.setLightSourcePosition; rw [if_pos hl, el]
  · unfold Scene.rotateObjectX; rw [if_pos ho, eo]
  · unfold Scene.rotateObjectY; rw [if_pos ho, eo]
  · unfold Scene.rotateObjectZ; rw [if_pos ho, eo]

/-! ## The light's model matrix -/

section LightFacts
variable {F : Type} [Field F]

/-- Multiplying two translations adds their offsets. -/
theorem translationMatrix_mul (a b c x y z : F) :
    translationMatrix a b c * translationMatrix x y z = translationMatrix (a + x) (b + y) (c + z) := by
  ext i j
  fin_cases i <;> fin_cases j <;>
    simp [translationMatrix, Matrix.mul_apply, Fin.sum_univ_four, Matrix.vecHead, Matrix.vecTail,
      add_comm]

/-- After `setPosition` the model matrix is the translation to the position. -/
theorem Light.setPosition_matches (l : Light F) (x y z : F) :
    (l.setPosition x y z).ModelMatchesPosition := by
  simp [Light.ModelMatchesPosition, Light.setPosition, QMatrix4x4.setToIdentity,
    QMatrix4x4.translate]

/-- The three translations keep the model matrix equal to the translation to
the position once it is. -/
theorem Light.translate_matches (l : Light F) (t : F) (h : l.ModelMatchesPosition) :
    (l.translateX t).ModelMatchesPosition ∧ (l.translateY t).ModelMatchesPosition ∧
      (l.translateZ t).ModelMatchesPosition := by
  unfold Light.ModelMatchesPosition at h
  refine ⟨?_, ?_, ?_⟩
  · simp [Light.ModelMatchesPosition, Light.translateX, QMatrix4x4.translate, h,
      translationMatrix_mul]
  · simp [Light.ModelMatchesPosition, Light.translateY, QMatrix4x4.translate, h,
      translationMatrix_mul]
  · simp [Light.ModelMatchesPosition, Light.translateZ, QMatrix4x4.translate, h,
      translationMatrix_mul]

/-- Once the model matrix matches the position, every sequence of mutators
keeps it so. -/
theorem Light.run_matches (ops : List (LightOp F)) (l : Light F) (h : l.ModelMatchesPosition) :
    (l.run ops).ModelMatchesPosition := by
  induction ops generalizing l with
  | nil => exact h
  | cons op rest ih =>
    have step : (l.apply op).ModelMatchesPosition := by
      cases op with
      | setPosition x y z => exact Light.setPosition_matches l x y z
      | translateX t => exact (Light.translate_matches l t h).1
      | translateY t => exact (Light.translate_matches l t h).2.1
      | translateZ t => exact (Light.translate_matches l t h).2.2
    exact ih (l.apply op) step

end LightFacts

/-- C3 (failing input): the light of the default scene is constructed at
position (0, 0, 30, 1) with the identity as model matrix, so the translation
part of its model matrix is (0, 0, 0), not its position; a translation applied
afterwards keeps the two apart. -/
theorem constructor_light_model_is_not_its_position :
    (demoLight.run []).m_lightPosition = ⟨0, 0, 30, 1⟩ ∧
    (demoLight.run []).m_modelMatrix = 1 ∧
    ¬ (demoLight.run []).ModelMatchesPosition ∧
    (demoLight.run [.translateX 2]).m_lightPosition = ⟨2, 0, 30, 1⟩ ∧
    (demoLight.run [.translateX 2]).m_modelMatrix = translationMatrix 2 0 0 ∧
    ¬ (demoLight.run [.translateX 2]).ModelMatchesPosition := by
  have e0 : (demoLight.run []).m_modelMatrix = 1 := rfl
  have e1 : (demoLight.run [.translateX 2]).m_modelMatrix = translationMatrix 2 0 0 := by
    simp [demoLight, Light.run, Light.apply, Light.translateX, Light.new,
      QMatrix4x4.translate, QMatrix4x4.setToIdentity]
  have p0 : (demoLight.run []).m_lightPosition = ⟨0, 0, 30, 1⟩ := rfl
  have p1 : (demoLight.run [.translateX 2]).m_lightPosition = ⟨2, 0, 30, 1⟩ := by
    simp [demoLight, Light.run, Light.apply, Light.translateX, Light.new]
  refine ⟨p0, e0, ?_, p1, e1, ?_⟩
  · intro h
    unfold Light.ModelMatchesPosition at h
    rw [e0, p0] at h
    have h23 := congrFun (congrFun h 2) 3
    simp [translationMatrix] at h23
  · intro h
    unfold Light.ModelMatchesPosition at h
    rw [e1, p1] at h
    have h23 := congrFun (congrFun h 2) 3
    simp [translationMatrix] at h23

/-! ## Default scene -/

/-- C4: the default scene has exactly one object and exactly one light, the
light is at (0, 0, 30, 1), and its z component is strictly positive. -/
theorem default_scene_one_object_one_light {F : Type} [LinearOrderedField F] (W : World F) :
    (Scene.new W).m_objects.length = 1 ∧
    (Scene.new W).m_pointLights.length = 1 ∧
    (Scene.new W).m_pointLights.map Light.m_lightPosition = [⟨0, 0, 30, 1⟩] ∧
    ∀ l ∈ (Scene.new W).m_pointLights, 0 < l.m_lightPosition.z := by
  refine ⟨rfl, rfl, rfl, ?_⟩
  intro l hl
  have : l = Light.new ⟨0, 0, 30, 1⟩ ⟨1, 1, 1⟩ 1 := by
    simpa [Scene.new, Scene.buildScene] using hl
  subst this
  simp [Light.new]

/-! ## Texture loading through the scene -/

section LoadFacts
variable {F : Type}

/-- An index at which a `QVector` is defined lies below its size. -/
theorem QVector.lt_size_of_index {α : Type} (v : List α) (i : Int) (a : α)
    (h : QVector.index v i = some a) : 0 ≤ i ∧ i < QVector.size v := by
  unfold QVector.index at h
  unfold QVector.size
  by_cases h0 : 0 ≤ i
  · rw [if_pos h0] at h
    have hlt : i.toNat < v.length := by
      by_contra hge
      rw [List.getElem?_eq_none (by omega)] at h
      exact Option.noConfusion h
    omega
  · rw [if_neg h0] at h
    exact Option.noConfusion h

/-- Reading back the element just assigned at a defined index. -/
theorem QVector.index_assign {α : Type} (v : List α) (i : Int) (a b : α)
    (h : QVector.index v i = some a) : QVector.index (QVector.assign v i b) i = some b := by
  have hb := QVector.lt_size_of_index v i a h
  unfold QVector.size at hb
  unfold QVector.index QVector.assign
  rw [if_pos hb.1]
  have hlt : i.toNat < v.length := by omega
  simp [List.getElem?_set, hlt]

/-- Assigning an element that agrees under `f` with the one replaced does not
change the image of the list under `f`. -/
theorem QVector.map_assign {α β : Type} (f : α → β) (v : List α) (i : Int) (a b : α)
    (h : QVector.index v i = some a) (hf : f b = f a) :
    (QVector.assign v i b).map f = v.map f := by
  have hb := QVector.lt_size_of_index v i a h
  unfold QVector.size at hb
  unfold QVector.index at h
  rw [if_pos hb.1] at h
  unfold QVector.assign
  apply List.ext_getElem?
  intro n
  rw [List.getElem?_map, List.getElem?_map, List.getElem?_set]
  by_cases hn : i.toNat = n
  · subst hn
    have hlt : i.toNat < v.length := by omega
    simp [hlt, h, hf]
  · simp [hn]

/-- The number of bytes of a string is `String.utf8ByteSize`. -/
theorem stdBytes_length (s : String) : (stdBytes s).length = s.utf8ByteSize := by
  unfold stdBytes
  rw [List.length_map, Array.length_toList]
  exact String.size_toUTF8 s

/-- Every character takes at least one byte. -/
theorem utf8ByteSize_go_ge (cs : List Char) : cs.length ≤ String.utf8ByteSize.go cs := by
  induction cs with
  | nil => simp [String.utf8ByteSize.go]
  | cons c cs ih =>
    simp only [String.utf8ByteSize.go, List.length_cons]
    have := Char.utf8Size_pos c
    omega

/-- A string has at least as many bytes as characters. -/
theorem stdBytes_length_ge (s : String) : s.length ≤ (stdBytes s).length := by
  rw [stdBytes_length]
  cases s with
  | mk cs => exact utf8ByteSize_go_ge cs

/-- For a path shorter than three bytes the suffix test throws. -/
theorem lastThree_short (filePath : String) (h : (stdBytes filePath).length < 3) :
    lastThree filePath = none := by
  have h3 : ¬ 3 ≤ (stdBytes filePath).length := by omega
  unfold lastThree substr sizeSub sizeModulus
  rw [if_neg h3]
  exact if_pos (by omega)

/-- For a path of at least three bytes the suffix test yields a string. -/
theorem lastThree_long (filePath : String) (h : 3 ≤ (stdBytes filePath).length) :
    ∃ suffix, lastThree filePath = some suffix := by
  have hpos : ¬ (stdBytes filePath).length < (stdBytes filePath).length - 3 := by omega
  unfold lastThree substr sizeSub
  rw [if_pos h, if_neg hpos]
  exact ⟨_, rfl⟩

/-- The LDR load of a fresh texture whose image does not decode returns false
and changes neither the texture nor the OpenGL state. -/
theorem Texture.load_8UC3_fails (W : World F) (filePath : String) (gl : GLState)
    (h : (W.imread filePath).hasData = false) :
    (Texture.new filePath).load_8UC3 W gl = (false, Texture.new filePath, gl) := by
  simp [Texture.load_8UC3, Texture.new, GLState.glIsTexture, h]

/-- The HDR load of a fresh texture whose image does not decode returns false
and changes neither the texture nor the OpenGL state. -/
theorem Texture.load_32FC3_fails (W : World F) (filePath : String) (gl : GLState)
    (h : (W.loadPFM filePath).hasData = false) :
    (Texture.new filePath).load_32FC3 W gl = (false, Texture.new filePath, gl) := by
  simp [Texture.load_32FC3, Texture.new, GLState.glIsTexture, h]

/-- With the suffix `pfm` the decoder is `loadPFM`. -/
theorem decodedImage_pfm (W : World F) (filePath : String)
    (hs : lastThree filePath = some (stdBytes "pfm")) :
    decodedImage W filePath = W.loadPFM filePath := by
  unfold decodedImage
  exact if_pos hs

/-- With any other suffix the decoder is `cv::imread`. -/
theorem decodedImage_other (W : World F) (filePath : String) (suffix : List Nat)
    (hs : lastThree filePath = some suffix) (hp : suffix ≠ stdBytes "pfm") :
    decodedImage W filePath = W.imread filePath := by
  unfold decodedImage
  apply if_neg
  rw [hs]
  exact fun e => hp (Option.some.inj e)

/-- With the suffix `pfm` the slot is loaded by `load_32FC3`. -/
theorem loadBySuffix_pfm (W : World F) (filePath : String) (slot : Texture) (gl : GLState)
    (hs : lastThree filePath = some (stdBytes "pfm")) :
    loadBySuffix W filePath slot gl = some (slot.load_32FC3 W gl) := by
  unfold loadBySuffix
  rw [hs]
  exact if_pos rfl

/-- With any other suffix the slot is loaded by `load_8UC3`. -/
theorem loadBySuffix_other (W : World F) (filePath : String) (suffix : List Nat)
    (slot : Texture) (gl : GLState) (hs : lastThree filePath = some suffix)
    (hp : suffix ≠ stdBytes "pfm") :
    loadBySuffix W filePath slot gl = some (slot.load_8UC3 W gl) := by
  unfold loadBySuffix
  rw [hs]
  exact if_neg hp

/-- For a path shorter than three bytes the suffix-selected load throws. -/
theorem loadBySuffix_short (W : World F) (filePath : String) (slot : Texture) (gl : GLState)
    (h : (stdBytes filePath).length < 3) : loadBySuffix W filePath slot gl = none := by
  unfold loadBySuffix
  rw [lastThree_short filePath h]

/-- The suffix-selected load of a fresh texture fails exactly as its decoder. -/
theorem loadBySuffix_fails (W : World F) (filePath : String) (gl : GLState)
    (hlen : 3 ≤ (stdBytes filePath).length) (h : (decodedImage W filePath).hasData = false) :
    loadBySuffix W filePath (Texture.new filePath) gl = some (false, Texture.new filePath, gl) := by
  obtain ⟨suffix, hs⟩ := lastThree_long filePath hlen
  by_cases hp : suffix = stdBytes "pfm"
  · rw [hp] at hs
    rw [decodedImage_pfm W filePath hs] at h
    rw [loadBySuffix_pfm W filePath _ gl hs, Texture.load_32FC3_fails W filePath gl h]
  · rw [decodedImage_other W filePath suffix hs hp] at h
    rw [loadBySuffix_other W filePath suffix _ gl hs hp, Texture.load_8UC3_fails W filePath gl h]

end LoadFacts

/-- C5 (counterexample): in the scene whose object 0 holds the loaded diffuse
texture `wood.png` (handle 1, 4 x 2), loading the undecodable `gone.png` into
the same slot returns false and leaves the slot unloaded with handle 0: the
previously loaded texture does not stay loaded. -/
theorem failed_load_discards_previous_texture :
    (QVector.index woodScene.1.m_objects 0).map Object.m_diffuseTexture
      = some ⟨1, "wood.png", true, 4, 2, 3⟩ ∧
    (decodedImage demoWorld "gone.png").hasData = false ∧
    ∃ st, Scene.loadDiffuseMap demoWorld "gone.png" 0 woodScene.1 woodScene.2 = .returned false st ∧
      (QVector.index st.1.m_objects 0).map Object.m_diffuseTexture
        = some ⟨0, "gone.png", false, 0, 0, 0⟩ :=
  ⟨by decide, by decide, _, rfl, by decide⟩

/-- C5 (amended): for every object of every scene, every slot and every path of
at least three characters whose image does not decode, the scene loader of the
slot returns false and leaves in that slot the fresh texture `Texture(filePath)`
(not loaded, handle 0, width 0, height 0, the new path), whatever the slot held
before; nothing else in the scene or in the OpenGL state changes. -/
theorem failed_load_leaves_fresh_unloaded_slot {F : Type} [Field F] (W : World F) (slot : Slot)
    (filePath : String) (i : Int) (s : Scene F) (gl : GLState) (o : Object F)
    (ho : QVector.index s.m_objects i = some o)
    (hlen : 3 ≤ filePath.length)
    (hfail : (decodedImage W filePath).hasData = false) :
    Scene.loadMap W slot filePath i s gl =
      .returned false
        ({ s with m_objects := QVector.assign s.m_objects i (o.setSlot slot (Texture.new filePath)) },
          gl) := by
  have hi := (QVector.lt_size_of_index s.m_objects i o ho).2
  have hl := loadBySuffix_fails W filePath gl
    (le_trans hlen (stdBytes_length_ge filePath)) hfail
  cases slot
  · simp [Scene.loadMap, Scene.loadDiffuseMap, Object.loadDiffuseTexture, Object.setSlot, hi, ho, hl]
  · simp [Scene.loadMap, Scene.loadSpecularMap, Object.loadSpecularTexture, Object.setSlot, hi, ho,
      hl]
  · simp [Scene.loadMap, Scene.loadNormalMap, Object.loadNormalMap, Object.setSlot, hi, ho, hl]
  · simp [Scene.loadMap, Scene.loadRoughnessMap, Object.loadRoughnessMap, Object.setSlot, hi, ho,
      hl]

/-- Witness for C5 (amended): the undecodable `gone.png` loaded into the diffuse
slot of object 0 of the scene that holds `wood.png` there. -/
theorem failed_load_leaves_fresh_unloaded_slot_witness :
    (∃ o, QVector.index woodScene.1.m_objects 0 = some o) ∧
    3 ≤ "gone.png".length ∧
    (decodedImage demoWorld "gone.png").hasData = false ∧
    ∃ o : Object ℚ, Scene.loadMap demoWorld .diffuse "gone.png" 0 woodScene.1 woodScene.2 =
      .returned false
        ({ woodScene.1 with
            m_objects := QVector.assign woodScene.1.m_objects 0
              (o.setSlot .diffuse (Texture.new "gone.png")) },
          woodScene.2) :=
  ⟨⟨_, rfl⟩, by decide, by decide, _,
    failed_load_leaves_fresh_unloaded_slot demoWorld .diffuse "gone.png" 0 woodScene.1
      woodScene.2 _ rfl (by decide) (by decide)⟩

/-- For every object of every scene and every path shorter than three bytes,
each of the four scene loaders ends by throwing. -/
theorem short_path_throws {F : Type} [Field F] (W : World F) (slot : Slot) (filePath : String)
    (i : Int) (s : Scene F) (gl : GLState) (o : Object F)
    (ho : QVector.index s.m_objects i = some o) (hlen : (stdBytes filePath).length < 3) :
    (Scene.loadMap W slot filePath i s gl).hasThrown = true := by
  have hi := (QVector.lt_size_of_index s.m_objects i o ho).2
  cases slot
  · simp [Scene.loadMap, Scene.loadDiffuseMap, Object.loadDiffuseTexture, hi, ho,
      loadBySuffix_short W filePath _ gl hlen, Outcome.hasThrown]
  · simp [Scene.loadMap, Scene.loadSpecularMap, Object.loadSpecularTexture, hi, ho,
      loadBySuffix_short W filePath _ gl hlen, Outcome.hasThrown]
  · simp [Scene.loadMap, Scene.loadNormalMap, Object.loadNormalMap, hi, ho,
      loadBySuffix_short W filePath _ gl hlen, Outcome.hasThrown]
  · simp [Scene.loadMap, Scene.loadRoughnessMap, Object.loadRoughnessMap, hi, ho,
      loadBySuffix_short W filePath _ gl hlen, Outcome.hasThrown]

/-- C6 (failing input): on the default scene, with object index 0, the
two-character path `ab` and the empty path make `filePath.size()-3` wrap around
to a start position past the end of the string, `substr` throws, and each of
the four scene loaders ends with an exception instead of returning a boolean. -/
theorem short_path_makes_loaders_throw :
    lastThree "ab" = none ∧ lastThree "" = none ∧
    sizeSub "ab".length 3 = 18446744073709551615 ∧
    (Scene.loadDiffuseMap demoWorld "ab" 0 demoScene demoGL).hasThrown = true ∧
    (Scene.loadSpecularMap demoWorld "ab" 0 demoScene demoGL).hasThrown = true ∧
    (Scene.loadNormalMap demoWorld "ab" 0 demoScene demoGL).hasThrown = true ∧
    (Scene.loadRoughnessMap demoWorld "ab" 0 demoScene demoGL).hasThrown = true ∧
    (Scene.loadDiffuseMap demoWorld "" 0 demoScene demoGL).hasThrown = true := by
  refine ⟨by decide, by decide, by decide, by decide, by decide, by decide, by decide, by decide⟩

section SuccessFacts
variable {F : Type}

/-- After `load_8UC3` the loaded-flag is the boolean returned, and on success
the size is that of the decoded image. -/
theorem Texture.load_8UC3_result (W : World F) (t : Texture) (gl : GLState) :
    (t.load_8UC3 W gl).2.1.m_isLoaded = (t.load_8UC3 W gl).1 ∧
    ((t.load_8UC3 W gl).1 = true →
      (W.imread t.m_filePath).hasData = true ∧
      (t.load_8UC3 W gl).2.1.m_width = (W.imread t.m_filePath).cols ∧
      (t.load_8UC3 W gl).2.1.m_height = (W.imread t.m_filePath).rows) := by
  unfold Texture.load_8UC3
  cases h : (W.imread t.m_filePath).hasData <;> simp [h]

/-- After `load_32FC3` the loaded-flag is the boolean returned, and on success
the size is that of the decoded image. -/
theorem Texture.load_32FC3_result (W : World F) (t : Texture) (gl : GLState) :
    (t.load_32FC3 W gl).2.1.m_isLoaded = (t.load_32FC3 W gl).1 ∧
    ((t.load_32FC3 W gl).1 = true →
      (W.loadPFM t.m_filePath).hasData = true ∧
      (t.load_32FC3 W gl).2.1.m_width = (W.loadPFM t.m_filePath).cols ∧
      (t.load_32FC3 W gl).2.1.m_height = (W.loadPFM t.m_filePath).rows) := by
  unfold Texture.load_32FC3
  cases h : (W.loadPFM t.m_filePath).hasData <;> simp [h]

/-- After the suffix-selected load of a fresh texture the loaded-flag is the
boolean returned, and on success the size is that of the decoded image. -/
theorem loadBySuffix_result (W : World F) (filePath : String) (gl : GLState)
    (r : Bool × Texture × GLState)
    (h : loadBySuffix W filePath (Texture.new filePath) gl = some r) :
    r.2.1.m_isLoaded = r.1 ∧
    (r.1 = true →
      (decodedImage W filePath).hasData = true ∧
      r.2.1.m_width = (decodedImage W filePath).cols ∧
      r.2.1.m_height = (decodedImage W filePath).rows) := by
  cases hs : lastThree filePath with
  | none =>
    unfold loadBySuffix at h
    rw [hs] at h
    exact Option.noConfusion h
  | some suffix =>
    by_cases hp : suffix = stdBytes "pfm"
    · rw [hp] at hs
      rw [loadBySuffix_pfm W filePath _ gl hs] at h
      rw [decodedImage_pfm W filePath hs, ← Option.some.inj h]
      exact Texture.load_32FC3_result W (Texture.new filePath) gl
    · rw [loadBySuffix_other W filePath suffix _ gl hs hp] at h
      rw [decodedImage_other W filePath suffix hs hp, ← Option.some.inj h]
      exact Texture.load_8UC3_result W (Texture.new filePath) gl

/-- When `Object::loadDiffuseTexture` returns true, the diffuse slot is loaded
and has the size of the decoded image. -/
theorem Object.loadDiffuseTexture_true (W : World F) (filePath : String) (o : Object F)
    (gl : GLState) (r : Object F × GLState)
    (h : Object.loadDiffuseTexture W filePath o gl = .returned true r) :
    r.1.m_diffuseTexture.m_isLoaded = true ∧
    (decodedImage W filePath).hasData = true ∧
    r.1.m_diffuseTexture.m_width = (decodedImage W filePath).cols ∧
    r.1.m_diffuseTexture.m_height = (decodedImage W filePath).rows := by
  unfold Object.loadDiffuseTexture at h
  cases hl : loadBySuffix W filePath (Texture.new filePath) gl with
  | none =>
    simp only [hl] at h
    exact Outcome.noConfusion h
  | some q =>
    simp only [hl] at h
    injection h with h1 h2
    have hq := loadBySuffix_result W filePath gl q hl
    rw [← h2]
    exact ⟨hq.1.trans h1, hq.2 h1⟩

end SuccessFacts

/-- The identity scaled by `(1, y)` is the scaling matrix itself. -/
theorem identity_scale {F : Type} [Field F] (x y : F) :
    (1 : QMatrix4x4 F).scale x y = scaleMatrix x y := by
  simp [QMatrix4x4.scale]

/-- The LDR load of a fresh texture whose image decodes returns true, fills in
the image size and takes the next unused texture name as handle. -/
theorem Texture.load_8UC3_succeeds {F : Type} (W : World F) (path : String) (gl : GLState)
    (h : (W.imread path).hasData = true) :
    (Texture.new path).load_8UC3 W gl =
      (true,
        { m_textureId := max gl.nextName 1, m_filePath := path, m_isLoaded := true,
          m_width := (W.imread path).cols, m_height := (W.imread path).rows,
          m_numberOfComponents := (W.imread path).channels },
        { nextName := max gl.nextName 1 + 1, textures := max gl.nextName 1 :: gl.textures }) := by
  simp [Texture.load_8UC3, Texture.new, GLState.glIsTexture, GLState.glGenTextures, h]

/-- The HDR load of a fresh texture whose image decodes, as `load_8UC3_succeeds`. -/
theorem Texture.load_32FC3_decodes {F : Type} (W : World F) (path : String) (gl : GLState)
    (h : (W.loadPFM path).hasData = true) :
    (Texture.new path).load_32FC3 W gl =
      (true,
        { m_textureId := max gl.nextName 1, m_filePath := path, m_isLoaded := true,
          m_width := (W.loadPFM path).cols, m_height := (W.loadPFM path).rows,
          m_numberOfComponents := (W.loadPFM path).channels },
        { nextName := max gl.nextName 1 + 1, textures := max gl.nextName 1 :: gl.textures }) := by
  simp [Texture.load_32FC3, Texture.new, GLState.glIsTexture, GLState.glGenTextures, h]

/-- For a path of at least three bytes whose image decodes, the
suffix-selected load of a fresh texture returns true with the texture loaded
at the size of the decoded image. -/
theorem loadBySuffix_succeeds {F : Type} (W : World F) (filePath : String) (gl : GLState)
    (hlen : 3 ≤ (stdBytes filePath).length) (h : (decodedImage W filePath).hasData = true) :
    loadBySuffix W filePath (Texture.new filePath) gl =
      some (true,
        { m_textureId := max gl.nextName 1, m_filePath := filePath, m_isLoaded := true,
          m_width := (decodedImage W filePath).cols, m_height := (decodedImage W filePath).rows,
          m_numberOfComponents := (decodedImage W filePath).channels },
        { nextName := max gl.nextName 1 + 1, textures := max gl.nextName 1 :: gl.textures }) := by
  obtain ⟨suffix, hs⟩ := lastThree_long filePath hlen
  by_cases hp : suffix = stdBytes "pfm"
  · rw [hp] at hs
    rw [decodedImage_pfm W filePath hs] at h ⊢
    rw [loadBySuffix_pfm W filePath _ gl hs, Texture.load_32FC3_decodes W filePath gl h]
  · rw [decodedImage_other W filePath suffix hs hp] at h ⊢
    rw [loadBySuffix_other W filePath suffix _ gl hs hp, Texture.load_8UC3_succeeds W filePath gl h]

/-- For every in-range object index and every path of at least three bytes
whose image decodes with width w and height h, `Scene::loadDiffuseMap` returns
true and the object's model matrix afterwards is the identity scaled by
(1, h/w), whatever it was before. -/
theorem Scene.loadDiffuseMap_decoded {F : Type} [Field F] (W : World F) (filePath : String)
    (i : Int) (s : Scene F) (gl : GLState) (o : Object F)
    (ho : QVector.index s.m_objects i = some o)
    (hlen : 3 ≤ (stdBytes filePath).length)
    (hdec : (decodedImage W filePath).hasData = true) :
    ∃ st, Scene.loadDiffuseMap W filePath i s gl = .returned true st ∧
      (QVector.index st.1.m_objects i).map Object.m_modelMatrix =
        some ((1 : QMatrix4x4 F).scale 1
          (((decodedImage W filePath).rows : F) / ((decodedImage W filePath).cols : F))) := by
  have hi := (QVector.lt_size_of_index s.m_objects i o ho).2
  have hl := loadBySuffix_succeeds W filePath gl hlen hdec
  obtain ⟨r, hload, hr⟩ : ∃ r : Object F × GLState,
      Object.loadDiffuseTexture W filePath o gl = .returned true r ∧
      r.1.m_diffuseTexture.m_isLoaded = true ∧
      r.1.m_diffuseTexture.m_width = (decodedImage W filePath).cols ∧
      r.1.m_diffuseTexture.m_height = (decodedImage W filePath).rows := by
    unfold Object.loadDiffuseTexture
    simp only [hl]
    exact ⟨_, rfl, rfl, rfl, rfl⟩
  refine ⟨({ s with m_objects :=
      QVector.assign s.m_objects i r.1.resetModelMatrix.setAspectRatio }, r.2), ?_, ?_⟩
  · unfold Scene.loadDiffuseMap
    rw [if_pos hi, ho]
    simp only [hload, if_true]
  · rw [QVector.index_assign s.m_objects i o _ ho]
    simp [Object.setAspectRatio, Object.resetModelMatrix, Texture.isLoaded, hr.1, hr.2.1,
      hr.2.2, Texture.getAspectRatio, QMatrix4x4.setToIdentity]

/-- C7 (failing input): in a world where the files `ab` and `wood.png` both
decode to an image of 4 x 2, `Scene::loadDiffuseMap("ab", 0)` on the default
scene ends with the exception of `substr` instead of returning true, where
`Scene::loadDiffuseMap("wood.png", 0)` returns true and leaves the model matrix
of the object equal to the identity scaled by (1, 2/4). -/
theorem decodable_short_path_is_not_loaded :
    decodedImage shortNameWorld "ab" = ⟨4, 2, 3, true⟩ ∧
    decodedImage shortNameWorld "wood.png" = ⟨4, 2, 3, true⟩ ∧
    (∃ o, QVector.index demoScene.m_objects 0 = some o) ∧
    (Scene.loadDiffuseMap shortNameWorld "ab" 0 demoScene demoGL).hasThrown = true ∧
    (∃ st, Scene.loadDiffuseMap shortNameWorld "wood.png" 0 demoScene demoGL =
        .returned true st ∧
      (QVector.index st.1.m_objects 0).map Object.m_modelMatrix =
        some ((1 : QMatrix4x4 ℚ).scale 1 (((2 : Int) : ℚ) / ((4 : Int) : ℚ)))) := by
  have hab : decodedImage shortNameWorld "ab" = ⟨4, 2, 3, true⟩ := by decide
  have hwood : decodedImage shortNameWorld "wood.png" = ⟨4, 2, 3, true⟩ := by decide
  refine ⟨hab, hwood, ⟨_, rfl⟩, by decide, ?_⟩
  have h := Scene.loadDiffuseMap_decoded shortNameWorld "wood.png" 0 demoScene demoGL _ rfl
    (by decide) (by rw [hwood])
  rw [hwood] at h
  exact h

/-! ## Frame of the specular, normal and roughness loaders -/

section FrameFacts
variable {F : Type}

/-- An index below the size at which a `QVector` is undefined is negative. -/
theorem QVector.neg_of_index_none {α : Type} (v : List α) (i : Int)
    (hi : i < QVector.size v) (h : QVector.index v i = none) : i < 0 := by
  by_contra hneg
  obtain ⟨a, ha⟩ := QVector.index_isSome v i (not_lt.mp hneg) hi
  rw [ha] at h
  exact Option.noConfusion h

/-- Replacing an object by one with the same model matrix keeps the model
matrices of the scene. -/
theorem Scene.modelMatrices_assign (s : Scene F) (i : Int) (e e1 : Object F)
    (ho : QVector.index s.m_objects i = some e) (hm : e1.m_modelMatrix = e.m_modelMatrix) :
    Scene.modelMatrices { s with m_objects := QVector.assign s.m_objects i e1 }
      = s.modelMatrices := by
  unfold Scene.modelMatrices
  exact QVector.map_assign Object.m_modelMatrix s.m_objects i e e1 ho hm

end FrameFacts

/-- For every scene, every object index that is not negative and every path,
`Scene::loadSpecularMap`, `loadNormalMap` and `loadRoughnessMap` end, by
returning or by throwing, and leave the model matrix of every object
unchanged, whether the load succeeds, fails or throws. -/
theorem Scene.other_loaders_keep_model_matrices {F : Type} [Field F] (W : World F)
    (filePath : String) (i : Int) (s : Scene F) (gl : GLState) (h0 : 0 ≤ i) :
    KeepsModelMatrices s (Scene.loadSpecularMap W filePath i s gl) ∧
    KeepsModelMatrices s (Scene.loadNormalMap W filePath i s gl) ∧
    KeepsModelMatrices s (Scene.loadRoughnessMap W filePath i s gl) := by
  by_cases hi : i < QVector.size s.m_objects
  · obtain ⟨e, ho⟩ := QVector.index_isSome s.m_objects i h0 hi
    refine ⟨?_, ?_, ?_⟩
    · unfold Scene.loadSpecularMap Object.loadSpecularTexture
      rw [if_pos hi, ho]
      dsimp only
      cases hl : loadBySuffix W filePath (Texture.new filePath) gl with
      | none => exact Scene.modelMatrices_assign s i e _ ho rfl
      | some q => exact Scene.modelMatrices_assign s i e _ ho rfl
    · unfold Scene.loadNormalMap Object.loadNormalMap
      rw [if_pos hi, ho]
      dsimp only
      cases hl : loadBySuffix W filePath (Texture.new filePath) gl with
      | none => exact Scene.modelMatrices_assign s i e _ ho rfl
      | some q => exact Scene.modelMatrices_assign s i e _ ho rfl
    · unfold Scene.loadRoughnessMap Object.loadRoughnessMap
      rw [if_pos hi, ho]
      dsimp only
      cases hl : loadBySuffix W filePath (Texture.new filePath) gl with
      | none => exact Scene.modelMatrices_assign s i e _ ho rfl
      | some q => exact Scene.modelMatrices_assign s i e _ ho rfl
  · refine ⟨?_, ?_, ?_⟩
    · unfold Scene.loadSpecularMap
      rw [if_neg hi]
      exact rfl
    · unfold Scene.loadNormalMap
      rw [if_neg hi]
      exact rfl
    · unfold Scene.loadRoughnessMap
      rw [if_neg hi]
      exact rfl

/-- C8 (failing input): on the default scene the object index -1 passes the
only guard `objectNumber < m_objects.size()` of `Scene::loadSpecularMap`,
`loadNormalMap` and `loadRoughnessMap`, which then load through
`m_objects[-1]`, out of range: the call has undefined behaviour and nothing
holds of the model matrices afterwards.  With index 0 the same calls return
and keep every model matrix. -/
theorem loaders_write_through_a_negative_index :
    (-1 : Int) < QVector.size demoScene.m_objects ∧
    QVector.index demoScene.m_objects (-1) = none ∧
    Scene.loadSpecularMap demoWorld "wood.png" (-1) demoScene demoGL = .undefinedBehaviour ∧
    Scene.loadNormalMap demoWorld "wood.png" (-1) demoScene demoGL = .undefinedBehaviour ∧
    Scene.loadRoughnessMap demoWorld "wood.png" (-1) demoScene demoGL = .undefinedBehaviour ∧
    ¬ KeepsModelMatrices demoScene
        (Scene.loadSpecularMap demoWorld "wood.png" (-1) demoScene demoGL) ∧
    KeepsModelMatrices demoScene
        (Scene.loadSpecularMap demoWorld "wood.png" 0 demoScene demoGL) := by
  have h1 : Scene.loadSpecularMap demoWorld "wood.png" (-1) demoScene demoGL =
      .undefinedBehaviour := by decide
  refine ⟨by decide, by decide, h1, by decide, by decide, ?_,
    (Scene.other_loaders_keep_model_matrices demoWorld "wood.png" 0 demoScene demoGL
      (by decide)).1⟩
  rw [h1]
  exact fun h => h

/-! ## Environment maps -/

section EnvironmentFacts
variable {F : Type}

/-- The HDR load of a fresh texture whose image decodes returns true, fills in
the image size and takes the next unused texture name as handle. -/
theorem Texture.load_32FC3_succeeds (W : World F) (path : String) (gl : GLState)
    (h : (W.loadPFM path).hasData = true) :
    (Texture.new path).load_32FC3 W gl =
      (true,
        { m_textureId := max gl.nextName 1, m_filePath := path, m_isLoaded := true,
          m_width := (W.loadPFM path).cols, m_height := (W.loadPFM path).rows,
          m_numberOfComponents := (W.loadPFM path).channels },
        { nextName := max gl.nextName 1 + 1, textures := max gl.nextName 1 :: gl.textures }) := by
  simp [Texture.load_32FC3, Texture.new, GLState.glIsTexture, GLState.glGenTextures, h]

/-- The HDR load of a fresh texture returns whether its image decodes. -/
theorem Texture.load_32FC3_new_fst (W : World F) (path : String) (gl : GLState) :
    ((Texture.new path).load_32FC3 W gl).1 = (W.loadPFM path).hasData := by
  cases h : (W.loadPFM path).hasData
  · rw [Texture.load_32FC3_fails W path gl h]
  · rw [Texture.load_32FC3_succeeds W path gl h]

/-- The HDR load of a fresh texture never lowers the next unused name. -/
theorem Texture.load_32FC3_new_nextName (W : World F) (path : String) (gl : GLState) :
    gl.nextName ≤ ((Texture.new path).load_32FC3 W gl).2.2.nextName := by
  cases h : (W.loadPFM path).hasData
  · rw [Texture.load_32FC3_fails W path gl h]
  · rw [Texture.load_32FC3_succeeds W path gl h]
    show gl.nextName ≤ max gl.nextName 1 + 1
    omega

/-- The HDR load of a fresh texture leaves what `ReloadedFrom` describes. -/
theorem Texture.load_32FC3_new_reloaded (W : World F) (path : String) (gl : GLState) :
    ReloadedFrom W gl path ((Texture.new path).load_32FC3 W gl).2.1 := by
  unfold ReloadedFrom
  cases h : (W.loadPFM path).hasData
  · rw [Texture.load_32FC3_fails W path gl h]
    simp
  · rw [Texture.load_32FC3_succeeds W path gl h]
    simp

/-- A slot reloaded from a later OpenGL state is reloaded from an earlier one. -/
theorem ReloadedFrom.mono (W : World F) (gl gl1 : GLState) (path : String) (t : Texture)
    (hle : gl.nextName ≤ gl1.nextName) (h : ReloadedFrom W gl1 path t) :
    ReloadedFrom W gl path t := by
  unfold ReloadedFrom at h ⊢
  cases hd : (W.loadPFM path).hasData
  · simpa [hd] using h
  · simp only [hd, if_true] at h ⊢
    refine ⟨h.1, h.2.1, ?_, h.2.2.2⟩
    have := h.2.2.1
    omega

end EnvironmentFacts

/-- C9: `Scene::loadEnvironmentMap` returns true if and only if the three
images (the paths given for the base, the diffuse and the rough map) all
decode; when it returns true the three environment slots are loaded; and when
one of the three fails to decode it returns false. -/
theorem loadEnvironmentMap_true_iff_all_loaded {F : Type} [Field F] (W : World F)
    (EMPath EMDiffusePath EMRoughPath : String) (s : Scene F) (gl : GLState) :
    ((Scene.loadEnvironmentMap W EMPath EMDiffusePath EMRoughPath s gl).1 = true ↔
      ((W.loadPFM EMPath).hasData = true ∧ (W.loadPFM EMDiffusePath).hasData = true ∧
        (W.loadPFM EMRoughPath).hasData = true)) ∧
    ((Scene.loadEnvironmentMap W EMPath EMDiffusePath EMRoughPath s gl).1 = true →
      (Scene.loadEnvironmentMap W EMPath EMDiffusePath EMRoughPath s gl).2.1.m_environmentMap.isLoaded
        = true ∧
      (Scene.loadEnvironmentMap W EMPath EMDiffusePath EMRoughPath s gl).2.1.m_environmentMapRough.isLoaded
        = true ∧
      (Scene.loadEnvironmentMap W EMPath EMDiffusePath EMRoughPath s gl).2.1.m_environmentMapDiffuse.isLoaded
        = true) ∧
    (((W.loadPFM EMPath).hasData = false ∨ (W.loadPFM EMDiffusePath).hasData = false ∨
        (W.loadPFM EMRoughPath).hasData = false) →
      (Scene.loadEnvironmentMap W EMPath EMDiffusePath EMRoughPath s gl).1 = false) := by
  have e1 := fun g => Texture.load_32FC3_new_fst W EMPath g
  have e2 := fun g => Texture.load_32FC3_new_fst W EMDiffusePath g
  have e3 := fun g => Texture.load_32FC3_new_fst W EMRoughPath g
  have f1 := fun g => (Texture.load_32FC3_result W (Texture.new EMPath) g).1
  have f2 := fun g => (Texture.load_32FC3_result W (Texture.new EMDiffusePath) g).1
  have f3 := fun g => (Texture.load_32FC3_result W (Texture.new EMRoughPath) g).1
  refine ⟨?_, ?_, ?_⟩
  · simp [Scene.loadEnvironmentMap, e1, e2, e3, and_assoc]
  · intro h
    simp only [Scene.loadEnvironmentMap, e1, e2, e3, Bool.and_eq_true] at h
    simp [Scene.loadEnvironmentMap, Texture.isLoaded, f1, f2, f3, e1, e2, e3, h.1.1, h.1.2, h.2]
  · intro h
    simp only [Scene.loadEnvironmentMap, e1, e2, e3]
    rcases h with h | h | h <;> simp [h]

/-- C10 (counterexample): in the scene whose three environment textures are
loaded under handles 1, 2 and 3, a call to `loadEnvironmentMap` whose third
image does not decode returns false and leaves the slots with handles 4, 5 and
0, the last one not loaded: none of the previously bound textures is kept. -/
theorem failed_environment_load_replaces_textures :
    skyScene.1.m_environmentMap = ⟨1, "sky.pfm", true, 8, 4, 3⟩ ∧
    skyScene.1.m_environmentMapRough = ⟨2, "sky_diffuse.pfm", true, 8, 4, 3⟩ ∧
    skyScene.1.m_environmentMapDiffuse = ⟨3, "sky_rough.pfm", true, 8, 4, 3⟩ ∧
    (demoWorld.loadPFM "none.pfm").hasData = false ∧
    (Scene.loadEnvironmentMap demoWorld "sky.pfm" "sky_diffuse.pfm" "none.pfm" skyScene.1
      skyScene.2).1 = false ∧
    (Scene.loadEnvironmentMap demoWorld "sky.pfm" "sky_diffuse.pfm" "none.pfm" skyScene.1
      skyScene.2).2.1.m_environmentMap = ⟨4, "sky.pfm", true, 8, 4, 3⟩ ∧
    (Scene.loadEnvironmentMap demoWorld "sky.pfm" "sky_diffuse.pfm" "none.pfm" skyScene.1
      skyScene.2).2.1.m_environmentMapRough = ⟨5, "sky_diffuse.pfm", true, 8, 4, 3⟩ ∧
    (Scene.loadEnvironmentMap demoWorld "sky.pfm" "sky_diffuse.pfm" "none.pfm" skyScene.1
      skyScene.2).2.1.m_environmentMapDiffuse = ⟨0, "none.pfm", false, 0, 0, 0⟩ := by
  refine ⟨by decide, by decide, by decide, by decide, by decide, by decide, by decide, by decide⟩

/-- C10 (amended): for every scene, loaded or not, a call to
`Scene::loadEnvironmentMap` in which at least one of the three images does not
decode returns false and keeps none of the previous environment textures: each
slot whose image did not decode holds the fresh unloaded texture of its new
path (handle 0), each slot whose image decoded holds the newly loaded texture
under a handle generated during the call.  The base path goes to
`m_environmentMap`, the second path to `m_environmentMapRough` and the third to
`m_environmentMapDiffuse`. -/
theorem failed_environment_load_reloads_every_slot {F : Type} [Field F] (W : World F)
    (EMPath EMDiffusePath EMRoughPath : String) (s : Scene F) (gl : GLState)
    (hfail : (W.loadPFM EMPath).hasData = false ∨ (W.loadPFM EMDiffusePath).hasData = false ∨
      (W.loadPFM EMRoughPath).hasData = false) :
    (Scene.loadEnvironmentMap W EMPath EMDiffusePath EMRoughPath s gl).1 = false ∧
    ReloadedFrom W gl EMPath
      (Scene.loadEnvironmentMap W EMPath EMDiffusePath EMRoughPath s gl).2.1.m_environmentMap ∧
    ReloadedFrom W gl EMDiffusePath
      (Scene.loadEnvironmentMap W EMPath EMDiffusePath EMRoughPath s gl).2.1.m_environmentMapRough ∧
    ReloadedFrom W gl EMRoughPath
      (Scene.loadEnvironmentMap W EMPath EMDiffusePath EMRoughPath s gl).2.1.m_environmentMapDiffuse := by
  have n1 := Texture.load_32FC3_new_nextName W EMPath gl
  have n2 := Texture.load_32FC3_new_nextName W EMDiffusePath
    ((Texture.new EMPath).load_32FC3 W gl).2.2
  refine ⟨?_, ?_, ?_, ?_⟩
  · simp only [Scene.loadEnvironmentMap, Texture.load_32FC3_new_fst]
    rcases hfail with h | h | h <;> simp [h]
  · exact Texture.load_32FC3_new_reloaded W EMPath gl
  · exact ReloadedFrom.mono W gl _ EMDiffusePath _ n1
      (Texture.load_32FC3_new_reloaded W EMDiffusePath _)
  · exact ReloadedFrom.mono W gl _ EMRoughPath _ (le_trans n1 n2)
      (Texture.load_32FC3_new_reloaded W EMRoughPath _)

/-- Witness for C10 (amended): the scene with the three `sky` maps loaded,
reloaded with the undecodable `none.pfm` as third path. -/
theorem failed_environment_load_reloads_every_slot_witness :
    ((demoWorld.loadPFM "sky.pfm").hasData = false ∨
      (demoWorld.loadPFM "sky_diffuse.pfm").hasData = false ∨
      (demoWorld.loadPFM "none.pfm").hasData = false) ∧
    ((Scene.loadEnvironmentMap demoWorld "sky.pfm" "sky_diffuse.pfm" "none.pfm" skyScene.1
      skyScene.2).1 = false ∧
    ReloadedFrom demoWorld skyScene.2 "sky.pfm"
      (Scene.loadEnvironmentMap demoWorld "sky.pfm" "sky_diffuse.pfm" "none.pfm" skyScene.1
        skyScene.2).2.1.m_environmentMap ∧
    ReloadedFrom demoWorld skyScene.2 "sky_diffuse.pfm"
      (Scene.loadEnvironmentMap demoWorld "sky.pfm" "sky_diffuse.pfm" "none.pfm" skyScene.1
        skyScene.2).2.1.m_environmentMapRough ∧
    ReloadedFrom demoWorld skyScene.2 "none.pfm"
      (Scene.loadEnvironmentMap demoWorld "sky.pfm" "sky_diffuse.pfm" "none.pfm" skyScene.1
        skyScene.2).2.1.m_environmentMapDiffuse) :=
  ⟨by decide,
    failed_environment_load_reloads_every_slot demoWorld "sky.pfm" "sky_diffuse.pfm" "none.pfm"
      skyScene.1 skyScene.2 (by decide)⟩

/-! ## Environment map units -/

/-- The load of `Texture::load_32FC3` keeps the path of the texture. -/
theorem Texture.load_32FC3_filePath {F : Type} (W : World F) (t : Texture) (gl : GLState) :
    (t.load_32FC3 W gl).2.1.m_filePath = t.m_filePath := by
  unfold Texture.load_32FC3
  cases h : (W.loadPFM t.m_filePath).hasData <;> simp [h]

/-- For every scene and every three paths, `Scene::loadEnvironmentMap(EMPath,
EMDiffusePath, EMRoughPath)` leaves `EMDiffusePath` in the rough slot and
`EMRoughPath` in the diffuse slot. -/
theorem Scene.loadEnvironmentMap_paths {F : Type} [Field F] (W : World F)
    (EMPath EMDiffusePath EMRoughPath : String) (s : Scene F) (gl : GLState) :
    (Scene.loadEnvironmentMap W EMPath EMDiffusePath EMRoughPath s gl).2.1.m_environmentMap.m_filePath
      = EMPath ∧
    (Scene.loadEnvironmentMap W EMPath EMDiffusePath EMRoughPath s gl).2.1.m_environmentMapRough.m_filePath
      = EMDiffusePath ∧
    (Scene.loadEnvironmentMap W EMPath EMDiffusePath EMRoughPath s gl).2.1.m_environmentMapDiffuse.m_filePath
      = EMRoughPath := by
  simp [Scene.loadEnvironmentMap, Texture.load_32FC3_filePath, Texture.new]

/-- C11 (failing input): after `GLDisplay::loadEnvironmentMap("sky")` succeeds
on the default scene, the rough slot (handle 2, bound to texture unit 5) holds
the texture loaded from `sky_diffuse.pfm` and the diffuse slot (handle 3, bound
to unit 6) holds the one loaded from `sky_rough.pfm`: the two are swapped. -/
theorem environment_rough_and_diffuse_are_swapped :
    skyDisplay.1 = true ∧
    skyDisplay.2.1.m_environmentMapRough = ⟨2, "sky_diffuse.pfm", true, 8, 4, 3⟩ ∧
    skyDisplay.2.1.m_environmentMapDiffuse = ⟨3, "sky_rough.pfm", true, 8, 4, 3⟩ ∧
    skyDisplay.2.1.getEnvironmentMapRoughId = 2 ∧
    skyDisplay.2.1.getEnvironmentMapDiffuseId = 3 ∧
    (GLDisplay.sendObjectDataToShaders skyDisplay.2.1 (Object.new demoWorld "square"))[5]?
      = some 2 ∧
    (GLDisplay.sendObjectDataToShaders skyDisplay.2.1 (Object.new demoWorld "square"))[6]?
      = some 3 := by
  refine ⟨by decide, by decide, by decide, by decide, by decide, by decide, by decide⟩

/-! ## Resetting the transformations -/

/-- C17: for every object, `resetModelMatrix` then `setAspectRatio` done twice
in a row leaves the object, hence its model matrix, as done once; so
`Scene::resetTransformationsObjects` is idempotent on every scene. -/
theorem reset_then_aspect_is_idempotent {F : Type} [Field F] (o : Object F) (s : Scene F) :
    o.resetModelMatrix.setAspectRatio.resetModelMatrix.setAspectRatio.m_modelMatrix
      = o.resetModelMatrix.setAspectRatio.m_modelMatrix ∧
    o.resetModelMatrix.setAspectRatio.resetModelMatrix.setAspectRatio
      = o.resetModelMatrix.setAspectRatio ∧
    s.resetTransformationsObjects.resetTransformationsObjects = s.resetTransformationsObjects := by
  have h : ∀ o : Object F, o.resetModelMatrix.setAspectRatio.resetModelMatrix.setAspectRatio
      = o.resetModelMatrix.setAspectRatio := by
    intro o
    simp [Object.resetModelMatrix, Object.setAspectRatio, QMatrix4x4.setToIdentity]
  refine ⟨by rw [h o], h o, ?_⟩
  unfold Scene.resetTransformationsObjects
  simp only [List.map_map]
  congr 1

/-! ## Rotation angles of an object -/

section AngleFacts

/-- The truncated remainder by 360 in terms of the floor remainder. -/
theorem tmod_360_eq (a : Int) :
    a.tmod 360 = if 0 ≤ a then a % 360 else -((-a) % 360) := by
  by_cases h : 0 ≤ a
  · rw [if_pos h, Int.tmod_eq_emod h (by omega)]
  · rw [if_neg h]
    have h1 := Int.tmod_def a 360
    have h2 : a.tdiv 360 = -((-a).tdiv 360) := by rw [Int.neg_tdiv]; omega
    have h3 := Int.tdiv_eq_ediv (a := -a) (b := 360) (by omega) (by omega)
    omega

variable {F : Type} [Field F] [DecidableEq F] [CharZero F]

/-- With sines and cosines of period 360 degrees, `QMatrix4x4::rotate` by a
negative whole angle above -360 is the rotation by that angle plus 360. -/
theorem QMatrix4x4.rotate_add_360 (W : World F)
    (hcos : ∀ x, W.cosDeg (x + 360) = W.cosDeg x) (hsin : ∀ x, W.sinDeg (x + 360) = W.sinDeg x)
    (m : QMatrix4x4 F) (v : QVector3D F) (r : Int) (h1 : -360 < r) (h2 : r < 0) :
    QMatrix4x4.rotate W m ((r + 360 : Int) : F) v = QMatrix4x4.rotate W m ((r : Int) : F) v := by
  have cast_eq : ∀ c : Int, ((r : F) = (c : F)) ↔ r = c := fun c => Int.cast_inj
  have cast_eq' : ∀ c : Int, (((r + 360 : Int) : F) = (c : F)) ↔ r + 360 = c :=
    fun c => Int.cast_inj
  have e0 : ((r : F) = 0) ↔ r = 0 := by exact_mod_cast cast_eq 0
  have e90 : ((r : F) = 90) ↔ r = 90 := by exact_mod_cast cast_eq 90
  have e270 : ((r : F) = 270) ↔ r = 270 := by exact_mod_cast cast_eq 270
  have e180 : ((r : F) = 180) ↔ r = 180 := by exact_mod_cast cast_eq 180
  have n90 : ((r : F) = -90) ↔ r = -90 := by exact_mod_cast cast_eq (-90)
  have n270 : ((r : F) = -270) ↔ r = -270 := by exact_mod_cast cast_eq (-270)
  have n180 : ((r : F) = -180) ↔ r = -180 := by exact_mod_cast cast_eq (-180)
  have e0' : (((r + 360 : Int) : F) = 0) ↔ r + 360 = 0 := by exact_mod_cast cast_eq' 0
  have e90' : (((r + 360 : Int) : F) = 90) ↔ r + 360 = 90 := by exact_mod_cast cast_eq' 90
  have e270' : (((r + 360 : Int) : F) = 270) ↔ r + 360 = 270 := by exact_mod_cast cast_eq' 270
  have e180' : (((r + 360 : Int) : F) = 180) ↔ r + 360 = 180 := by exact_mod_cast cast_eq' 180
  have n90' : (((r + 360 : Int) : F) = -90) ↔ r + 360 = -90 := by exact_mod_cast cast_eq' (-90)
  have n270' : (((r + 360 : Int) : F) = -270) ↔ r + 360 = -270 := by
    exact_mod_cast cast_eq' (-270)
  have n180' : (((r + 360 : Int) : F) = -180) ↔ r + 360 = -180 := by
    exact_mod_cast cast_eq' (-180)
  have hc : W.cosDeg ((r + 360 : Int) : F) = W.cosDeg (r : F) := by
    rw [← hcos (r : F)]; congr 1; push_cast; ring
  have hs : W.sinDeg ((r + 360 : Int) : F) = W.sinDeg (r : F) := by
    rw [← hsin (r : F)]; congr 1; push_cast; ring
  unfold QMatrix4x4.rotate
  simp only [e0, e90, e270, e180, n90, n270, n180, e0', e90', e270', e180', n90', n270', n180',
    hc, hs]
  by_cases a1 : r = -270
  · subst a1; norm_num
  · by_cases a2 : r = -180
    · subst a2; norm_num
    · by_cases a3 : r = -90
      · subst a3; norm_num
      · have b0 : r ≠ 0 := by omega
        have b1 : ¬ r + 360 = 0 := by omega
        have b2 : ¬ (r + 360 = 90 ∨ r + 360 = -270) := by omega
        have b3 : ¬ (r + 360 = -90 ∨ r + 360 = 270) := by omega
        have b4 : ¬ (r + 360 = 180 ∨ r + 360 = -180) := by omega
        have c2 : ¬ (r = 90 ∨ r = -270) := by omega
        have c3 : ¬ (r = -90 ∨ r = 270) := by omega
        have c4 : ¬ (r = 180 ∨ r = -180) := by omega
        simp only [b0, b1, b2, b3, b4, c2, c3, c4, if_false]

/-- With sines and cosines of period 360 degrees, `QMatrix4x4::rotate` gives
the same matrix for the truncated remainders by 360 of two whole angles that
differ by a multiple of 360. -/
theorem QMatrix4x4.rotate_tmod_360 (W : World F)
    (hcos : ∀ x, W.cosDeg (x + 360) = W.cosDeg x) (hsin : ∀ x, W.sinDeg (x + 360) = W.sinDeg x)
    (m : QMatrix4x4 F) (v : QVector3D F) (a k : Int) :
    QMatrix4x4.rotate W m (((a + 360 * k).tmod 360 : Int) : F) v
      = QMatrix4x4.rotate W m ((a.tmod 360 : Int) : F) v := by
  have ha := tmod_360_eq a
  have hb := tmod_360_eq (a + 360 * k)
  have hcases : (a + 360 * k).tmod 360 = a.tmod 360 ∨
      ((a + 360 * k).tmod 360 = a.tmod 360 + 360 ∧ -360 < a.tmod 360 ∧ a.tmod 360 < 0) ∨
      (a.tmod 360 = (a + 360 * k).tmod 360 + 360 ∧ -360 < (a + 360 * k).tmod 360 ∧
        (a + 360 * k).tmod 360 < 0) := by
    split_ifs at ha hb <;> omega
  rcases hcases with h | ⟨h, h1, h2⟩ | ⟨h, h1, h2⟩
  · rw [h]
  · rw [h]
    exact QMatrix4x4.rotate_add_360 W hcos hsin m v _ h1 h2
  · rw [h]
    exact (QMatrix4x4.rotate_add_360 W hcos hsin m v _ h1 h2).symm

end AngleFacts

/-- C16: for every whole angle a, `Object::rotateX(a)`, `rotateY(a)` and
`rotateZ(a)` multiply the model matrix by the rotation through r = a % 360
(truncated remainder); r is congruent to a modulo 360 and -360 < r < 360; and,
sines and cosines having period 360 degrees, rotating by a + 360*k is rotating
by a, for every whole k. -/
theorem object_rotation_uses_angle_mod_360 {F : Type} [Field F] [DecidableEq F] [CharZero F]
    (W : World F) (o : Object F) (a k : Int)
    (hcos : ∀ x, W.cosDeg (x + 360) = W.cosDeg x)
    (hsin : ∀ x, W.sinDeg (x + 360) = W.sinDeg x) :
    ((o.rotateX W a).m_modelMatrix
        = QMatrix4x4.rotate W o.m_modelMatrix ((a.tmod 360 : Int) : F) ⟨1, 0, 0⟩ ∧
      (o.rotateY W a).m_modelMatrix
        = QMatrix4x4.rotate W o.m_modelMatrix ((a.tmod 360 : Int) : F) ⟨0, 1, 0⟩ ∧
      (o.rotateZ W a).m_modelMatrix
        = QMatrix4x4.rotate W o.m_modelMatrix ((a.tmod 360 : Int) : F) ⟨0, 0, 1⟩) ∧
    (a.tmod 360 ≡ a [ZMOD 360] ∧ -360 < a.tmod 360 ∧ a.tmod 360 < 360) ∧
    (o.rotateX W (a + 360 * k) = o.rotateX W a ∧ o.rotateY W (a + 360 * k) = o.rotateY W a ∧
      o.rotateZ W (a + 360 * k) = o.rotateZ W a) := by
  have ha := tmod_360_eq a
  refine ⟨⟨rfl, rfl, rfl⟩, ⟨?_, ?_, ?_⟩, ?_, ?_, ?_⟩
  · unfold Int.ModEq
    split_ifs at ha <;> omega
  · split_ifs at ha <;> omega
  · split_ifs at ha <;> omega
  · unfold Object.rotateX
    rw [QMatrix4x4.rotate_tmod_360 W hcos hsin]
  · unfold Object.rotateY
    rw [QMatrix4x4.rotate_tmod_360 W hcos hsin]
  · unfold Object.rotateZ
    rw [QMatrix4x4.rotate_tmod_360 W hcos hsin]

/-- Witness for C16: the square object of the sample world, a = 90, k = -1
(remainders 90 and -270, both rotated with the exact sine 1 and cosine 0). -/
theorem object_rotation_uses_angle_mod_360_witness :
    (∀ x, demoWorld.cosDeg (x + 360) = demoWorld.cosDeg x) ∧
    (∀ x, demoWorld.sinDeg (x + 360) = demoWorld.sinDeg x) ∧
    (90 : Int).tmod 360 = 90 ∧ (90 + 360 * (-1) : Int).tmod 360 = -270 ∧
    ((((Object.new demoWorld "square").rotateX demoWorld 90).m_modelMatrix
        = QMatrix4x4.rotate demoWorld (Object.new demoWorld "square").m_modelMatrix
            (((90 : Int).tmod 360 : Int) : ℚ) ⟨1, 0, 0⟩ ∧
      ((Object.new demoWorld "square").rotateY demoWorld 90).m_modelMatrix
        = QMatrix4x4.rotate demoWorld (Object.new demoWorld "square").m_modelMatrix
            (((90 : Int).tmod 360 : Int) : ℚ) ⟨0, 1, 0⟩ ∧
      ((Object.new demoWorld "square").rotateZ demoWorld 90).m_modelMatrix
        = QMatrix4x4.rotate demoWorld (Object.new demoWorld "square").m_modelMatrix
            (((90 : Int).tmod 360 : Int) : ℚ) ⟨0, 0, 1⟩) ∧
    ((90 : Int).tmod 360 ≡ 90 [ZMOD 360] ∧ -360 < (90 : Int).tmod 360 ∧
      (90 : Int).tmod 360 < 360) ∧
    ((Object.new demoWorld "square").rotateX demoWorld (90 + 360 * (-1))
        = (Object.new demoWorld "square").rotateX demoWorld 90 ∧
      (Object.new demoWorld "square").rotateY demoWorld (90 + 360 * (-1))
        = (Object.new demoWorld "square").rotateY demoWorld 90 ∧
      (Object.new demoWorld "square").rotateZ demoWorld (90 + 360 * (-1))
        = (Object.new demoWorld "square").rotateZ demoWorld 90)) :=
  ⟨fun _ => rfl, fun _ => rfl, by decide, by decide,
    object_rotation_uses_angle_mod_360 demoWorld (Object.new demoWorld "square") 90 (-1)
      (fun _ => rfl) (fun _ => rfl)⟩

/-! ## The light position sent to the shaders -/

/-- The sample fuzzy comparison for `double` holds of 0. -/
theorem demoMath_qFuzzyIsNull_zero : demoMath.qFuzzyIsNull 0 = true := by
  simp [demoMath]

/-- The sample fuzzy comparison for `float` holds of 0. -/
theorem demoMath_qFuzzyIsNullFloat_zero : demoMath.qFuzzyIsNullFloat 0 = true := by
  simp [demoMath]

/-- The sample fuzzy comparison for `float` does not hold of -1. -/
theorem demoMath_qFuzzyIsNullFloat_neg_one : demoMath.qFuzzyIsNullFloat (-1) = false := by
  simp [demoMath]
  norm_num

/-- The view matrix of the scene camera of the display: the translation by
(0, 0, -1). -/
theorem sceneCamera_viewMatrix : sceneCamera.m_viewMatrix = translationMatrix 0 0 (-1) := by
  have hv : sceneCamera.m_viewMatrix =
      QMatrix4x4.lookAt demoMath (1 : QMatrix4x4 ℚ) ⟨0, 0, 1⟩ ⟨0, 0, 0⟩ ⟨0, 1, 0⟩ := rfl
  rw [hv]
  have hforward : QVector3D.sub (⟨0, 0, 0⟩ : QVector3D ℚ) ⟨0, 0, 1⟩ = ⟨0, 0, -1⟩ := by
    simp [QVector3D.sub]
  have hnorm : QVector3D.normalize demoMath (⟨0, 0, -1⟩ : QVector3D ℚ) = ⟨0, 0, -1⟩ := by
    simp [QVector3D.normalize, QVector3D.lengthSquared, demoMath_qFuzzyIsNull_zero]
  have hcross : QVector3D.crossProduct (⟨0, 0, -1⟩ : QVector3D ℚ) ⟨0, 1, 0⟩ = ⟨1, 0, 0⟩ := by
    simp [QVector3D.crossProduct]
  have hside : QVector3D.normalized demoMath (⟨1, 0, 0⟩ : QVector3D ℚ) = ⟨1, 0, 0⟩ := by
    simp [QVector3D.normalized, QVector3D.lengthSquared, demoMath_qFuzzyIsNull_zero]
  have hup : QVector3D.crossProduct (⟨1, 0, 0⟩ : QVector3D ℚ) ⟨0, 0, -1⟩ = ⟨0, 1, 0⟩ := by
    simp [QVector3D.crossProduct]
  unfold QMatrix4x4.lookAt
  simp only [hforward, demoMath_qFuzzyIsNullFloat_zero, demoMath_qFuzzyIsNullFloat_neg_one,
    Bool.and_false, Bool.false_eq_true, if_false, hnorm, hcross, hside, hup]
  ext i j
  fin_cases i <;> fin_cases j <;>
    simp [QMatrix4x4.translate, translationMatrix,
      Matrix.mul_apply, Fin.sum_univ_four, Matrix.vecHead, Matrix.vecTail]

section UploadFacts
variable {F : Type} [Field F]

/-- The product of two matrices maps a vector as the two in turn. -/
theorem QMatrix4x4.map_mul (a b : QMatrix4x4 F) (v : QVector4D F) :
    QMatrix4x4.map (a * b) v = QMatrix4x4.map a (QMatrix4x4.map b v) := by
  simp only [QMatrix4x4.map, Matrix.mul_apply, Fin.sum_univ_four]
  congr 1 <;> ring

/-- A translation maps a point (w = 1) to the point moved by its offset. -/
theorem translationMatrix_map (a b c x y z : F) :
    QMatrix4x4.map (translationMatrix a b c) ⟨x, y, z, 1⟩ = ⟨x + a, y + b, z + c, 1⟩ := by
  simp [QMatrix4x4.map, translationMatrix, Matrix.vecHead, Matrix.vecTail]

/-- Once the model matrix of the first light is the translation to its position
(w = 1), the value uploaded as `lightPosition_camSpace` is the view matrix
applied to the doubled position. -/
theorem GLDisplay.lightPosition_camSpace_doubles (view : QMatrix4x4 F) (s : Scene F)
    (l : Light F) (hl : QVector.index s.m_pointLights 0 = some l)
    (hm : l.ModelMatchesPosition) (hw : l.m_lightPosition.w = 1) :
    GLDisplay.lightPosition_camSpace view s =
      some (QMatrix4x4.map view
        ⟨l.m_lightPosition.x + l.m_lightPosition.x, l.m_lightPosition.y + l.m_lightPosition.y,
          l.m_lightPosition.z + l.m_lightPosition.z, 1⟩) := by
  unfold GLDisplay.lightPosition_camSpace
  rw [hl]
  unfold Light.ModelMatchesPosition at hm
  have hp : l.m_lightPosition
      = ⟨l.m_lightPosition.x, l.m_lightPosition.y, l.m_lightPosition.z, 1⟩ := by
    rw [← hw]
  simp only [QMatrix4x4.map_mul, hm]
  rw [hp, translationMatrix_map]

end UploadFacts

/-- C12 (failing input): in the default scene after `translateLightSourceZ(0, 5)`
the first light is at (0, 0, 35, 1) with model matrix the translation by
(0, 0, 5); with the view matrix of the scene camera (translation by (0, 0, -1))
`renderScene` uploads view * model * position = (0, 0, 39, 1), whereas the
position in view space is view * position = (0, 0, 34, 1). -/
theorem uploaded_light_position_is_not_in_view_space :
    (QVector.index nudgedScene.m_pointLights 0).map Light.m_lightPosition
      = some ⟨0, 0, 35, 1⟩ ∧
    (QVector.index nudgedScene.m_pointLights 0).map Light.m_modelMatrix
      = some (translationMatrix 0 0 5) ∧
    GLDisplay.lightPosition_camSpace sceneCamera.m_viewMatrix nudgedScene
      = some ⟨0, 0, 39, 1⟩ ∧
    QMatrix4x4.map sceneCamera.m_viewMatrix ⟨0, 0, 35, 1⟩ = ⟨0, 0, 34, 1⟩ := by
  have hl : QVector.index nudgedScene.m_pointLights 0 = some (demoLight.translateZ 5) := rfl
  have hp : (demoLight.translateZ 5).m_lightPosition = ⟨0, 0, 35, 1⟩ := by
    simp [demoLight, Light.translateZ, Light.new]
    norm_num
  have hm : (demoLight.translateZ 5).m_modelMatrix = translationMatrix 0 0 5 := by
    simp [demoLight, Light.translateZ, Light.new, QMatrix4x4.translate, QMatrix4x4.setToIdentity]
  refine ⟨?_, ?_, ?_, ?_⟩
  · rw [hl, Option.map_some', hp]
  · rw [hl, Option.map_some', hm]
  · unfold GLDisplay.lightPosition_camSpace
    rw [hl]
    simp only [QMatrix4x4.map_mul, hm, hp, sceneCamera_viewMatrix, translationMatrix_map]
    norm_num
  · rw [sceneCamera_viewMatrix, translationMatrix_map]
    norm_num

/-! ## Camera zoom -/

section ZoomFacts
variable {F : Type} [Field F]

/-- For every camera and factor, `translateAlongOriginAxis` stores as position
the factor times (position - center), all four components, and keeps the
center and the up vector. -/
theorem Camera.translateAlongOriginAxis_fields (M : CMath F) (cam : Camera F) (f : F) :
    (cam.translateAlongOriginAxis M f).m_position
      = QVector4D.smul f (cam.m_position.sub cam.m_center) ∧
    (cam.translateAlongOriginAxis M f).m_center = cam.m_center ∧
    (cam.translateAlongOriginAxis M f).m_upVector = cam.m_upVector :=
  ⟨rfl, rfl, rfl⟩

/-- When the center of the camera is the origin, the new position minus the
center is the factor times the old position minus the center (as 3D points). -/
theorem Camera.translateAlongOriginAxis_center_origin (M : CMath F) (cam : Camera F) (f : F)
    (hc : cam.m_center.toVector3D = ⟨0, 0, 0⟩) :
    ((cam.translateAlongOriginAxis M f).m_position.toVector3D).sub cam.m_center.toVector3D
      = QVector3D.smul f (cam.m_position.toVector3D.sub cam.m_center.toVector3D) := by
  have h := congrArg QVector3D.x hc
  have h' := congrArg QVector3D.y hc
  have h'' := congrArg QVector3D.z hc
  simp only [QVector4D.toVector3D] at h h' h''
  simp [Camera.translateAlongOriginAxis, QVector4D.smul, QVector4D.sub, QVector4D.toVector3D,
    QVector3D.sub, QVector3D.smul, h, h', h'']

end ZoomFacts

/-- C13 (failing input): the camera at (3, 1, 0, 1) with center (1, 1, 0, 1)
after `translateAlongOriginAxis(2)` is at 2 * (position - center) =
(4, 0, 0, 0): the center is not added back (and w is 0).  The new position
minus the center is (3, -1, 0), not 2 * (2, 0, 0) = (4, 0, 0), and the camera
has left the axis through position and center (y = 1). -/
theorem zoom_forgets_the_center :
    offCenterCamera.m_position = ⟨3, 1, 0, 1⟩ ∧ offCenterCamera.m_center = ⟨1, 1, 0, 1⟩ ∧
    (offCenterCamera.translateAlongOriginAxis demoMath 2).m_position = ⟨4, 0, 0, 0⟩ ∧
    (offCenterCamera.translateAlongOriginAxis demoMath 2).m_center = ⟨1, 1, 0, 1⟩ ∧
    ((offCenterCamera.translateAlongOriginAxis demoMath 2).m_position.toVector3D).sub
        offCenterCamera.m_center.toVector3D = ⟨3, -1, 0⟩ ∧
    QVector3D.smul 2 (offCenterCamera.m_position.toVector3D.sub offCenterCamera.m_center.toVector3D)
      = ⟨4, 0, 0⟩ ∧
    (⟨3, -1, 0⟩ : QVector3D ℚ) ≠ ⟨4, 0, 0⟩ := by
  have hp : offCenterCamera.m_position = ⟨3, 1, 0, 1⟩ := rfl
  have hc : offCenterCamera.m_center = ⟨1, 1, 0, 1⟩ := rfl
  have hn : (offCenterCamera.translateAlongOriginAxis demoMath 2).m_position = ⟨4, 0, 0, 0⟩ := by
    rw [(Camera.translateAlongOriginAxis_fields demoMath offCenterCamera 2).1, hp, hc]
    simp [QVector4D.smul, QVector4D.sub]
    norm_num
  refine ⟨hp, hc, hn, rfl, ?_, ?_, ?_⟩
  · rw [hn, hc]
    simp [QVector4D.toVector3D, QVector3D.sub]
    norm_num
  · rw [hp, hc]
    simp [QVector4D.toVector3D, QVector3D.sub, QVector3D.smul]
    norm_num
  · intro h
    have := congrArg QVector3D.x h
    norm_num at this

/-! ## Camera orbit -/

/-- Two rotations about the x or y axis with the same cosine and opposite
sines, cos² + sin² = 1, map every vector back to itself. -/
theorem rotationMatrix_map_back {F : Type} [Field F] (c s : F) (h : c * c + s * s = 1) (v : QVector3D F)
    (hv : v = ⟨1, 0, 0⟩ ∨ v = ⟨0, 1, 0⟩) (p : QVector4D F) :
    QMatrix4x4.map (rotationMatrix c (-s) v) (QMatrix4x4.map (rotationMatrix c s v) p) = p := by
  cases p with
  | mk x y z w =>
    rcases hv with hv | hv <;> subst hv <;>
      simp only [QMatrix4x4.map, rotationMatrix, Matrix.of_apply, Matrix.cons_val_zero,
        Matrix.cons_val_one, Matrix.head_cons, Matrix.cons_val_two, Matrix.tail_cons,
        Matrix.cons_val_three, QVector4D.mk.injEq] <;>
      refine ⟨?_, ?_, ?_, ?_⟩ <;> first
        | linear_combination (0 : F) * h
        | linear_combination x * h
        | linear_combination y * h
        | linear_combination z * h

section OrbitFacts
variable {F : Type} [Field F] [DecidableEq F] [CharZero F]

/-- With an even cosine, an odd sine and cos² + sin² = 1, the matrices that
`QMatrix4x4::rotate` builds from the identity for the angles t and -t are the
rotations with the same cosine and opposite sines. -/
theorem QMatrix4x4.rotate_neg_pair (W : World F) (t : F) (v : QVector3D F)
    (hcos : ∀ a, W.cosDeg (-a) = W.cosDeg a) (hsin : ∀ a, W.sinDeg (-a) = -W.sinDeg a)
    (hpyth : ∀ a, W.cosDeg a * W.cosDeg a + W.sinDeg a * W.sinDeg a = 1)
    (hv : v = ⟨1, 0, 0⟩ ∨ v = ⟨0, 1, 0⟩) :
    ∃ c s : F, c * c + s * s = 1 ∧
      QMatrix4x4.rotate W (1 : QMatrix4x4 F) t v = rotationMatrix c s v ∧
      QMatrix4x4.rotate W (1 : QMatrix4x4 F) (-t) v = rotationMatrix c (-s) v := by
  have hid : rotationMatrix (1 : F) 0 v = 1 := by
    rcases hv with h | h <;> subst h <;> ext i j <;> fin_cases i <;> fin_cases j <;>
      simp [rotationMatrix, Matrix.one_apply, Matrix.vecHead, Matrix.vecTail]
  by_cases h0 : t = 0
  · subst h0
    exact ⟨1, 0, by norm_num, by simp [QMatrix4x4.rotate, hid], by simp [QMatrix4x4.rotate, hid]⟩
  by_cases h1 : t = 90
  · subst h1
    exact ⟨0, 1, by norm_num, by simp [QMatrix4x4.rotate], by
      simp [QMatrix4x4.rotate]; norm_num⟩
  by_cases h2 : t = -270
  · subst h2
    exact ⟨0, 1, by norm_num, by simp [QMatrix4x4.rotate], by
      simp [QMatrix4x4.rotate]; norm_num⟩
  by_cases h3 : t = -90
  · subst h3
    exact ⟨0, -1, by norm_num, by simp [QMatrix4x4.rotate]; norm_num, by
      simp [QMatrix4x4.rotate]⟩
  by_cases h4 : t = 270
  · subst h4
    exact ⟨0, -1, by norm_num, by simp [QMatrix4x4.rotate]; norm_num, by
      simp [QMatrix4x4.rotate]⟩
  by_cases h5 : t = 180
  · subst h5
    exact ⟨-1, 0, by norm_num, by simp [QMatrix4x4.rotate]; norm_num, by
      simp [QMatrix4x4.rotate]; norm_num⟩
  by_cases h6 : t = -180
  · subst h6
    exact ⟨-1, 0, by norm_num, by simp [QMatrix4x4.rotate]; norm_num, by
      simp [QMatrix4x4.rotate]; norm_num⟩
  · refine ⟨W.cosDeg t, W.sinDeg t, hpyth t, ?_, ?_⟩
    · simp [QMatrix4x4.rotate, h0, h1, h2, h3, h4, h5, h6]
    · have g1 : ¬ (-t = 90) := fun h => h3 (by rw [← h]; ring)
      have g2 : ¬ (-t = -270) := fun h => h4 (by linear_combination -h)
      have g3 : ¬ (-t = -90) := fun h => h1 (by linear_combination -h)
      have g4 : ¬ (-t = 270) := fun h => h2 (by rw [← h]; ring)
      have g5 : ¬ (-t = 180) := fun h => h6 (by rw [← h]; ring)
      have g6 : ¬ (-t = -180) := fun h => h5 (by linear_combination -h)
      simp [QMatrix4x4.rotate, h0, g1, g2, g3, g4, g5, g6, hcos, hsin]

end OrbitFacts

/-- C14: for every camera and every angle t, `rotateX(t)` followed by
`rotateX(-t)` gives back the position and the up vector, and likewise
`rotateY`; the center never changes.  The arithmetic is exact (any field of
characteristic 0, the reals among them) and the cosine and sine in degrees are
even, odd and satisfy cos² + sin² = 1, as the real ones do. -/
theorem camera_orbit_is_reversible {F : Type} [Field F] [DecidableEq F] [CharZero F]
    (W : World F) (M : CMath F) (cam : Camera F) (t : F)
    (hcos : ∀ a, W.cosDeg (-a) = W.cosDeg a) (hsin : ∀ a, W.sinDeg (-a) = -W.sinDeg a)
    (hpyth : ∀ a, W.cosDeg a * W.cosDeg a + W.sinDeg a * W.sinDeg a = 1) :
    (((cam.rotateX W M t).rotateX W M (-t)).m_position = cam.m_position ∧
      ((cam.rotateX W M t).rotateX W M (-t)).m_upVector = cam.m_upVector ∧
      (cam.rotateX W M t).m_center = cam.m_center ∧
      ((cam.rotateX W M t).rotateX W M (-t)).m_center = cam.m_center) ∧
    (((cam.rotateY W M t).rotateY W M (-t)).m_position = cam.m_position ∧
      ((cam.rotateY W M t).rotateY W M (-t)).m_upVector = cam.m_upVector ∧
      (cam.rotateY W M t).m_center = cam.m_center ∧
      ((cam.rotateY W M t).rotateY W M (-t)).m_center = cam.m_center) := by
  obtain ⟨c, s, h, e1, e2⟩ :=
    QMatrix4x4.rotate_neg_pair W t ⟨1, 0, 0⟩ hcos hsin hpyth (Or.inl rfl)
  obtain ⟨c', s', h', e1', e2'⟩ :=
    QMatrix4x4.rotate_neg_pair W t ⟨0, 1, 0⟩ hcos hsin hpyth (Or.inr rfl)
  refine ⟨⟨?_, ?_, rfl, rfl⟩, ⟨?_, ?_, rfl, rfl⟩⟩
  · show QMatrix4x4.map (QMatrix4x4.rotate W 1 (-t) ⟨1, 0, 0⟩)
      (QMatrix4x4.map (QMatrix4x4.rotate W 1 t ⟨1, 0, 0⟩) cam.m_position) = cam.m_position
    rw [e1, e2]
    exact rotationMatrix_map_back c s h _ (Or.inl rfl) _
  · show QMatrix4x4.map (QMatrix4x4.rotate W 1 (-t) ⟨1, 0, 0⟩)
      (QMatrix4x4.map (QMatrix4x4.rotate W 1 t ⟨1, 0, 0⟩) cam.m_upVector) = cam.m_upVector
    rw [e1, e2]
    exact rotationMatrix_map_back c s h _ (Or.inl rfl) _
  · show QMatrix4x4.map (QMatrix4x4.rotate W 1 (-t) ⟨0, 1, 0⟩)
      (QMatrix4x4.map (QMatrix4x4.rotate W 1 t ⟨0, 1, 0⟩) cam.m_position) = cam.m_position
    rw [e1', e2']
    exact rotationMatrix_map_back c' s' h' _ (Or.inr rfl) _
  · show QMatrix4x4.map (QMatrix4x4.rotate W 1 (-t) ⟨0, 1, 0⟩)
      (QMatrix4x4.map (QMatrix4x4.rotate W 1 t ⟨0, 1, 0⟩) cam.m_upVector) = cam.m_upVector
    rw [e1', e2']
    exact rotationMatrix_map_back c' s' h' _ (Or.inr rfl) _

/-- Witness for C14: the scene camera of the display, at (0, 0, 1), turned by
90 degrees (exact sine 1 and cosine 0) to (0, -1, 0) and back. -/
theorem camera_orbit_is_reversible_witness :
    (∀ a, demoWorld.cosDeg (-a) = demoWorld.cosDeg a) ∧
    (∀ a, demoWorld.sinDeg (-a) = -demoWorld.sinDeg a) ∧
    (∀ a, demoWorld.cosDeg a * demoWorld.cosDeg a + demoWorld.sinDeg a * demoWorld.sinDeg a = 1) ∧
    (sceneCamera.rotateX demoWorld demoMath 90).m_position = ⟨0, -1, 0, 1⟩ ∧
    ((((sceneCamera.rotateX demoWorld demoMath 90).rotateX demoWorld demoMath (-90)).m_position
        = sceneCamera.m_position ∧
      ((sceneCamera.rotateX demoWorld demoMath 90).rotateX demoWorld demoMath (-90)).m_upVector
        = sceneCamera.m_upVector ∧
      (sceneCamera.rotateX demoWorld demoMath 90).m_center = sceneCamera.m_center ∧
      ((sceneCamera.rotateX demoWorld demoMath 90).rotateX demoWorld demoMath (-90)).m_center
        = sceneCamera.m_center) ∧
    (((sceneCamera.rotateY demoWorld demoMath 90).rotateY demoWorld demoMath (-90)).m_position
        = sceneCamera.m_position ∧
      ((sceneCamera.rotateY demoWorld demoMath 90).rotateY demoWorld demoMath (-90)).m_upVector
        = sceneCamera.m_upVector ∧
      (sceneCamera.rotateY demoWorld demoMath 90).m_center = sceneCamera.m_center ∧
      ((sceneCamera.rotateY demoWorld demoMath 90).rotateY demoWorld demoMath (-90)).m_center
        = sceneCamera.m_center)) := by
  have h1 : ∀ a, demoWorld.cosDeg (-a) = demoWorld.cosDeg a := fun _ => rfl
  have h2 : ∀ a, demoWorld.sinDeg (-a) = -demoWorld.sinDeg a := fun _ => by
    simp [demoWorld]
  have h3 : ∀ a, demoWorld.cosDeg a * demoWorld.cosDeg a
      + demoWorld.sinDeg a * demoWorld.sinDeg a = 1 := fun _ => by
    simp [demoWorld]
  have hp : (sceneCamera.rotateX demoWorld demoMath 90).m_position = ⟨0, -1, 0, 1⟩ := by
    show QMatrix4x4.map (QMatrix4x4.rotate demoWorld 1 90 ⟨1, 0, 0⟩) ⟨0, 0, 1, 1⟩ = _
    simp [QMatrix4x4.rotate, QMatrix4x4.map, rotationMatrix, Matrix.vecHead, Matrix.vecTail]
  exact ⟨h1, h2, h3, hp, camera_orbit_is_reversible demoWorld demoMath sceneCamera 90 h1 h2 h3⟩

/-! ## Camera matrices -/

section CameraFacts
variable {F : Type} [Field F] [DecidableEq F]

/-- The six-argument constructor leaves no stale matrix. -/
theorem Camera.new_noStale (W : World F) (M : CMath F) (position upVector center : QVector4D F)
    (perspectiveCamera : Bool) (aspectRatio fieldOfView : F) :
    (Camera.new W M position upVector center perspectiveCamera aspectRatio
      fieldOfView).NoStaleMatrix W M :=
  ⟨rfl, rfl⟩

/-- Whatever its arguments, `viewMatrix` stores the look-at matrix of its
arguments and `projectionMatrix` the projection of its arguments; neither
stores the arguments themselves. -/
theorem Camera.matrix_setters_keep_fields (W : World F) (M : CMath F) (cam : Camera F)
    (position upVector center : QVector4D F) (aspectRatio fieldOfView : F) :
    (cam.viewMatrix M position upVector center).m_viewMatrix
      = QMatrix4x4.lookAt M 1 position.toVector3D center.toVector3D upVector.toVector3D ∧
    (cam.viewMatrix M position upVector center).m_position = cam.m_position ∧
    (cam.viewMatrix M position upVector center).m_upVector = cam.m_upVector ∧
    (cam.viewMatrix M position upVector center).m_center = cam.m_center ∧
    (cam.projectionMatrix W aspectRatio fieldOfView).m_projectionMatrix
      = Camera.derivedProjection W
          { cam with m_aspectRatio := aspectRatio, m_fieldOfView := fieldOfView } ∧
    (cam.projectionMatrix W aspectRatio fieldOfView).m_aspectRatio = cam.m_aspectRatio ∧
    (cam.projectionMatrix W aspectRatio fieldOfView).m_fieldOfView = cam.m_fieldOfView :=
  ⟨rfl, rfl, rfl, rfl, rfl, rfl, rfl⟩

/-- One operation that passes the stored values keeps both matrices fresh. -/
theorem Camera.apply_noStale (W : World F) (M : CMath F) (cam : Camera F) (op : CameraOp F)
    (h : cam.NoStaleMatrix W M) (hop : op.PassesStored cam) :
    (cam.apply W M op).NoStaleMatrix W M := by
  cases op with
  | viewMatrix position upVector center =>
    obtain ⟨h1, h2, h3⟩ := hop
    subst h1 h2 h3
    exact ⟨rfl, h.2⟩
  | projectionMatrix aspectRatio fieldOfView =>
    obtain ⟨h1, h2⟩ := hop
    subst h1 h2
    exact ⟨h.1, rfl⟩
  | rotateX xRotation => exact ⟨rfl, h.2⟩
  | rotateY yRotation => exact ⟨rfl, h.2⟩
  | translateAlongOriginAxis translation => exact ⟨rfl, h.2⟩
  | resetCamera => exact ⟨rfl, h.2⟩

/-- A run whose matrix setters pass the stored values keeps both matrices
fresh. -/
theorem Camera.run_noStale (W : World F) (M : CMath F) (ops : List (CameraOp F))
    (cam : Camera F) (h : cam.NoStaleMatrix W M) (hops : Camera.PassStoredAlong W M cam ops) :
    (cam.run W M ops).NoStaleMatrix W M := by
  induction ops generalizing cam with
  | nil => exact h
  | cons op rest ih =>
    exact ih (cam.apply W M op) (Camera.apply_noStale W M cam op h hops.1) hops.2

/-- For a perspective camera `projectionMatrix` stores the perspective matrix of
its arguments, and the projection derived from the stored fields is the
perspective matrix of the stored field of view and aspect ratio. -/
theorem Camera.perspective_matrices (W : World F) (cam : Camera F) (aspectRatio fieldOfView : F)
    (h : cam.m_perspectiveCamera = true) :
    (cam.projectionMatrix W aspectRatio fieldOfView).m_projectionMatrix
      = QMatrix4x4.perspective W 1 fieldOfView aspectRatio (1 / 1000) 10000 ∧
    Camera.derivedProjection W (cam.projectionMatrix W aspectRatio fieldOfView)
      = QMatrix4x4.perspective W 1 cam.m_fieldOfView cam.m_aspectRatio (1 / 1000) 10000 := by
  simp [Camera.projectionMatrix, Camera.derivedProjection, h, QMatrix4x4.setToIdentity]

end CameraFacts

/-- C15 (counterexample): the quad camera built for a 4 : 3 window, after the
call `projectionMatrix(2, 30)` that `GLDisplay::resizeGL` makes for a 2 : 1
window, still stores the aspect ratio 4/3 while its projection matrix is the
one of aspect ratio 2 (first entry 77/40, against 231/80 for the stored
aspect ratio): the stored projection matrix is not the one derived from the
stored fields. -/
theorem resize_leaves_stale_aspect_ratio :
    (quadCamera.run lensWorld demoMath [.projectionMatrix 2 30]).m_aspectRatio = 4 / 3 ∧
    (quadCamera.run lensWorld demoMath [.projectionMatrix 2 30]).m_projectionMatrix 0 0
      = 77 / 40 ∧
    Camera.derivedProjection lensWorld
      (quadCamera.run lensWorld demoMath [.projectionMatrix 2 30]) 0 0 = 231 / 80 ∧
    ¬ (quadCamera.run lensWorld demoMath [.projectionMatrix 2 30]).NoStaleMatrix lensWorld
        demoMath := by
  have hrun : quadCamera.run lensWorld demoMath [.projectionMatrix 2 30]
      = quadCamera.projectionMatrix lensWorld 2 30 := by
    simp only [Camera.run, List.foldl, Camera.apply]
  have hk : quadCamera.m_perspectiveCamera = true := by
    simp only [quadCamera, Camera.new, Camera.projectionMatrix, Camera.viewMatrix]
  have hf : quadCamera.m_fieldOfView = 30 := by
    simp only [quadCamera, Camera.new, Camera.projectionMatrix, Camera.viewMatrix]
  have ha : quadCamera.m_aspectRatio = 4 / 3 := by
    simp only [quadCamera, Camera.new, Camera.projectionMatrix, Camera.viewMatrix]
  have hm := (Camera.perspective_matrices lensWorld quadCamera 2 30 hk).1
  have hd := (Camera.perspective_matrices lensWorld quadCamera 2 30 hk).2
  rw [hf, ha] at hd
  have e1 : QMatrix4x4.perspective lensWorld 1 30 2 (1 / 1000) 10000 0 0 = 77 / 40 := by
    simp [QMatrix4x4.perspective, lensWorld, Matrix.mul_apply, Fin.sum_univ_four,
      Matrix.vecHead, Matrix.vecTail]
    norm_num
  have e2 : QMatrix4x4.perspective lensWorld 1 30 (4 / 3) (1 / 1000) 10000 0 0 = 231 / 80 := by
    simp [QMatrix4x4.perspective, lensWorld, Matrix.mul_apply, Fin.sum_univ_four,
      Matrix.vecHead, Matrix.vecTail]
    norm_num
  rw [hrun]
  refine ⟨?_, by rw [hm, e1], by rw [hd, e2], ?_⟩
  · simp only [Camera.projectionMatrix, ha]
  · intro h
    have h00 := congrFun (congrFun h.2 0) 0
    rw [hm, hd, e1, e2] at h00
    norm_num at h00

/-- C15 (amended): in every camera state reachable from the six-argument
constructor by a sequence of `rotateX`, `rotateY`, `translateAlongOriginAxis`,
`resetCamera`, and of `viewMatrix` and `projectionMatrix` calls that pass the
values the camera stores, the stored view matrix is the look-at matrix of the
stored position, center and up vector and the stored projection matrix is the
projection derived from the stored kind, aspect ratio and field of view. -/
theorem camera_matrices_follow_stored_fields {F : Type} [Field F] [DecidableEq F]
    (W : World F) (M : CMath F) (position upVector center : QVector4D F)
    (perspectiveCamera : Bool) (aspectRatio fieldOfView : F) (ops : List (CameraOp F))
    (hops : Camera.PassStoredAlong W M
      (Camera.new W M position upVector center perspectiveCamera aspectRatio fieldOfView) ops) :
    ((Camera.new W M position upVector center perspectiveCamera aspectRatio fieldOfView).run
      W M ops).NoStaleMatrix W M :=
  Camera.run_noStale W M ops _
    (Camera.new_noStale W M position upVector center perspectiveCamera aspectRatio fieldOfView)
    hops

/-- Witness for C15 (amended): the quad camera turned, zoomed, reset and given
its own aspect ratio and field of view again. -/
theorem camera_matrices_follow_stored_fields_witness :
    Camera.PassStoredAlong lensWorld demoMath
      (Camera.new lensWorld demoMath ⟨0, 0, 1, 1⟩ ⟨0, 1, 0, 1⟩ ⟨0, 0, 0, 1⟩ true (4 / 3) 30)
      [.rotateX 90, .translateAlongOriginAxis (11 / 10), .resetCamera,
        .projectionMatrix (4 / 3) 30] ∧
    ((Camera.new lensWorld demoMath ⟨0, 0, 1, 1⟩ ⟨0, 1, 0, 1⟩ ⟨0, 0, 0, 1⟩ true (4 / 3) 30).run
      lensWorld demoMath
      [.rotateX 90, .translateAlongOriginAxis (11 / 10), .resetCamera,
        .projectionMatrix (4 / 3) 30]).NoStaleMatrix lensWorld demoMath := by
  have hops : Camera.PassStoredAlong lensWorld demoMath
      (Camera.new lensWorld demoMath ⟨0, 0, 1, 1⟩ ⟨0, 1, 0, 1⟩ ⟨0, 0, 0, 1⟩ true (4 / 3) 30)
      [.rotateX 90, .translateAlongOriginAxis (11 / 10), .resetCamera,
        .projectionMatrix (4 / 3) 30] := by
    simp only [Camera.PassStoredAlong, CameraOp.PassesStored, Camera.apply, Camera.resetCamera,
      Camera.viewMatrix, Camera.translateAlongOriginAxis, Camera.rotateX, Camera.new,
      Camera.projectionMatrix, and_self]
  exact ⟨hops,
    camera_matrices_follow_stored_fields lensWorld demoMath ⟨0, 0, 1, 1⟩ ⟨0, 1, 0, 1⟩
      ⟨0, 0, 0, 1⟩ true (4 / 3) 30
      [.rotateX 90, .translateAlongOriginAxis (11 / 10), .resetCamera,
        .projectionMatrix (4 / 3) 30] hops⟩

/-! ## Reading a mesh -/

/-- Adding the null vector changes nothing. -/
theorem QVector3D.add_null {F : Type} [Field F] (a : QVector3D F) : a.add ⟨0, 0, 0⟩ = a := by
  cases a
  simp [QVector3D.add]

/-- Up to 2^24 in absolute value an `int` goes through a `float` unchanged. -/
theorem floatOfInt_of_le (n : Int) (h : n.natAbs ≤ 16777216) : floatOfInt n = n := by
  unfold floatOfInt
  simp only [h, if_true]

/-- Beyond 2^24 it does not: 16777217 becomes 16777216 and 16777219 becomes
16777220. -/
theorem floatOfInt_rounds :
    floatOfInt 16777216 = 16777216 ∧ floatOfInt 16777217 = 16777216 ∧
    floatOfInt 16777218 = 16777218 ∧ floatOfInt 16777219 = 16777220 := by
  decide

/-- An index of a mesh of at most 2^24 + 1 vertices goes through a `float`
unchanged. -/
theorem floatOfInt_of_inRange (n N : Int) (h0 : 0 ≤ n) (h1 : n < N) (hN : N ≤ 16777217) :
    floatOfInt n = n :=
  floatOfInt_of_le n (by omega)

/-- The triple stored for an in-range triangle of a mesh of at most 2^24 + 1
vertices is the triangle. -/
theorem Mesh.storedTriple_of_inRange (N : Int) (t : Int × Int × Int)
    (ht : TriangleInRange N t) (hN : N ≤ 16777217) : Mesh.storedTriple t = t := by
  unfold Mesh.storedTriple
  rw [floatOfInt_of_inRange _ N ht.1.1 ht.1.2 hN, floatOfInt_of_inRange _ N ht.2.1.1 ht.2.1.2 hN,
    floatOfInt_of_inRange _ N ht.2.2.1 ht.2.2.2 hN]

/-- The vertices of a file with a vertex count that is not negative. -/
theorem OffFile.size_vertices {F : Type} (file : OffFile F) (hN : 0 ≤ file.numberOfVertices) :
    QVector.size file.vertices = file.numberOfVertices := by
  simp [QVector.size, OffFile.vertices, Int.toNat_of_nonneg hN]

/-- The triangles of a file that is in range are in range of its vertices. -/
theorem OffFile.triangles_inRange {F : Type} (file : OffFile F) (h : file.InRange) :
    ∀ t ∈ file.triangles, TriangleInRange (QVector.size file.vertices) t := by
  intro t ht
  rw [OffFile.size_vertices file h.1]
  obtain ⟨i, hi, rfl⟩ := List.mem_map.mp ht
  exact h.2.2 i (List.mem_range.mp hi)

section MeshFacts
variable {F : Type} [Field F]

/-- The face normal of a triangle with in-range indices is defined. -/
theorem Mesh.faceNormal_isSome (M : CMath F) (vertices : List (QVector3D F))
    (t : Int × Int × Int) (h : TriangleInRange (QVector.size vertices) t) :
    ∃ n, Mesh.faceNormal M vertices t = some n := by
  obtain ⟨v1, h1⟩ := QVector.index_isSome vertices t.1 h.1.1 h.1.2
  obtain ⟨v2, h2⟩ := QVector.index_isSome vertices t.2.1 h.2.1.1 h.2.1.2
  obtain ⟨v3, h3⟩ := QVector.index_isSome vertices t.2.2 h.2.2.1 h.2.2.2
  unfold Mesh.faceNormal
  rw [h1, h2, h3]
  exact ⟨_, rfl⟩

/-- The face normal of a triangle is defined only if its indices are in
range. -/
theorem Mesh.faceNormal_inRange (M : CMath F) (vertices : List (QVector3D F))
    (t : Int × Int × Int) (n : QVector3D F) (h : Mesh.faceNormal M vertices t = some n) :
    TriangleInRange (QVector.size vertices) t := by
  unfold Mesh.faceNormal at h
  cases h1 : QVector.index vertices t.1 with
  | none => rw [h1] at h; exact Option.noConfusion h
  | some v1 =>
    cases h2 : QVector.index vertices t.2.1 with
    | none => rw [h1, h2] at h; exact Option.noConfusion h
    | some v2 =>
      cases h3 : QVector.index vertices t.2.2 with
      | none => rw [h1, h2, h3] at h; exact Option.noConfusion h
      | some v3 =>
        exact ⟨QVector.lt_size_of_index vertices _ v1 h1,
          QVector.lt_size_of_index vertices _ v2 h2, QVector.lt_size_of_index vertices _ v3 h3⟩

/-- The face normals of triangles that are all in range are defined, one per
triangle. -/
theorem Mesh.faceNormals_isSome (M : CMath F) (vertices : List (QVector3D F))
    (ts : List (Int × Int × Int))
    (h : ∀ t ∈ ts, TriangleInRange (QVector.size vertices) t) :
    ∃ ns, Mesh.faceNormals M vertices ts = some ns ∧ ns.length = ts.length := by
  induction ts with
  | nil => exact ⟨[], rfl, rfl⟩
  | cons t rest ih =>
    obtain ⟨n, hn⟩ := Mesh.faceNormal_isSome M vertices t (h t (List.mem_cons_self t rest))
    obtain ⟨ns, hns, hlen⟩ := ih (fun u hu => h u (List.mem_cons_of_mem t hu))
    refine ⟨n :: ns, ?_, by simp [hlen]⟩
    unfold Mesh.faceNormals
    rw [hn, hns]

/-- The corner term at an in-range vertex between two in-range vertices is
defined. -/
theorem Mesh.corner_isSome (M : CMath F) (vertices : List (QVector3D F)) (k a b : Int)
    (normal : QVector3D F) (hk : 0 ≤ k ∧ k < QVector.size vertices)
    (ha : 0 ≤ a ∧ a < QVector.size vertices) (hb : 0 ≤ b ∧ b < QVector.size vertices) :
    ∃ c, Mesh.corner M vertices k a b normal = some c := by
  obtain ⟨va, h1⟩ := QVector.index_isSome vertices a ha.1 ha.2
  obtain ⟨vb, h2⟩ := QVector.index_isSome vertices b hb.1 hb.2
  obtain ⟨vk, h3⟩ := QVector.index_isSome vertices k hk.1 hk.2
  unfold Mesh.corner
  rw [h1, h2, h3]
  exact ⟨_, rfl⟩

/-- The corner term is undefined when the first vertex looked up is out of
range. -/
theorem Mesh.corner_eq_none (M : CMath F) (vertices : List (QVector3D F)) (k a b : Int)
    (normal : QVector3D F) (ha : QVector.index vertices a = none) :
    Mesh.corner M vertices k a b normal = none := by
  unfold Mesh.corner
  rw [ha]

/-- The contribution of a stored triple with in-range entries to an in-range
vertex is defined, and it is the null vector when no entry equals the vertex
index as a `float`. -/
theorem Mesh.contribution_isSome (M : CMath F) (vertices : List (QVector3D F)) (k : Int)
    (t : Int × Int × Int) (normal : QVector3D F) (hk : 0 ≤ k ∧ k < QVector.size vertices)
    (ht : TriangleInRange (QVector.size vertices) t) :
    (∃ c, Mesh.contribution M vertices k t normal = some c) ∧
    ((t.1 ≠ floatOfInt k ∧ t.2.1 ≠ floatOfInt k ∧ t.2.2 ≠ floatOfInt k) →
      Mesh.contribution M vertices k t normal = some ⟨0, 0, 0⟩) := by
  unfold Mesh.contribution
  constructor
  · split_ifs
    · exact Mesh.corner_isSome M vertices k _ _ normal hk ht.2.1 ht.2.2
    · exact Mesh.corner_isSome M vertices k _ _ normal hk ht.2.2 ht.1
    · exact Mesh.corner_isSome M vertices k _ _ normal hk ht.1 ht.2.1
    · exact ⟨_, rfl⟩
  · intro h
    rw [if_neg h.1, if_neg h.2.1, if_neg h.2.2]

/-- The accumulated normal of an in-range vertex over stored triples with
in-range entries is defined, and it is the starting value when no entry of any
triple equals the vertex index as a `float`. -/
theorem Mesh.weightedNormal_isSome (M : CMath F) (vertices : List (QVector3D F)) (k : Int)
    (l : List ((Int × Int × Int) × QVector3D F)) (acc : QVector3D F)
    (hk : 0 ≤ k ∧ k < QVector.size vertices)
    (hl : ∀ p ∈ l, TriangleInRange (QVector.size vertices) p.1) :
    (∃ a, Mesh.weightedNormal M vertices k l acc = some a) ∧
    ((∀ p ∈ l, p.1.1 ≠ floatOfInt k ∧ p.1.2.1 ≠ floatOfInt k ∧ p.1.2.2 ≠ floatOfInt k) →
      Mesh.weightedNormal M vertices k l acc = some acc) := by
  induction l generalizing acc with
  | nil => exact ⟨⟨acc, rfl⟩, fun _ => rfl⟩
  | cons p rest ih =>
    obtain ⟨t, normal⟩ := p
    have hc := Mesh.contribution_isSome M vertices k t normal hk
      (hl (t, normal) (List.mem_cons_self _ rest))
    have hrest : ∀ q ∈ rest, TriangleInRange (QVector.size vertices) q.1 :=
      fun q hq => hl q (List.mem_cons_of_mem _ hq)
    constructor
    · obtain ⟨c, hc1⟩ := hc.1
      unfold Mesh.weightedNormal
      rw [hc1]
      exact (ih (acc.add c) hrest).1
    · intro hiso
      have h0 := hc.2 (hiso (t, normal) (List.mem_cons_self _ rest))
      unfold Mesh.weightedNormal
      rw [h0]
      simp only [QVector3D.add_null]
      exact (ih acc hrest).2 (fun q hq => hiso q (List.mem_cons_of_mem _ hq))

/-- The accumulated normal is undefined as soon as the contribution of the
first triangle is. -/
theorem Mesh.weightedNormal_eq_none (M : CMath F) (vertices : List (QVector3D F)) (k : Int)
    (t : Int × Int × Int) (normal : QVector3D F)
    (rest : List ((Int × Int × Int) × QVector3D F)) (acc : QVector3D F)
    (h : Mesh.contribution M vertices k t normal = none) :
    Mesh.weightedNormal M vertices k ((t, normal) :: rest) acc = none := by
  unfold Mesh.weightedNormal
  rw [h]

/-- What a stored triple whose first entry is the vertex index as a `float`
adds to the normal of that vertex is undefined when the second entry is out of
range. -/
theorem Mesh.contribution_eq_none (M : CMath F) (vertices : List (QVector3D F)) (k : Int)
    (t : Int × Int × Int) (normal : QVector3D F) (hk : t.1 = floatOfInt k)
    (ha : QVector.index vertices t.2.1 = none) :
    Mesh.contribution M vertices k t normal = none := by
  unfold Mesh.contribution
  rw [if_pos hk]
  exact Mesh.corner_eq_none M vertices k t.2.1 t.2.2 normal ha

/-- The vertex normals of in-range vertices over stored triples with in-range
entries are defined: one per vertex, each the normalized accumulated normal. -/
theorem Mesh.vertexNormals_isSome (M : CMath F) (vertices : List (QVector3D F))
    (l : List ((Int × Int × Int) × QVector3D F)) (ks : List Nat)
    (hks : ∀ k ∈ ks, (k : Int) < QVector.size vertices)
    (hl : ∀ p ∈ l, TriangleInRange (QVector.size vertices) p.1) :
    Mesh.vertexNormals M vertices l ks =
      some (ks.map fun k : Nat =>
        ((Mesh.weightedNormal M vertices (k : Int) l ⟨0, 0, 0⟩).getD ⟨0, 0, 0⟩).normalize M) := by
  induction ks with
  | nil => rfl
  | cons k rest ih =>
    have hk : 0 ≤ (k : Int) ∧ (k : Int) < QVector.size vertices :=
      ⟨Int.ofNat_nonneg k, hks k (List.mem_cons_self k rest)⟩
    obtain ⟨a, ha⟩ := (Mesh.weightedNormal_isSome M vertices k l ⟨0, 0, 0⟩ hk hl).1
    unfold Mesh.vertexNormals
    rw [ha, ih (fun j hj => hks j (List.mem_cons_of_mem k hj))]
    simp [ha]

/-- The vertex normals are undefined as soon as the accumulated normal of the
first vertex is. -/
theorem Mesh.vertexNormals_eq_none (M : CMath F) (vertices : List (QVector3D F))
    (l : List ((Int × Int × Int) × QVector3D F)) (k : Nat) (ks : List Nat)
    (h : Mesh.weightedNormal M vertices (k : Int) l ⟨0, 0, 0⟩ = none) :
    Mesh.vertexNormals M vertices l (k :: ks) = none := by
  unfold Mesh.vertexNormals
  rw [h]

/-- On a file that is in range the first loop of `Mesh::offReader` is defined:
every vertex lookup made for a face normal is in range, and there is one
normal per triangle. -/
theorem Mesh.faceNormals_of_inRange (M : CMath F) (file : OffFile F) (h : file.InRange) :
    ∃ normals, Mesh.faceNormals M file.vertices file.triangles = some normals ∧
      normals.length = file.numberOfTriangles.toNat := by
  obtain ⟨normals, hn, hlen⟩ :=
    Mesh.faceNormals_isSome M file.vertices file.triangles (OffFile.triangles_inRange file h)
  refine ⟨normals, hn, ?_⟩
  rw [hlen]
  simp [OffFile.triangles]

/-- On a file that is in range and has at most 2^24 + 1 vertices `Mesh::offReader`
returns a mesh: the vertices and index triples of the file, one normal per
triangle, and for each vertex the normalized accumulated normal. -/
theorem Mesh.offReader_of_inRange (M : CMath F) (file : OffFile F) (h : file.InRange)
    (hsize : file.numberOfVertices ≤ 16777217) :
    ∃ normals, Mesh.faceNormals M file.vertices file.triangles = some normals ∧
      normals.length = file.numberOfTriangles.toNat ∧
      Mesh.offReader M file = some
        { m_vertices := file.vertices
          m_indices := file.triangles.map fun t =>
            ⟨(floatOfInt t.1 : F), (floatOfInt t.2.1 : F), (floatOfInt t.2.2 : F)⟩
          m_indicesArray := file.indicesArray
          m_triangleNormals := normals
          m_vertexNormals :=
            (List.range file.numberOfVertices.toNat).map fun k : Nat =>
              ((Mesh.weightedNormal M file.vertices (k : Int) (file.triangles.zip normals)
                ⟨0, 0, 0⟩).getD ⟨0, 0, 0⟩).normalize M
          m_textureCoordinates := [] } := by
  have hN := h.1
  have hT := h.2.1
  have hvsize := OffFile.size_vertices file hN
  have hts := OffFile.triangles_inRange file h
  obtain ⟨normals, hn, hlen⟩ := Mesh.faceNormals_of_inRange M file h
  have hst : file.triangles.map Mesh.storedTriple = file.triangles := by
    have hid : ∀ t ∈ file.triangles, Mesh.storedTriple t = id t := by
      intro t ht
      have := hts t ht
      rw [hvsize] at this
      exact Mesh.storedTriple_of_inRange file.numberOfVertices t this hsize
    rw [List.map_congr_left hid, List.map_id]
  have hzip : ∀ p ∈ file.triangles.zip normals,
      TriangleInRange (QVector.size file.vertices) p.1 := by
    intro p hp
    obtain ⟨t, n⟩ := p
    exact hts t (List.of_mem_zip hp).1
  have hks : ∀ k ∈ List.range file.numberOfVertices.toNat,
      (k : Int) < QVector.size file.vertices := by
    intro k hk
    rw [hvsize]
    have := List.mem_range.mp hk
    omega
  have hvn := Mesh.vertexNormals_isSome M file.vertices (file.triangles.zip normals)
    (List.range file.numberOfVertices.toNat) hks hzip
  refine ⟨normals, hn, hlen, ?_⟩
  have hneg : ¬ (file.numberOfVertices < 0 ∨ file.numberOfTriangles < 0) := by omega
  unfold Mesh.offReader
  rw [if_neg hneg]
  show (match Mesh.faceNormals M file.vertices file.triangles with
    | none => none
    | some normals =>
      match Mesh.vertexNormals M file.vertices
          ((file.triangles.map Mesh.storedTriple).zip normals)
          (List.range file.numberOfVertices.toNat) with
      | none => none
      | some vertexNormals => some _) = _
  rw [hn, hst]
  simp only [hvn]
  rfl

/-- When a face normal is undefined, so is the reader. -/
theorem Mesh.offReader_eq_none (M : CMath F) (file : OffFile F)
    (h : Mesh.faceNormals M file.vertices file.triangles = none) :
    Mesh.offReader M file = none := by
  unfold OffFile.vertices OffFile.triangles at h
  unfold Mesh.offReader
  split_ifs
  · rfl
  · simp only [h]

/-- When the vertex normals are undefined, so is the reader. -/
theorem Mesh.offReader_eq_none_of_vertexNormals (M : CMath F) (file : OffFile F)
    (h : ∀ normals, Mesh.faceNormals M file.vertices file.triangles = some normals →
      Mesh.vertexNormals M file.vertices ((file.triangles.map Mesh.storedTriple).zip normals)
        (List.range file.numberOfVertices.toNat) = none) :
    Mesh.offReader M file = none := by
  unfold Mesh.offReader
  split_ifs
  · rfl
  · show (match Mesh.faceNormals M file.vertices file.triangles with
      | none => none
      | some normals =>
        match Mesh.vertexNormals M file.vertices
            ((file.triangles.map Mesh.storedTriple).zip normals)
            (List.range file.numberOfVertices.toNat) with
        | none => none
        | some vertexNormals => some _) = _
    cases hn : Mesh.faceNormals M file.vertices file.triangles with
    | none => rfl
    | some normals => simp only [h normals hn]

end MeshFacts

/-- The flattened index array has three entries per triangle. -/
theorem length_flatten_triples (l : List (Int × Int × Int)) :
    ((l.map fun t => [toGLuint t.1, toGLuint t.2.1, toGLuint t.2.2]).flatten).length
      = 3 * l.length := by
  induction l with
  | nil => rfl
  | cons t rest ih =>
    simp only [List.map_cons, List.flatten_cons, List.length_append, List.length_cons,
      List.length_nil, ih]
    omega

/-- Beyond 2^24 + 1 vertices the second loop of `Mesh::offReader` can leave the
vertex array although every index of the file is in range: in the file with
16777220 vertices and the triangle (0, 16777219, 1), the index 16777219 is
stored as the `float` 16777220, and for vertex 0 the reader looks up
`m_vertices[16777220]`. -/
theorem Mesh.offReader_beyond_float_range :
    hugeOff.InRange ∧ hugeOff.triangles = [(0, 16777219, 1)] ∧
    Mesh.storedTriple (0, 16777219, 1) = (0, 16777220, 1) ∧
    QVector.size hugeOff.vertices = 16777220 ∧
    QVector.index hugeOff.vertices 16777220 = none ∧
    Mesh.offReader demoMath hugeOff = none := by
  have hin : hugeOff.InRange := by
    unfold OffFile.InRange TriangleInRange
    decide
  have htri : hugeOff.triangles = [(0, 16777219, 1)] := rfl
  have hst : Mesh.storedTriple (0, 16777219, 1) = (0, 16777220, 1) := by decide
  have hsize : QVector.size hugeOff.vertices = 16777220 :=
    OffFile.size_vertices hugeOff hin.1
  have hidx : QVector.index hugeOff.vertices 16777220 = none := by
    cases hc : QVector.index hugeOff.vertices 16777220 with
    | none => rfl
    | some v =>
      have := (QVector.lt_size_of_index _ _ v hc).2
      rw [hsize] at this
      exact absurd this (by decide)
  refine ⟨hin, htri, hst, hsize, hidx, ?_⟩
  apply Mesh.offReader_eq_none_of_vertexNormals
  intro normals hn
  obtain ⟨ns, hns, hlen⟩ := Mesh.faceNormals_of_inRange demoMath hugeOff hin
  rw [hn] at hns
  have hnormals : normals = ns := Option.some.inj hns
  have hlen1 : normals.length = 1 := by rw [hnormals, hlen]; rfl
  obtain ⟨n, rfl⟩ := List.length_eq_one.mp hlen1
  have hrange : List.range hugeOff.numberOfVertices.toNat
      = 0 :: (List.range 16777219).map Nat.succ := by
    have h1 : hugeOff.numberOfVertices.toNat = 16777219 + 1 := by decide
    rw [h1, List.range_succ_eq_map]
  rw [hrange, htri]
  apply Mesh.vertexNormals_eq_none
  rw [List.map_cons, List.map_nil, hst, List.zip_cons_cons, List.zip_nil_left]
  exact Mesh.weightedNormal_eq_none demoMath hugeOff.vertices 0 (0, 16777220, 1) n [] ⟨0, 0, 0⟩
    (Mesh.contribution_eq_none demoMath hugeOff.vertices 0 (0, 16777220, 1) n (by decide) hidx)

/-- C19 (counterexample): for the file with three vertices whose triangle names
the index 3, the index pushed on the flattened array is 3, not below the
number of vertices, and the lookup `m_vertices[3]` made for the face normal is
out of range: the reader has undefined behaviour. -/
theorem stray_index_is_looked_up :
    strayIndexOff.vertices.length = 3 ∧ strayIndexOff.triangles = [(0, 1, 3)] ∧
    toGLuint 3 = 3 ∧ QVector.index strayIndexOff.vertices 3 = none ∧
    Mesh.offReader demoMath strayIndexOff = none := by
  have hlen : strayIndexOff.vertices.length = 3 := rfl
  have htri : strayIndexOff.triangles = [(0, 1, 3)] := rfl
  have hfn : Mesh.faceNormal demoMath strayIndexOff.vertices (0, 1, 3) = none := by
    cases hc : Mesh.faceNormal demoMath strayIndexOff.vertices (0, 1, 3) with
    | none => rfl
    | some n =>
      have := (Mesh.faceNormal_inRange demoMath _ _ n hc).2.2.2
      unfold QVector.size at this
      rw [hlen] at this
      exact absurd this (by decide)
  have hidx : QVector.index strayIndexOff.vertices 3 = none := by
    cases hc : QVector.index strayIndexOff.vertices 3 with
    | none => rfl
    | some v =>
      have := (QVector.lt_size_of_index _ _ v hc).2
      unfold QVector.size at this
      rw [hlen] at this
      exact absurd this (by decide)
  refine ⟨hlen, htri, by decide, hidx, ?_⟩
  apply Mesh.offReader_eq_none
  rw [htri]
  unfold Mesh.faceNormals
  rw [hfn]

/-- C19 (amended): for every file that is in range (counts not negative, every
triangle index at least 0 and below the vertex count), every vertex lookup
`Mesh::offReader` makes while computing the face normals is in range, one
normal per triangle, and every index it pushes on the flattened index array is
below the number of vertices; when moreover the file declares at most
2^24 + 1 = 16777217 vertices, `Mesh::offReader` returns a mesh whose flattened
index array has three entries per triangle, all below the number of its
vertices.  The reader itself does not check the indices. -/
theorem offReader_indices_in_range {F : Type} [Field F] (M : CMath F)
    (file : OffFile F) (h : file.InRange) :
    (∃ normals, Mesh.faceNormals M file.vertices file.triangles = some normals ∧
      normals.length = file.numberOfTriangles.toNat) ∧
    file.vertices.length = file.numberOfVertices.toNat ∧
    file.indicesArray.length = 3 * file.numberOfTriangles.toNat ∧
    (∀ j ∈ file.indicesArray, j < file.vertices.length) ∧
    (file.numberOfVertices ≤ 16777217 →
      ∃ mesh, Mesh.offReader M file = some mesh ∧
        mesh.m_vertices.length = file.numberOfVertices.toNat ∧
        mesh.m_indicesArray.length = 3 * file.numberOfTriangles.toNat ∧
        ∀ j ∈ mesh.m_indicesArray, j < mesh.m_vertices.length) := by
  have hlenA : file.indicesArray.length = 3 * file.numberOfTriangles.toNat := by
    unfold OffFile.indicesArray
    rw [length_flatten_triples]
    simp [OffFile.triangles]
  have hlt : ∀ j ∈ file.indicesArray, j < file.vertices.length := by
    intro j hj
    obtain ⟨l, hl, hjl⟩ := List.mem_flatten.mp hj
    obtain ⟨t, ht, rfl⟩ := List.mem_map.mp hl
    obtain ⟨i, hi, rfl⟩ := List.mem_map.mp ht
    have hin := h.2.2 i (List.mem_range.mp hi)
    have hN := h.1
    simp only [OffFile.vertices, List.length_map, List.length_range]
    simp only [List.mem_cons, List.mem_singleton, List.not_mem_nil, or_false] at hjl
    unfold TriangleInRange at hin
    unfold toGLuint at hjl
    rcases hjl with rfl | rfl | rfl <;> omega
  refine ⟨Mesh.faceNormals_of_inRange M file h, by simp [OffFile.vertices], hlenA, hlt, ?_⟩
  intro hsize
  obtain ⟨normals, hn, hlen, hr⟩ := Mesh.offReader_of_inRange M file h hsize
  exact ⟨_, hr, by simp [OffFile.vertices], hlenA, hlt⟩

/-- Witness for C19 (amended): the file with one triangle (0, 1, 2) and four
vertices. -/
theorem offReader_indices_in_range_witness :
    triangleOff.InRange ∧
    (∃ normals, Mesh.faceNormals demoMath triangleOff.vertices triangleOff.triangles
        = some normals ∧ normals.length = triangleOff.numberOfTriangles.toNat) ∧
    (∀ j ∈ triangleOff.indicesArray, j < triangleOff.vertices.length) ∧
    ∃ mesh, Mesh.offReader demoMath triangleOff = some mesh ∧
      mesh.m_vertices.length = triangleOff.numberOfVertices.toNat ∧
      mesh.m_indicesArray.length = 3 * triangleOff.numberOfTriangles.toNat ∧
      ∀ j ∈ mesh.m_indicesArray, j < mesh.m_vertices.length :=
  ⟨by unfold OffFile.InRange TriangleInRange; decide,
    (offReader_indices_in_range demoMath triangleOff
      (by unfold OffFile.InRange TriangleInRange; decide)).1,
    (offReader_indices_in_range demoMath triangleOff
      (by unfold OffFile.InRange TriangleInRange; decide)).2.2.2.1,
    (offReader_indices_in_range demoMath triangleOff
      (by unfold OffFile.InRange TriangleInRange; decide)).2.2.2.2 (by decide)⟩

/-! ## Animation of the light -/

section AnimationFacts
variable {F : Type} [Field F]

/-- With a first light `l`, `setLightSourcePosition(0, x, y, z)` returns and
replaces it by `l.setPosition x y z`. -/
theorem Scene.setLightSourcePosition_first (s : Scene F) (l : Light F) (x y z : F)
    (hl : QVector.index s.m_pointLights 0 = some l) :
    s.setLightSourcePosition 0 x y z =
      .returned () { s with m_pointLights := QVector.assign s.m_pointLights 0 (l.setPosition x y z) } := by
  have h0 := (QVector.lt_size_of_index s.m_pointLights 0 l hl).2
  unfold Scene.setLightSourcePosition
  rw [if_pos h0, hl]

/-- At elapsed time 0 the animation sets the first light with theta = 0. -/
theorem GLDisplay.animation_at_0 (M : CMath F) (s : Scene F) (l : Light F)
    (hl : QVector.index s.m_pointLights 0 = some l) :
    GLDisplay.animation M 0 s =
      .returned ()
        { s with m_pointLights := QVector.assign s.m_pointLights 0 (l.setPosition 0 (30 * M.sin 0) (30 * M.cos 0)) } := by
  simp [GLDisplay.animation, whenElapsed, Outcome.andThen,
    Scene.setLightSourcePosition_first s l _ _ _ hl]

/-- At elapsed time 2000 ms the animation sets the first light with
theta = (2000 - 1000) / 2000 * (pi / 12). -/
theorem GLDisplay.animation_at_2000 (M : CMath F) (s : Scene F) (l : Light F)
    (hl : QVector.index s.m_pointLights 0 = some l) :
    GLDisplay.animation M 2000 s =
      .returned ()
        { s with m_pointLights := QVector.assign s.m_pointLights 0 (l.setPosition 0 (30 * M.sin ((2000 - 1000) / 2000 * (M.pi / 12))) (30 * M.cos ((2000 - 1000) / 2000 * (M.pi / 12)))) } := by
  simp [GLDisplay.animation, whenElapsed, Outcome.andThen,
    Scene.setLightSourcePosition_first s l _ _ _ hl]

end AnimationFacts

/-- The first light of the default scene, over any field. -/
theorem Scene.new_first_light {F : Type} [Field F] (W : World F) :
    QVector.index (Scene.new W).m_pointLights 0 = some (Light.new ⟨0, 0, 30, 1⟩ ⟨1, 1, 1⟩ 1) := by
  rfl

/-- Claim C20, the input on which the sentence fails: with the real sine and
cosine, the animation driver run at elapsed time 2000 ms on the default scene
returns with the light at (0, 30 sin(pi/24), 30 cos(pi/24)), which is not
(0, 30 sin(pi/12), 30 cos(pi/12)): the first sweep starts at 1000 ms and
reaches pi/12 only at 3000 ms. -/
theorem light_at_2000_ms_is_at_pi_over_24 :
    ∃ s, GLDisplay.animation (CMath.ofLibrary Real.sqrt Real.sin Real.cos Real.arccos Real.pi)
          2000 (Scene.new (bareWorld ℝ)) = .returned () s ∧
      (QVector.index s.m_pointLights 0).map (fun l => l.m_lightPosition) =
        some ⟨0, 30 * Real.sin (Real.pi / 24), 30 * Real.cos (Real.pi / 24), 1⟩ ∧
      (QVector.index s.m_pointLights 0).map (fun l => l.m_lightPosition) ≠
        some ⟨0, 30 * Real.sin (Real.pi / 12), 30 * Real.cos (Real.pi / 12), 1⟩ := by
  have hl := Scene.new_first_light (bareWorld ℝ)
  have hpos : (QVector.index
        (QVector.assign (Scene.new (bareWorld ℝ)).m_pointLights 0
          ((Light.new (⟨0, 0, 30, 1⟩ : QVector4D ℝ) ⟨1, 1, 1⟩ 1).setPosition 0
            (30 * Real.sin ((2000 - 1000) / 2000 * (Real.pi / 12)))
            (30 * Real.cos ((2000 - 1000) / 2000 * (Real.pi / 12))))) 0).map
        (fun l => l.m_lightPosition) =
      some ⟨0, 30 * Real.sin (Real.pi / 24), 30 * Real.cos (Real.pi / 24), 1⟩ := by
    rw [QVector.index_assign _ _ _ _ hl]
    have h24 : ((2000 : ℝ) - 1000) / 2000 * (Real.pi / 12) = Real.pi / 24 := by ring
    simp only [Option.map_some', Light.setPosition, h24]
  have hlt : Real.sin (Real.pi / 24) < Real.sin (Real.pi / 12) := by
    have hpi := Real.pi_pos
    apply Real.strictMonoOn_sin
    · constructor <;> linarith
    · constructor <;> linarith
    · linarith
  refine ⟨_, GLDisplay.animation_at_2000 _ _ _ hl, hpos, ?_⟩
  intro h
  have h := hpos.symm.trans h
  injection h with h
  injection h with _ h2
  have : Real.sin (Real.pi / 24) = Real.sin (Real.pi / 12) := by linarith
  exact absurd this (ne_of_lt hlt)

/-- Claim C20, amended: on a scene that has a first light, with `sin 0 = 0` and
`cos 0 = 1`, the animation driver run at elapsed time 0 ms returns with the
light at (0, 0, 30), and run at elapsed time 2000 ms it returns with the light
set with theta = pi/24, at (0, 30 sin(pi/24), 30 cos(pi/24)). -/
theorem animation_light_at_0_and_2000_ms {F : Type} [Field F] [CharZero F] (M : CMath F)
    (m_scene : Scene F) (l : Light F)
    (hl : QVector.index m_scene.m_pointLights 0 = some l)
    (hsin : M.sin 0 = 0) (hcos : M.cos 0 = 1) :
    (∃ s, GLDisplay.animation M 0 m_scene = .returned () s ∧
      (QVector.index s.m_pointLights 0).map (fun e => e.m_lightPosition) =
        some ⟨0, 0, 30, 1⟩) ∧
    (∃ s, GLDisplay.animation M 2000 m_scene = .returned () s ∧
      (QVector.index s.m_pointLights 0).map (fun e => e.m_lightPosition) =
        some ⟨0, 30 * M.sin (M.pi / 24), 30 * M.cos (M.pi / 24), 1⟩) := by
  constructor
  · refine ⟨_, GLDisplay.animation_at_0 M m_scene l hl, ?_⟩
    rw [QVector.index_assign _ _ _ _ hl]
    simp only [Option.map_some', Light.setPosition, hsin, hcos, mul_zero, mul_one]
  · refine ⟨_, GLDisplay.animation_at_2000 M m_scene l hl, ?_⟩
    rw [QVector.index_assign _ _ _ _ hl]
    have h24 : ((2000 : F) - 1000) / 2000 * (M.pi / 12) = M.pi / 24 := by
      field_simp
      ring
    simp only [Option.map_some', Light.setPosition, h24]

/-- Claim C20, amended, at the default scene with the rational stand-ins for the
math library. -/
theorem animation_light_at_0_and_2000_ms_witness :
    QVector.index demoScene.m_pointLights 0 = some demoLight ∧
    demoMath.sin 0 = 0 ∧ demoMath.cos 0 = 1 ∧
    (∃ s, GLDisplay.animation demoMath 0 demoScene = .returned () s ∧
      (QVector.index s.m_pointLights 0).map (fun e => e.m_lightPosition) =
        some ⟨0, 0, 30, 1⟩) ∧
    (∃ s, GLDisplay.animation demoMath 2000 demoScene = .returned () s ∧
      (QVector.index s.m_pointLights 0).map (fun e => e.m_lightPosition) =
        some ⟨0, 30 * demoMath.sin (demoMath.pi / 24), 30 * demoMath.cos (demoMath.pi / 24), 1⟩) :=
  have hsin : demoMath.sin 0 = 0 := by simp [demoMath]
  have hcos : demoMath.cos 0 = 1 := by simp [demoMath]
  ⟨rfl, hsin, hcos, animation_light_at_0_and_2000_ms demoMath demoScene demoLight rfl hsin hcos⟩

/-! ## The windows of the animation -/

theorem whenElapsed_true {F : Type} (f : Scene F → Outcome (Scene F) Unit) (s : Scene F) :
    whenElapsed true f s = f s := rfl

theorem whenElapsed_false {F : Type} (f : Scene F → Outcome (Scene F) Unit) (s : Scene F) :
    whenElapsed false f s = .returned () s := rfl

theorem Outcome.andThen_returned {σ : Type} (s : σ) (f : σ → Outcome σ Unit) :
    (Outcome.returned () s).andThen f = f s := rfl

/-- A window condition is false outside the window. -/
theorem window_off (a b t : Int) (h : t < a ∨ b ≤ t) :
    (decide (a ≤ t) && decide (t < b)) = false := by
  rcases h with h | h
  · simp [not_le.mpr h]
  · simp [not_lt.mpr h]

/-- A window condition is true inside the window. -/
theorem window_on (a b t : Int) (h1 : a ≤ t) (h2 : t < b) :
    (decide (a ≤ t) && decide (t < b)) = true := by
  simp [h1, h2]

/-- Every elapsed time is before 0, in one of the eleven windows, or at
21000 ms or later. -/
theorem window_cases (t : Int) :
    t < 0 ∨ (0 ≤ t ∧ t < 1000) ∨ (1000 ≤ t ∧ t < 3000) ∨ (3000 ≤ t ∧ t < 5000) ∨
      (5000 ≤ t ∧ t < 7000) ∨ (7000 ≤ t ∧ t < 9000) ∨ (9000 ≤ t ∧ t < 11000) ∨
      (11000 ≤ t ∧ t < 13000) ∨ (13000 ≤ t ∧ t < 15000) ∨ (15000 ≤ t ∧ t < 17000) ∨
      (17000 ≤ t ∧ t < 19000) ∨ (19000 ≤ t ∧ t < 21000) ∨ 21000 ≤ t := by
  omega

section WindowFacts
variable {F : Type} [Field F]

/-- Before 0 ms and from 21000 ms on no window matches and the scene is
returned as it was. -/
theorem GLDisplay.animation_inert (M : CMath F) (t : Int) (s : Scene F)
    (h : t < 0 ∨ 21000 ≤ t) : GLDisplay.animation M t s = .returned () s := by
  unfold GLDisplay.animation
  simp only [window_off 0 1000 t (by omega),
      window_off 1000 3000 t (by omega),
      window_off 3000 5000 t (by omega),
      window_off 5000 7000 t (by omega),
      window_off 7000 9000 t (by omega),
      window_off 9000 11000 t (by omega),
      window_off 11000 13000 t (by omega),
      window_off 13000 15000 t (by omega),
      window_off 15000 17000 t (by omega),
      window_off 17000 19000 t (by omega),
      window_off 19000 21000 t (by omega),
    whenElapsed_false, Outcome.andThen_returned]

end WindowFacts

/-- The driver tests eleven conditions. -/
theorem GLDisplay.animationWindows_length (t : Int) :
    (GLDisplay.animationWindows t).length = 11 := rfl

/-- Claim C22: the eleven window conditions of `GLDisplay::animation()` tile
the elapsed times 0 .. 20999: for every whole elapsed time t with
0 ≤ t < 21000 exactly one of them holds, and for t < 0 or t ≥ 21000 none
holds. -/
theorem animation_windows_tile (t : Int) :
    (GLDisplay.animationWindows t).length = 11 ∧
    (0 ≤ t ∧ t < 21000 → (GLDisplay.animationWindows t).count true = 1) ∧
    (t < 0 ∨ 21000 ≤ t → (GLDisplay.animationWindows t).count true = 0) := by
  refine ⟨rfl, ?_, ?_⟩
  · intro h
    rcases window_cases t with h0 | h0 | h0 | h0 | h0 | h0 | h0 | h0 | h0 | h0 | h0 | h0 | h0
    · omega
    · unfold GLDisplay.animationWindows
      simp only [window_on 0 1000 t (by omega) (by omega),
        window_off 1000 3000 t (by omega),
        window_off 3000 5000 t (by omega),
        window_off 5000 7000 t (by omega),
        window_off 7000 9000 t (by omega),
        window_off 9000 11000 t (by omega),
        window_off 11000 13000 t (by omega),
        window_off 13000 15000 t (by omega),
        window_off 15000 17000 t (by omega),
        window_off 17000 19000 t (by omega),
        window_off 19000 21000 t (by omega)]
      decide
    · unfold GLDisplay.animationWindows
      simp only [window_off 0 1000 t (by omega),
        window_on 1000 3000 t (by omega) (by omega),
        window_off 3000 5000 t (by omega),
        window_off 5000 7000 t (by omega),
        window_off 7000 9000 t (by omega),
        window_off 9000 11000 t (by omega),
        window_off 11000 13000 t (by omega),
        window_off 13000 15000 t (by omega),
        window_off 15000 17000 t (by omega),
        window_off 17000 19000 t (by omega),
        window_off 19000 21000 t (by omega)]
      decide
    · unfold GLDisplay.animationWindows
      simp only [window_off 0 1000 t (by omega),
        window_off 1000 3000 t (by omega),
        window_on 3000 5000 t (by omega) (by omega),
        window_off 5000 7000 t (by omega),
        window_off 7000 9000 t (by omega),
        window_off 9000 11000 t (by omega),
        window_off 11000 13000 t (by omega),
        window_off 13000 15000 t (by omega),
        window_off 15000 17000 t (by omega),
        window_off 17000 19000 t (by omega),
        window_off 19000 21000 t (by omega)]
      decide
    · unfold GLDisplay.animationWindows
      simp only [window_off 0 1000 t (by omega),
        window_off 1000 3000 t (by omega),
        window_off 3000 5000 t (by omega),
        window_on 5000 7000 t (by omega) (by omega),
        window_off 7000 9000 t (by omega),
        window_off 9000 11000 t (by omega),
        window_off 11000 13000 t (by omega),
        window_off 13000 15000 t (by omega),
        window_off 15000 17000 t (by omega),
        window_off 17000 19000 t (by omega),
        window_off 19000 21000 t (by omega)]
      decide
    · unfold GLDisplay.animationWindows
      simp only [window_off 0 1000 t (by omega),
        window_off 1000 3000 t (by omega),
        window_off 3000 5000 t (by omega),
        window_off 5000 7000 t (by omega),
        window_on 7000 9000 t (by omega) (by omega),
        window_off 9000 11000 t (by omega),
        window_off 11000 13000 t (by omega),
        window_off 13000 15000 t (by omega),
        window_off 15000 17000 t (by omega),
        window_off 17000 19000 t (by omega),
        window_off 19000 21000 t (by omega)]
      decide
    · unfold GLDisplay.animationWindows
      simp only [window_off 0 1000 t (by omega),
        window_off 1000 3000 t (by omega),
        window_off 3000 5000 t (by omega),
        window_off 5000 7000 t (by omega),
        window_off 7000 9000 t (by omega),
        window_on 9000 11000 t (by omega) (by omega),
        window_off 11000 13000 t (by omega),
        window_off 13000 15000 t (by omega),
        window_off 15000 17000 t (by omega),
        window_off 17000 19000 t (by omega),
        window_off 19000 21000 t (by omega)]
      decide
    · unfold GLDisplay.animationWindows
      simp only [window_off 0 1000 t (by omega),
        window_off 1000 3000 t (by omega),
        window_off 3000 5000 t (by omega),
        window_off 5000 7000 t (by omega),
        window_off 7000 9000 t (by omega),
        window_off 9000 11000 t (by omega),
        window_on 11000 13000 t (by omega) (by omega),
        window_off 13000 15000 t (by omega),
        window_off 15000 17000 t (by omega),
        window_off 17000 19000 t (by omega),
        window_off 19000 21000 t (by omega)]
      decide
    · unfold GLDisplay.animationWindows
      simp only [window_off 0 1000 t (by omega),
        window_off 1000 3000 t (by omega),
        window_off 3000 5000 t (by omega),
        window_off 5000 7000 t (by omega),
        window_off 7000 9000 t (by omega),
        window_off 9000 11000 t (by omega),
        window_off 11000 13000 t (by omega),
        window_on 13000 15000 t (by omega) (by omega),
        window_off 15000 17000 t (by omega),
        window_off 17000 19000 t (by omega),
        window_off 19000 21000 t (by omega)]
      decide
    · unfold GLDisplay.animationWindows
      simp only [window_off 0 1000 t (by omega),
        window_off 1000 3000 t (by omega),
        window_off 3000 5000 t (by omega),
        window_off 5000 7000 t (by omega),
        window_off 7000 9000 t (by omega),
        window_off 9000 11000 t (by omega),
        window_off 11000 13000 t (by omega),
        window_off 13000 15000 t (by omega),
        window_on 15000 17000 t (by omega) (by omega),
        window_off 17000 19000 t (by omega),
        window_off 19000 21000 t (by omega)]
      decide
    · unfold GLDisplay.animationWindows
      simp only [window_off 0 1000 t (by omega),
        window_off 1000 3000 t (by omega),
        window_off 3000 5000 t (by omega),
        window_off 5000 7000 t (by omega),
        window_off 7000 9000 t (by omega),
        window_off 9000 11000 t (by omega),
        window_off 11000 13000 t (by omega),
        window_off 13000 15000 t (by omega),
        window_off 15000 17000 t (by omega),
        window_on 17000 19000 t (by omega) (by omega),
        window_off 19000 21000 t (by omega)]
      decide
    · unfold GLDisplay.animationWindows
      simp only [window_off 0 1000 t (by omega),
        window_off 1000 3000 t (by omega),
        window_off 3000 5000 t (by omega),
        window_off 5000 7000 t (by omega),
        window_off 7000 9000 t (by omega),
        window_off 9000 11000 t (by omega),
        window_off 11000 13000 t (by omega),
        window_off 13000 15000 t (by omega),
        window_off 15000 17000 t (by omega),
        window_off 17000 19000 t (by omega),
        window_on 19000 21000 t (by omega) (by omega)]
      decide
    · omega
  · intro h
    unfold GLDisplay.animationWindows
    simp only [window_off 0 1000 t (by omega),
      window_off 1000 3000 t (by omega),
      window_off 3000 5000 t (by omega),
      window_off 5000 7000 t (by omega),
      window_off 7000 9000 t (by omega),
      window_off 9000 11000 t (by omega),
      window_off 11000 13000 t (by omega),
      window_off 13000 15000 t (by omega),
      window_off 15000 17000 t (by omega),
      window_off 17000 19000 t (by omega),
      window_off 19000 21000 t (by omega)]
    decide

/-- Claim C21: for every elapsed time t ≥ 21000 ms and every scene,
`GLDisplay::animation()` returns with the scene it was given, so the call at
21001 ms leaves what the call at 21000 ms left. -/
theorem animation_is_inert_from_21000 {F : Type} [Field F] (M : CMath F) (t : Int)
    (m_scene : Scene F) (h : 21000 ≤ t) :
    GLDisplay.animation M t m_scene = .returned () m_scene ∧
    GLDisplay.animation M 21000 m_scene = .returned () m_scene ∧
    (GLDisplay.animation M 21000 m_scene).andThen (GLDisplay.animation M 21001) =
      GLDisplay.animation M 21000 m_scene := by
  have h0 := GLDisplay.animation_inert M 21000 m_scene (by omega)
  have h1 := GLDisplay.animation_inert M 21001 m_scene (by omega)
  refine ⟨GLDisplay.animation_inert M t m_scene (Or.inr h), h0, ?_⟩
  rw [h0, Outcome.andThen_returned, h1]

/-- Claim C21 at 21001 ms, on the default scene with the first light moved. -/
theorem animation_is_inert_from_21000_witness :
    (21000 : Int) ≤ 21001 ∧
    GLDisplay.animation demoMath 21001 nudgedScene = .returned () nudgedScene ∧
    GLDisplay.animation demoMath 21000 nudgedScene = .returned () nudgedScene ∧
    (GLDisplay.animation demoMath 21000 nudgedScene).andThen (GLDisplay.animation demoMath 21001) =
      GLDisplay.animation demoMath 21000 nudgedScene :=
  ⟨by decide, animation_is_inert_from_21000 demoMath 21001 nudgedScene (by decide)⟩

/-! ## The sweeps and the dollies of the animation -/

/-- A window that does not match leaves the outcome of the calls before it. -/
theorem Outcome.andThen_whenElapsed_false {F : Type} (o : Outcome (Scene F) Unit)
    (f : Scene F → Outcome (Scene F) Unit) : o.andThen (whenElapsed false f) = o := by
  cases o <;> rfl

section SweepFacts
variable {F : Type} [Field F]

/-- In the `k`-th sweep window the angle is the one of the window's formula. -/
theorem GLDisplay.theta_in_window (M : CMath F) (t : Int) (k : Nat) (hk : k < 9)
    (h : (GLDisplay.animationWindows t).getD k false = true) :
    GLDisplay.theta M t = GLDisplay.windowTheta M k (t : F) := by
  rcases window_cases t with h0 | h0 | h0 | h0 | h0 | h0 | h0 | h0 | h0 | h0 | h0 | h0 | h0
  · exfalso
    revert h
    unfold GLDisplay.animationWindows
    simp only [window_off 0 1000 t (by omega),
      window_off 1000 3000 t (by omega),
      window_off 3000 5000 t (by omega),
      window_off 5000 7000 t (by omega),
      window_off 7000 9000 t (by omega),
      window_off 9000 11000 t (by omega),
      window_off 11000 13000 t (by omega),
      window_off 13000 15000 t (by omega),
      window_off 15000 17000 t (by omega),
      window_off 17000 19000 t (by omega),
      window_off 19000 21000 t (by omega)]
    interval_cases k <;> simp
  · have hk2 : k = 0 := by
      revert h
      unfold GLDisplay.animationWindows
      simp only [window_on 0 1000 t (by omega) (by omega),
      window_off 1000 3000 t (by omega),
      window_off 3000 5000 t (by omega),
      window_off 5000 7000 t (by omega),
      window_off 7000 9000 t (by omega),
      window_off 9000 11000 t (by omega),
      window_off 11000 13000 t (by omega),
      window_off 13000 15000 t (by omega),
      window_off 15000 17000 t (by omega),
      window_off 17000 19000 t (by omega),
      window_off 19000 21000 t (by omega)]
      interval_cases k <;> simp
    subst hk2
    unfold GLDisplay.theta
    simp only [window_on 0 1000 t (by omega) (by omega),
      window_off 1000 3000 t (by omega),
      window_off 3000 5000 t (by omega),
      window_off 5000 7000 t (by omega),
      window_off 7000 9000 t (by omega),
      window_off 9000 11000 t (by omega),
      window_off 11000 13000 t (by omega),
      window_off 13000 15000 t (by omega),
      window_off 15000 17000 t (by omega),
      window_off 17000 19000 t (by omega),
      window_off 19000 21000 t (by omega),
      if_true, Bool.false_eq_true, if_false]
  · have hk2 : k = 1 := by
      revert h
      unfold GLDisplay.animationWindows
      simp only [window_off 0 1000 t (by omega),
      window_on 1000 3000 t (by omega) (by omega),
      window_off 3000 5000 t (by omega),
      window_off 5000 7000 t (by omega),
      window_off 7000 9000 t (by omega),
      window_off 9000 11000 t (by omega),
      window_off 11000 13000 t (by omega),
      window_off 13000 15000 t (by omega),
      window_off 15000 17000 t (by omega),
      window_off 17000 19000 t (by omega),
      window_off 19000 21000 t (by omega)]
      interval_cases k <;> simp
    subst hk2
    unfold GLDisplay.theta
    simp only [window_off 0 1000 t (by omega),
      window_on 1000 3000 t (by omega) (by omega),
      window_off 3000 5000 t (by omega),
      window_off 5000 7000 t (by omega),
      window_off 7000 9000 t (by omega),
      window_off 9000 11000 t (by omega),
      window_off 11000 13000 t (by omega),
      window_off 13000 15000 t (by omega),
      window_off 15000 17000 t (by omega),
      window_off 17000 19000 t (by omega),
      window_off 19000 21000 t (by omega),
      if_true, Bool.false_eq_true, if_false]
  · have hk2 : k = 2 := by
      revert h
      unfold GLDisplay.animationWindows
      simp only [window_off 0 1000 t (by omega),
      window_off 1000 3000 t (by omega),
      window_on 3000 5000 t (by omega) (by omega),
      window_off 5000 7000 t (by omega),
      window_off 7000 9000 t (by omega),
      window_off 9000 11000 t (by omega),
      window_off 11000 13000 t (by omega),
      window_off 13000 15000 t (by omega),
      window_off 15000 17000 t (by omega),
      window_off 17000 19000 t (by omega),
      window_off 19000 21000 t (by omega)]
      interval_cases k <;> simp
    subst hk2
    unfold GLDisplay.theta
    simp only [window_off 0 1000 t (by omega),
      window_off 1000 3000 t (by omega),
      window_on 3000 5000 t (by omega) (by omega),
      window_off 5000 7000 t (by omega),
      window_off 7000 9000 t (by omega),
      window_off 9000 11000 t (by omega),
      window_off 11000 13000 t (by omega),
      window_off 13000 15000 t (by omega),
      window_off 15000 17000 t (by omega),
      window_off 17000 19000 t (by omega),
      window_off 19000 21000 t (by omega),
      if_true, Bool.false_eq_true, if_false]
  · have hk2 : k = 3 := by
      revert h
      unfold GLDisplay.animationWindows
      simp only [window_off 0 1000 t (by omega),
      window_off 1000 3000 t (by omega),
      window_off 3000 5000 t (by omega),
      window_on 5000 7000 t (by omega) (by omega),
      window_off 7000 9000 t (by omega),
      window_off 9000 11000 t (by omega),
      window_off 11000 13000 t (by omega),
      window_off 13000 15000 t (by omega),
      window_off 15000 17000 t (by omega),
      window_off 17000 19000 t (by omega),
      window_off 19000 21000 t (by omega)]
      interval_cases k <;> simp
    subst hk2
    unfold GLDisplay.theta
    simp only [window_off 0 1000 t (by omega),
      window_off 1000 3000 t (by omega),
      window_off 3000 5000 t (by omega),
      window_on 5000 7000 t (by omega) (by omega),
      window_off 7000 9000 t (by omega),
      window_off 9000 11000 t (by omega),
      window_off 11000 13000 t (by omega),
      window_off 13000 15000 t (by omega),
      window_off 15000 17000 t (by omega),
      window_off 17000 19000 t (by omega),
      window_off 19000 21000 t (by omega),
      if_true, Bool.false_eq_true, if_false]
  · have hk2 : k = 4 := by
      revert h
      unfold GLDisplay.animationWindows
      simp only [window_off 0 1000 t (by omega),
      window_off 1000 3000 t (by omega),
      window_off 3000 5000 t (by omega),
      window_off 5000 7000 t (by omega),
      window_on 7000 9000 t (by omega) (by omega),
      window_off 9000 11000 t (by omega),
      window_off 11000 13000 t (by omega),
      window_off 13000 15000 t (by omega),
      window_off 15000 17000 t (by omega),
      window_off 17000 19000 t (by omega),
      window_off 19000 21000 t (by omega)]
      interval_cases k <;> simp
    subst hk2
    unfold GLDisplay.theta
    simp only [window_off 0 1000 t (by omega),
      window_off 1000 3000 t (by omega),
      window_off 3000 5000 t (by omega),
      window_off 5000 7000 t (by omega),
      window_on 7000 9000 t (by omega) (by omega),
      window_off 9000 11000 t (by omega),
      window_off 11000 13000 t (by omega),
      window_off 13000 15000 t (by omega),
      window_off 15000 17000 t (by omega),
      window_off 17000 19000 t (by omega),
      window_off 19000 21000 t (by omega),
      if_true, Bool.false_eq_true, if_false]
  · have hk2 : k = 5 := by
      revert h
      unfold GLDisplay.animationWindows
      simp only [window_off 0 1000 t (by omega),
      window_off 1000 3000 t (by omega),
      window_off 3000 5000 t (by omega),
      window_off 5000 7000 t (by omega),
      window_off 7000 9000 t (by omega),
      window_on 9000 11000 t (by omega) (by omega),
      window_off 11000 13000 t (by omega),
      window_off 13000 15000 t (by omega),
      window_off 15000 17000 t (by omega),
      window_off 17000 19000 t (by omega),
      window_off 19000 21000 t (by omega)]
      interval_cases k <;> simp
    subst hk2
    unfold GLDisplay.theta
    simp only [window_off 0 1000 t (by omega),
      window_off 1000 3000 t (by omega),
      window_off 3000 5000 t (by omega),
      window_off 5000 7000 t (by omega),
      window_off 7000 9000 t (by omega),
      window_on 9000 11000 t (by omega) (by omega),
      window_off 11000 13000 t (by omega),
      window_off 13000 15000 t (by omega),
      window_off 15000 17000 t (by omega),
      window_off 17000 19000 t (by omega),
      window_off 19000 21000 t (by omega),
      if_true, Bool.false_eq_true, if_false]
  · have hk2 : k = 6 := by
      revert h
      unfold GLDisplay.animationWindows
      simp only [window_off 0 1000 t (by omega),
      window_off 1000 3000 t (by omega),
      window_off 3000 5000 t (by omega),
      window_off 5000 7000 t (by omega),
      window_off 7000 9000 t (by omega),
      window_off 9000 11000 t (by omega),
      window_on 11000 13000 t (by omega) (by omega),
      window_off 13000 15000 t (by omega),
      window_off 15000 17000 t (by omega),
      window_off 17000 19000 t (by omega),
      window_off 19000 21000 t (by omega)]
      interval_cases k <;> simp
    subst hk2
    unfold GLDisplay.theta
    simp only [window_off 0 1000 t (by omega),
      window_off 1000 3000 t (by omega),
      window_off 3000 5000 t (by omega),
      window_off 5000 7000 t (by omega),
      window_off 7000 9000 t (by omega),
      window_off 9000 11000 t (by omega),
      window_on 11000 13000 t (by omega) (by omega),
      window_off 13000 15000 t (by omega),
      window_off 15000 17000 t (by omega),
      window_off 17000 19000 t (by omega),
      window_off 19000 21000 t (by omega),
      if_true, Bool.false_eq_true, if_false]
  · have hk2 : k = 7 := by
      revert h
      unfold GLDisplay.animationWindows
      simp only [window_off 0 1000 t (by omega),
      window_off 1000 3000 t (by omega),
      window_off 3000 5000 t (by omega),
      window_off 5000 7000 t (by omega),
      window_off 7000 9000 t (by omega),
      window_off 9000 11000 t (by omega),
      window_off 11000 13000 t (by omega),
      window_on 13000 15000 t (by omega) (by omega),
      window_off 15000 17000 t (by omega),
      window_off 17000 19000 t (by omega),
      window_off 19000 21000 t (by omega)]
      interval_cases k <;> simp
    subst hk2
    unfold GLDisplay.theta
    simp only [window_off 0 1000 t (by omega),
      window_off 1000 3000 t (by omega),
      window_off 3000 5000 t (by omega),
      window_off 5000 7000 t (by omega),
      window_off 7000 9000 t (by omega),
      window_off 9000 11000 t (by omega),
      window_off 11000 13000 t (by omega),
      window_on 13000 15000 t (by omega) (by omega),
      window_off 15000 17000 t (by omega),
      window_off 17000 19000 t (by omega),
      window_off 19000 21000 t (by omega),
      if_true, Bool.false_eq_true, if_false]
  · have hk2 : k = 8 := by
      revert h
      unfold GLDisplay.animationWindows
      simp only [window_off 0 1000 t (by omega),
      window_off 1000 3000 t (by omega),
      window_off 3000 5000 t (by omega),
      window_off 5000 7000 t (by omega),
      window_off 7000 9000 t (by omega),
      window_off 9000 11000 t (by omega),
      window_off 11000 13000 t (by omega),
      window_off 13000 15000 t (by omega),
      window_on 15000 17000 t (by omega) (by omega),
      window_off 17000 19000 t (by omega),
      window_off 19000 21000 t (by omega)]
      interval_cases k <;> simp
    subst hk2
    unfold GLDisplay.theta
    simp only [window_off 0 1000 t (by omega),
      window_off 1000 3000 t (by omega),
      window_off 3000 5000 t (by omega),
      window_off 5000 7000 t (by omega),
      window_off 7000 9000 t (by omega),
      window_off 9000 11000 t (by omega),
      window_off 11000 13000 t (by omega),
      window_off 13000 15000 t (by omega),
      window_on 15000 17000 t (by omega) (by omega),
      window_off 17000 19000 t (by omega),
      window_off 19000 21000 t (by omega),
      if_true, Bool.false_eq_true, if_false]
  · exfalso
    revert h
    unfold GLDisplay.animationWindows
    simp only [window_off 0 1000 t (by omega),
      window_off 1000 3000 t (by omega),
      window_off 3000 5000 t (by omega),
      window_off 5000 7000 t (by omega),
      window_off 7000 9000 t (by omega),
      window_off 9000 11000 t (by omega),
      window_off 11000 13000 t (by omega),
      window_off 13000 15000 t (by omega),
      window_off 15000 17000 t (by omega),
      window_on 17000 19000 t (by omega) (by omega),
      window_off 19000 21000 t (by omega)]
    interval_cases k <;> simp
  · exfalso
    revert h
    unfold GLDisplay.animationWindows
    simp only [window_off 0 1000 t (by omega),
      window_off 1000 3000 t (by omega),
      window_off 3000 5000 t (by omega),
      window_off 5000 7000 t (by omega),
      window_off 7000 9000 t (by omega),
      window_off 9000 11000 t (by omega),
      window_off 11000 13000 t (by omega),
      window_off 13000 15000 t (by omega),
      window_off 15000 17000 t (by omega),
      window_off 17000 19000 t (by omega),
      window_on 19000 21000 t (by omega) (by omega)]
    interval_cases k <;> simp
  · exfalso
    revert h
    unfold GLDisplay.animationWindows
    simp only [window_off 0 1000 t (by omega),
      window_off 1000 3000 t (by omega),
      window_off 3000 5000 t (by omega),
      window_off 5000 7000 t (by omega),
      window_off 7000 9000 t (by omega),
      window_off 9000 11000 t (by omega),
      window_off 11000 13000 t (by omega),
      window_off 13000 15000 t (by omega),
      window_off 15000 17000 t (by omega),
      window_off 17000 19000 t (by omega),
      window_off 19000 21000 t (by omega)]
    interval_cases k <;> simp

/-- With a first light `l`, `translateLightSourceZ(0, c)` returns and replaces
it by `l.translateZ c`. -/
theorem Scene.translateLightSourceZ_first (s : Scene F) (l : Light F) (c : F)
    (hl : QVector.index s.m_pointLights 0 = some l) :
    s.translateLightSourceZ 0 c =
      .returned () { s with m_pointLights := QVector.assign s.m_pointLights 0 (l.translateZ c) } := by
  have h0 := (QVector.lt_size_of_index s.m_pointLights 0 l hl).2
  unfold Scene.translateLightSourceZ
  rw [if_pos h0, hl]

/-- From 0 to 9000 ms the driver makes the one call
`setLightSourcePosition(0, 0, radius*sin(theta), radius*cos(theta))`. -/
theorem GLDisplay.animation_sweep_yz (M : CMath F) (t : Int) (s : Scene F)
    (h0 : 0 ≤ t) (h1 : t < 9000) :
    GLDisplay.animation M t s =
      s.setLightSourcePosition 0 0 (30 * M.sin (GLDisplay.theta M t))
        (30 * M.cos (GLDisplay.theta M t)) := by
  have hc : (0 ≤ t ∧ t < 1000) ∨ (1000 ≤ t ∧ t < 3000) ∨ (3000 ≤ t ∧ t < 5000) ∨
      (5000 ≤ t ∧ t < 7000) ∨ (7000 ≤ t ∧ t < 9000) := by omega
  rcases hc with hc | hc | hc | hc | hc
  · unfold GLDisplay.animation GLDisplay.theta
    simp only [window_on 0 1000 t (by omega) (by omega),
      window_off 1000 3000 t (by omega),
      window_off 3000 5000 t (by omega),
      window_off 5000 7000 t (by omega),
      window_off 7000 9000 t (by omega),
      window_off 9000 11000 t (by omega),
      window_off 11000 13000 t (by omega),
      window_off 13000 15000 t (by omega),
      window_off 15000 17000 t (by omega),
      window_off 17000 19000 t (by omega),
      window_off 19000 21000 t (by omega),
      whenElapsed_false, whenElapsed_true, Outcome.andThen_returned,
      Outcome.andThen_whenElapsed_false,
      if_true, Bool.false_eq_true, if_false, GLDisplay.windowTheta]
  · unfold GLDisplay.animation GLDisplay.theta
    simp only [window_off 0 1000 t (by omega),
      window_on 1000 3000 t (by omega) (by omega),
      window_off 3000 5000 t (by omega),
      window_off 5000 7000 t (by omega),
      window_off 7000 9000 t (by omega),
      window_off 9000 11000 t (by omega),
      window_off 11000 13000 t (by omega),
      window_off 13000 15000 t (by omega),
      window_off 15000 17000 t (by omega),
      window_off 17000 19000 t (by omega),
      window_off 19000 21000 t (by omega),
      whenElapsed_false, whenElapsed_true, Outcome.andThen_returned,
      Outcome.andThen_whenElapsed_false,
      if_true, Bool.false_eq_true, if_false, GLDisplay.windowTheta]
  · unfold GLDisplay.animation GLDisplay.theta
    simp only [window_off 0 1000 t (by omega),
      window_off 1000 3000 t (by omega),
      window_on 3000 5000 t (by omega) (by omega),
      window_off 5000 7000 t (by omega),
      window_off 7000 9000 t (by omega),
      window_off 9000 11000 t (by omega),
      window_off 11000 13000 t (by omega),
      window_off 13000 15000 t (by omega),
      window_off 15000 17000 t (by omega),
      window_off 17000 19000 t (by omega),
      window_off 19000 21000 t (by omega),
      whenElapsed_false, whenElapsed_true, Outcome.andThen_returned,
      Outcome.andThen_whenElapsed_false,
      if_true, Bool.false_eq_true, if_false, GLDisplay.windowTheta]
  · unfold GLDisplay.animation GLDisplay.theta
    simp only [window_off 0 1000 t (by omega),
      window_off 1000 3000 t (by omega),
      window_off 3000 5000 t (by omega),
      window_on 5000 7000 t (by omega) (by omega),
      window_off 7000 9000 t (by omega),
      window_off 9000 11000 t (by omega),
      window_off 11000 13000 t (by omega),
      window_off 13000 15000 t (by omega),
      window_off 15000 17000 t (by omega),
      window_off 17000 19000 t (by omega),
      window_off 19000 21000 t (by omega),
      whenElapsed_false, whenElapsed_true, Outcome.andThen_returned,
      Outcome.andThen_whenElapsed_false,
      if_true, Bool.false_eq_true, if_false, GLDisplay.windowTheta]
  · unfold GLDisplay.animation GLDisplay.theta
    simp only [window_off 0 1000 t (by omega),
      window_off 1000 3000 t (by omega),
      window_off 3000 5000 t (by omega),
      window_off 5000 7000 t (by omega),
      window_on 7000 9000 t (by omega) (by omega),
      window_off 9000 11000 t (by omega),
      window_off 11000 13000 t (by omega),
      window_off 13000 15000 t (by omega),
      window_off 15000 17000 t (by omega),
      window_off 17000 19000 t (by omega),
      window_off 19000 21000 t (by omega),
      whenElapsed_false, whenElapsed_true, Outcome.andThen_returned,
      Outcome.andThen_whenElapsed_false,
      if_true, Bool.false_eq_true, if_false, GLDisplay.windowTheta]

/-- From 9000 to 17000 ms the driver makes the one call
`setLightSourcePosition(0, radius*sin(theta), 0, radius*cos(theta))`. -/
theorem GLDisplay.animation_sweep_xz (M : CMath F) (t : Int) (s : Scene F)
    (h0 : 9000 ≤ t) (h1 : t < 17000) :
    GLDisplay.animation M t s =
      s.setLightSourcePosition 0 (30 * M.sin (GLDisplay.theta M t)) 0
        (30 * M.cos (GLDisplay.theta M t)) := by
  have hc : (9000 ≤ t ∧ t < 11000) ∨ (11000 ≤ t ∧ t < 13000) ∨ (13000 ≤ t ∧ t < 15000) ∨
      (15000 ≤ t ∧ t < 17000) := by omega
  rcases hc with hc | hc | hc | hc
  · unfold GLDisplay.animation GLDisplay.theta
    simp only [window_off 0 1000 t (by omega),
      window_off 1000 3000 t (by omega),
      window_off 3000 5000 t (by omega),
      window_off 5000 7000 t (by omega),
      window_off 7000 9000 t (by omega),
      window_on 9000 11000 t (by omega) (by omega),
      window_off 11000 13000 t (by omega),
      window_off 13000 15000 t (by omega),
      window_off 15000 17000 t (by omega),
      window_off 17000 19000 t (by omega),
      window_off 19000 21000 t (by omega),
      whenElapsed_false, whenElapsed_true, Outcome.andThen_returned,
      Outcome.andThen_whenElapsed_false,
      if_true, Bool.false_eq_true, if_false, GLDisplay.windowTheta]
  · unfold GLDisplay.animation GLDisplay.theta
    simp only [window_off 0 1000 t (by omega),
      window_off 1000 3000 t (by omega),
      window_off 3000 5000 t (by omega),
      window_off 5000 7000 t (by omega),
      window_off 7000 9000 t (by omega),
      window_off 9000 11000 t (by omega),
      window_on 11000 13000 t (by omega) (by omega),
      window_off 13000 15000 t (by omega),
      window_off 15000 17000 t (by omega),
      window_off 17000 19000 t (by omega),
      window_off 19000 21000 t (by omega),
      whenElapsed_false, whenElapsed_true, Outcome.andThen_returned,
      Outcome.andThen_whenElapsed_false,
      if_true, Bool.false_eq_true, if_false, GLDisplay.windowTheta]
  · unfold GLDisplay.animation GLDisplay.theta
    simp only [window_off 0 1000 t (by omega),
      window_off 1000 3000 t (by omega),
      window_off 3000 5000 t (by omega),
      window_off 5000 7000 t (by omega),
      window_off 7000 9000 t (by omega),
      window_off 9000 11000 t (by omega),
      window_off 11000 13000 t (by omega),
      window_on 13000 15000 t (by omega) (by omega),
      window_off 15000 17000 t (by omega),
      window_off 17000 19000 t (by omega),
      window_off 19000 21000 t (by omega),
      whenElapsed_false, whenElapsed_true, Outcome.andThen_returned,
      Outcome.andThen_whenElapsed_false,
      if_true, Bool.false_eq_true, if_false, GLDisplay.windowTheta]
  · unfold GLDisplay.animation GLDisplay.theta
    simp only [window_off 0 1000 t (by omega),
      window_off 1000 3000 t (by omega),
      window_off 3000 5000 t (by omega),
      window_off 5000 7000 t (by omega),
      window_off 7000 9000 t (by omega),
      window_off 9000 11000 t (by omega),
      window_off 11000 13000 t (by omega),
      window_off 13000 15000 t (by omega),
      window_on 15000 17000 t (by omega) (by omega),
      window_off 17000 19000 t (by omega),
      window_off 19000 21000 t (by omega),
      whenElapsed_false, whenElapsed_true, Outcome.andThen_returned,
      Outcome.andThen_whenElapsed_false,
      if_true, Bool.false_eq_true, if_false, GLDisplay.windowTheta]

/-- From 17000 to 19000 ms the driver makes the one call
`translateLightSourceZ(0, -5.0*maxDistanceZ/scaleFactor)`. -/
theorem GLDisplay.animation_dolly_in (M : CMath F) (t : Int) (s : Scene F)
    (h0 : 17000 ≤ t) (h1 : t < 19000) :
    GLDisplay.animation M t s = s.translateLightSourceZ 0 (-5 * 25 / 300) := by
  unfold GLDisplay.animation
  simp only [window_off 0 1000 t (by omega),
      window_off 1000 3000 t (by omega),
      window_off 3000 5000 t (by omega),
      window_off 5000 7000 t (by omega),
      window_off 7000 9000 t (by omega),
      window_off 9000 11000 t (by omega),
      window_off 11000 13000 t (by omega),
      window_off 13000 15000 t (by omega),
      window_off 15000 17000 t (by omega),
      window_on 17000 19000 t (by omega) (by omega),
      window_off 19000 21000 t (by omega),
    whenElapsed_false, whenElapsed_true, Outcome.andThen_returned,
      Outcome.andThen_whenElapsed_false]

/-- From 19000 to 21000 ms the driver makes the one call
`translateLightSourceZ(0, 5.0*maxDistanceZ/scaleFactor)`. -/
theorem GLDisplay.animation_dolly_out (M : CMath F) (t : Int) (s : Scene F)
    (h0 : 19000 ≤ t) (h1 : t < 21000) :
    GLDisplay.animation M t s = s.translateLightSourceZ 0 (5 * 25 / 300) := by
  unfold GLDisplay.animation
  simp only [window_off 0 1000 t (by omega),
      window_off 1000 3000 t (by omega),
      window_off 3000 5000 t (by omega),
      window_off 5000 7000 t (by omega),
      window_off 7000 9000 t (by omega),
      window_off 9000 11000 t (by omega),
      window_off 11000 13000 t (by omega),
      window_off 13000 15000 t (by omega),
      window_off 15000 17000 t (by omega),
      window_off 17000 19000 t (by omega),
      window_on 19000 21000 t (by omega) (by omega),
    whenElapsed_false, whenElapsed_true, Outcome.andThen_returned,
      Outcome.andThen_whenElapsed_false]

end SweepFacts

/-! ## Continuity of the sweep angle -/

/-- A fraction of the amplitude, added to or taken from 0 or the amplitude,
stays within the amplitude. -/
theorem sweep_bound {F : Type} [LinearOrderedField F] (x p : F) (hx0 : 0 ≤ x) (hx1 : x ≤ 1)
    (hp : 0 ≤ p) :
    |x * p| ≤ p ∧ |p - x * p| ≤ p ∧ |-(x * p)| ≤ p ∧ |-p + x * p| ≤ p := by
  have h1 : 0 ≤ x * p := mul_nonneg hx0 hp
  have h2 : x * p ≤ p := by
    have := mul_le_mul_of_nonneg_right hx1 hp
    simpa using this
  refine ⟨?_, ?_, ?_, ?_⟩ <;> rw [abs_le] <;> constructor <;> linarith

/-- Every window formula is an affine function of the elapsed time. -/
theorem GLDisplay.windowTheta_affine {F : Type} [Field F] (M : CMath F) (k : Nat) :
    ∃ a b : F, ∀ e, GLDisplay.windowTheta M k e = a * e + b := by
  match k with
  | 0 => exact ⟨0, 0, fun e => by simp only [GLDisplay.windowTheta]; ring⟩
  | 1 => exact ⟨M.pi / 12 / 2000, -(1000 / 2000 * (M.pi / 12)), fun e => by
      simp only [GLDisplay.windowTheta]; ring⟩
  | 2 => exact ⟨-(M.pi / 12 / 2000), M.pi / 12 + 3000 / 2000 * (M.pi / 12), fun e => by
      simp only [GLDisplay.windowTheta]; ring⟩
  | 3 => exact ⟨-(M.pi / 12 / 2000), 5000 / 2000 * (M.pi / 12), fun e => by
      simp only [GLDisplay.windowTheta]; ring⟩
  | 4 => exact ⟨M.pi / 12 / 2000, -(M.pi / 12) - 7000 / 2000 * (M.pi / 12), fun e => by
      simp only [GLDisplay.windowTheta]; ring⟩
  | 5 => exact ⟨M.pi / 12 / 2000, -(9000 / 2000 * (M.pi / 12)), fun e => by
      simp only [GLDisplay.windowTheta]; ring⟩
  | 6 => exact ⟨-(M.pi / 12 / 2000), M.pi / 12 + 11000 / 2000 * (M.pi / 12), fun e => by
      simp only [GLDisplay.windowTheta]; ring⟩
  | 7 => exact ⟨-(M.pi / 12 / 2000), 13000 / 2000 * (M.pi / 12), fun e => by
      simp only [GLDisplay.windowTheta]; ring⟩
  | 8 => exact ⟨M.pi / 12 / 2000, -(M.pi / 12) - 15000 / 2000 * (M.pi / 12), fun e => by
      simp only [GLDisplay.windowTheta]; ring⟩
  | n + 9 => exact ⟨0, 0, fun e => by simp only [GLDisplay.windowTheta]; ring⟩

/-- Every window formula is continuous in the elapsed time. -/
theorem GLDisplay.windowTheta_continuous {F : Type} [LinearOrderedField F] [TopologicalSpace F]
    [OrderTopology F] (M : CMath F) (k : Nat) : Continuous (GLDisplay.windowTheta M k) := by
  obtain ⟨a, b, h⟩ := GLDisplay.windowTheta_affine M k
  have : GLDisplay.windowTheta M k = fun e => a * e + b := funext h
  rw [this]
  fun_prop

/-- Two sweep windows meet at their boundary: the formula of the first is
continuous and both formulas give `value` there. -/
theorem GLDisplay.sweepsMeetAt_of_values {F : Type} [LinearOrderedField F] [TopologicalSpace F]
    [OrderTopology F] (M : CMath F) (k : Nat) (boundary : Int) (value : F) (hk : k + 1 < 9)
    (hw : (GLDisplay.animationWindows boundary).getD (k + 1) false = true)
    (h1 : GLDisplay.windowTheta M k (boundary : F) = value)
    (h2 : GLDisplay.windowTheta M (k + 1) (boundary : F) = value) :
    GLDisplay.SweepsMeetAt M k boundary value := by
  refine ⟨?_, h2, ?_⟩
  · have h : Filter.Tendsto (GLDisplay.windowTheta M k)
        (nhdsWithin (boundary : F) (Set.Iio (boundary : F)))
        (nhds (GLDisplay.windowTheta M k (boundary : F))) :=
      (GLDisplay.windowTheta_continuous M k).continuousAt.continuousWithinAt
    rw [h1] at h
    exact h
  · rw [GLDisplay.theta_in_window M boundary (k + 1) hk hw, h2]

/-- Within the sweeps the angle stays within pi/12 of 0. -/
theorem GLDisplay.theta_bounded {F : Type} [LinearOrderedField F] (M : CMath F)
    (hpi : 0 ≤ M.pi) (t : Int) (h0 : 0 ≤ t) (h1 : t < 17000) :
    |GLDisplay.theta M t| ≤ M.pi / 12 := by
  have hp : 0 ≤ M.pi / 12 := div_nonneg hpi (by norm_num)
  have hc : (0 ≤ t ∧ t < 1000) ∨ (1000 ≤ t ∧ t < 3000) ∨ (3000 ≤ t ∧ t < 5000) ∨
      (5000 ≤ t ∧ t < 7000) ∨ (7000 ≤ t ∧ t < 9000) ∨ (9000 ≤ t ∧ t < 11000) ∨
      (11000 ≤ t ∧ t < 13000) ∨ (13000 ≤ t ∧ t < 15000) ∨ (15000 ≤ t ∧ t < 17000) := by omega
  rcases hc with hc | hc | hc | hc | hc | hc | hc | hc | hc
  · rw [GLDisplay.theta_in_window M t 0 (by decide)
      (by unfold GLDisplay.animationWindows; simp [hc.1, hc.2])]
    simp only [GLDisplay.windowTheta, abs_zero]
    exact hp
  · rw [GLDisplay.theta_in_window M t 1 (by decide)
      (by unfold GLDisplay.animationWindows; simp [hc.1, hc.2])]
    have ha : ((1000 : Int) : F) ≤ (t : F) := Int.cast_le.mpr hc.1
    have hb : (t : F) < ((3000 : Int) : F) := Int.cast_lt.mpr hc.2
    push_cast at ha hb
    have hx0 : 0 ≤ ((t : F) - 1000) / 2000 := div_nonneg (by linarith) (by norm_num)
    have hx1 : ((t : F) - 1000) / 2000 ≤ 1 := by
      rw [div_le_one (by norm_num)]
      linarith
    have hform : GLDisplay.windowTheta M 1 (t : F) =
        (fun x p : F => x * p) (((t : F) - 1000) / 2000) (M.pi / 12) := by
      simp only [GLDisplay.windowTheta]
      try ring
    rw [hform]
    exact (sweep_bound _ _ hx0 hx1 hp).1
  · rw [GLDisplay.theta_in_window M t 2 (by decide)
      (by unfold GLDisplay.animationWindows; simp [hc.1, hc.2])]
    have ha : ((3000 : Int) : F) ≤ (t : F) := Int.cast_le.mpr hc.1
    have hb : (t : F) < ((5000 : Int) : F) := Int.cast_lt.mpr hc.2
    push_cast at ha hb
    have hx0 : 0 ≤ ((t : F) - 3000) / 2000 := div_nonneg (by linarith) (by norm_num)
    have hx1 : ((t : F) - 3000) / 2000 ≤ 1 := by
      rw [div_le_one (by norm_num)]
      linarith
    have hform : GLDisplay.windowTheta M 2 (t : F) =
        (fun x p : F => p - x * p) (((t : F) - 3000) / 2000) (M.pi / 12) := by
      simp only [GLDisplay.windowTheta]
      try ring
    rw [hform]
    exact (sweep_bound _ _ hx0 hx1 hp).2.1
  · rw [GLDisplay.theta_in_window M t 3 (by decide)
      (by unfold GLDisplay.animationWindows; simp [hc.1, hc.2])]
    have ha : ((5000 : Int) : F) ≤ (t : F) := Int.cast_le.mpr hc.1
    have hb : (t : F) < ((7000 : Int) : F) := Int.cast_lt.mpr hc.2
    push_cast at ha hb
    have hx0 : 0 ≤ ((t : F) - 5000) / 2000 := div_nonneg (by linarith) (by norm_num)
    have hx1 : ((t : F) - 5000) / 2000 ≤ 1 := by
      rw [div_le_one (by norm_num)]
      linarith
    have hform : GLDisplay.windowTheta M 3 (t : F) =
        (fun x p : F => -(x * p)) (((t : F) - 5000) / 2000) (M.pi / 12) := by
      simp only [GLDisplay.windowTheta]
      try ring
    rw [hform]
    exact (sweep_bound _ _ hx0 hx1 hp).2.2.1
  · rw [GLDisplay.theta_in_window M t 4 (by decide)
      (by unfold GLDisplay.animationWindows; simp [hc.1, hc.2])]
    have ha : ((7000 : Int) : F) ≤ (t : F) := Int.cast_le.mpr hc.1
    have hb : (t : F) < ((9000 : Int) : F) := Int.cast_lt.mpr hc.2
    push_cast at ha hb
    have hx0 : 0 ≤ ((t : F) - 7000) / 2000 := div_nonneg (by linarith) (by norm_num)
    have hx1 : ((t : F) - 7000) / 2000 ≤ 1 := by
      rw [div_le_one (by norm_num)]
      linarith
    have hform : GLDisplay.windowTheta M 4 (t : F) =
        (fun x p : F => -p + x * p) (((t : F) - 7000) / 2000) (M.pi / 12) := by
      simp only [GLDisplay.windowTheta]
      try ring
    rw [hform]
    exact (sweep_bound _ _ hx0 hx1 hp).2.2.2
  · rw [GLDisplay.theta_in_window M t 5 (by decide)
      (by unfold GLDisplay.animationWindows; simp [hc.1, hc.2])]
    have ha : ((9000 : Int) : F) ≤ (t : F) := Int.cast_le.mpr hc.1
    have hb : (t : F) < ((11000 : Int) : F) := Int.cast_lt.mpr hc.2
    push_cast at ha hb
    have hx0 : 0 ≤ ((t : F) - 9000) / 2000 := div_nonneg (by linarith) (by norm_num)
    have hx1 : ((t : F) - 9000) / 2000 ≤ 1 := by
      rw [div_le_one (by norm_num)]
      linarith
    have hform : GLDisplay.windowTheta M 5 (t : F) =
        (fun x p : F => x * p) (((t : F) - 9000) / 2000) (M.pi / 12) := by
      simp only [GLDisplay.windowTheta]
      try ring
    rw [hform]
    exact (sweep_bound _ _ hx0 hx1 hp).1
  · rw [GLDisplay.theta_in_window M t 6 (by decide)
      (by unfold GLDisplay.animationWindows; simp [hc.1, hc.2])]
    have ha : ((11000 : Int) : F) ≤ (t : F) := Int.cast_le.mpr hc.1
    have hb : (t : F) < ((13000 : Int) : F) := Int.cast_lt.mpr hc.2
    push_cast at ha hb
    have hx0 : 0 ≤ ((t : F) - 11000) / 2000 := div_nonneg (by linarith) (by norm_num)
    have hx1 : ((t : F) - 11000) / 2000 ≤ 1 := by
      rw [div_le_one (by norm_num)]
      linarith
    have hform : GLDisplay.windowTheta M 6 (t : F) =
        (fun x p : F => p - x * p) (((t : F) - 11000) / 2000) (M.pi / 12) := by
      simp only [GLDisplay.windowTheta]
      try ring
    rw [hform]
    exact (sweep_bound _ _ hx0 hx1 hp).2.1
  · rw [GLDisplay.theta_in_window M t 7 (by decide)
      (by unfold GLDisplay.animationWindows; simp [hc.1, hc.2])]
    have ha : ((13000 : Int) : F) ≤ (t : F) := Int.cast_le.mpr hc.1
    have hb : (t : F) < ((15000 : Int) : F) := Int.cast_lt.mpr hc.2
    push_cast at ha hb
    have hx0 : 0 ≤ ((t : F) - 13000) / 2000 := div_nonneg (by linarith) (by norm_num)
    have hx1 : ((t : F) - 13000) / 2000 ≤ 1 := by
      rw [div_le_one (by norm_num)]
      linarith
    have hform : GLDisplay.windowTheta M 7 (t : F) =
        (fun x p : F => -(x * p)) (((t : F) - 13000) / 2000) (M.pi / 12) := by
      simp only [GLDisplay.windowTheta]
      try ring
    rw [hform]
    exact (sweep_bound _ _ hx0 hx1 hp).2.2.1
  · rw [GLDisplay.theta_in_window M t 8 (by decide)
      (by unfold GLDisplay.animationWindows; simp [hc.1, hc.2])]
    have ha : ((15000 : Int) : F) ≤ (t : F) := Int.cast_le.mpr hc.1
    have hb : (t : F) < ((17000 : Int) : F) := Int.cast_lt.mpr hc.2
    push_cast at ha hb
    have hx0 : 0 ≤ ((t : F) - 15000) / 2000 := div_nonneg (by linarith) (by norm_num)
    have hx1 : ((t : F) - 15000) / 2000 ≤ 1 := by
      rw [div_le_one (by norm_num)]
      linarith
    have hform : GLDisplay.windowTheta M 8 (t : F) =
        (fun x p : F => -p + x * p) (((t : F) - 15000) / 2000) (M.pi / 12) := by
      simp only [GLDisplay.windowTheta]
      try ring
    rw [hform]
    exact (sweep_bound _ _ hx0 hx1 hp).2.2.2

/-- Claim C23: over the sweeps (0 ≤ t < 17000 ms) the angle theta is given in
each window by a formula that is affine in the elapsed time, it stays within
pi/12 of 0, and at each boundary 1000, 3000, ..., 15000 ms the angle of the
window that starts there is the limit of the angle of the window that ends
there (0, pi/12, 0, -pi/12, 0, pi/12, 0, -pi/12); at 9000 ms the call of the
sweep on x and z is the call the sweep on y and z makes with its limit angle,
so the light position is the same on both axes.  Used: pi is not negative and
sin 0 = 0. -/
theorem sweep_angle_is_continuous {F : Type} [LinearOrderedField F] [TopologicalSpace F]
    [OrderTopology F] (M : CMath F) (hpi : 0 ≤ M.pi) (hsin : M.sin 0 = 0) :
    (∀ k, ∃ a b : F, ∀ e, GLDisplay.windowTheta M k e = a * e + b) ∧
    (∀ (t : Int) (k : Nat), k < 9 → (GLDisplay.animationWindows t).getD k false = true →
      GLDisplay.theta M t = GLDisplay.windowTheta M k (t : F)) ∧
    (∀ t : Int, 0 ≤ t → t < 17000 → |GLDisplay.theta M t| ≤ M.pi / 12) ∧
    (GLDisplay.SweepsMeetAt M 0 1000 (0) ∧
      GLDisplay.SweepsMeetAt M 1 3000 (M.pi / 12) ∧
      GLDisplay.SweepsMeetAt M 2 5000 (0) ∧
      GLDisplay.SweepsMeetAt M 3 7000 (-(M.pi / 12)) ∧
      GLDisplay.SweepsMeetAt M 4 9000 (0) ∧
      GLDisplay.SweepsMeetAt M 5 11000 (M.pi / 12) ∧
      GLDisplay.SweepsMeetAt M 6 13000 (0) ∧
      GLDisplay.SweepsMeetAt M 7 15000 (-(M.pi / 12))) ∧
    (∀ s : Scene F, GLDisplay.animation M 9000 s =
      s.setLightSourcePosition 0 0 (30 * M.sin 0) (30 * M.cos 0)) := by
  refine ⟨GLDisplay.windowTheta_affine M, GLDisplay.theta_in_window M,
    GLDisplay.theta_bounded M hpi, ⟨?_, ?_, ?_, ?_, ?_, ?_, ?_, ?_⟩, ?_⟩
  · refine GLDisplay.sweepsMeetAt_of_values M 0 1000 _ (by decide) (by decide) ?_ ?_
    · rfl
    · simp only [GLDisplay.windowTheta]
      try (push_cast; ring)
  · refine GLDisplay.sweepsMeetAt_of_values M 1 3000 _ (by decide) (by decide) ?_ ?_
    · simp only [GLDisplay.windowTheta]
      try (push_cast; ring)
    · simp only [GLDisplay.windowTheta]
      try (push_cast; ring)
  · refine GLDisplay.sweepsMeetAt_of_values M 2 5000 _ (by decide) (by decide) ?_ ?_
    · simp only [GLDisplay.windowTheta]
      try (push_cast; ring)
    · simp only [GLDisplay.windowTheta]
      try (push_cast; ring)
  · refine GLDisplay.sweepsMeetAt_of_values M 3 7000 _ (by decide) (by decide) ?_ ?_
    · simp only [GLDisplay.windowTheta]
      try (push_cast; ring)
    · simp only [GLDisplay.windowTheta]
      try (push_cast; ring)
  · refine GLDisplay.sweepsMeetAt_of_values M 4 9000 _ (by decide) (by decide) ?_ ?_
    · simp only [GLDisplay.windowTheta]
      try (push_cast; ring)
    · simp only [GLDisplay.windowTheta]
      try (push_cast; ring)
  · refine GLDisplay.sweepsMeetAt_of_values M 5 11000 _ (by decide) (by decide) ?_ ?_
    · simp only [GLDisplay.windowTheta]
      try (push_cast; ring)
    · simp only [GLDisplay.windowTheta]
      try (push_cast; ring)
  · refine GLDisplay.sweepsMeetAt_of_values M 6 13000 _ (by decide) (by decide) ?_ ?_
    · simp only [GLDisplay.windowTheta]
      try (push_cast; ring)
    · simp only [GLDisplay.windowTheta]
      try (push_cast; ring)
  · refine GLDisplay.sweepsMeetAt_of_values M 7 15000 _ (by decide) (by decide) ?_ ?_
    · simp only [GLDisplay.windowTheta]
      try (push_cast; ring)
    · simp only [GLDisplay.windowTheta]
      try (push_cast; ring)
  · intro s
    have h9 : GLDisplay.theta M 9000 = 0 := by
      rw [GLDisplay.theta_in_window M 9000 5 (by decide) (by decide)]
      simp only [GLDisplay.windowTheta]
      push_cast
      ring
    rw [GLDisplay.animation_sweep_xz M 9000 s (by decide) (by decide), h9, hsin, mul_zero]

/-- Claim C23 with the rational stand-ins for the math library (pi = 22/7). -/
theorem sweep_angle_is_continuous_witness :
    (0 : ℚ) ≤ demoMath.pi ∧ demoMath.sin 0 = 0 ∧
    (∀ t : Int, 0 ≤ t → t < 17000 → |GLDisplay.theta demoMath t| ≤ demoMath.pi / 12) ∧
    GLDisplay.SweepsMeetAt demoMath 1 3000 (demoMath.pi / 12) ∧
    GLDisplay.animation demoMath 9000 demoScene =
      demoScene.setLightSourcePosition 0 0 (30 * demoMath.sin 0) (30 * demoMath.cos 0) :=
  have hpi : (0 : ℚ) ≤ demoMath.pi := by norm_num [demoMath]
  have hsin : demoMath.sin 0 = 0 := by simp [demoMath]
  have h := sweep_angle_is_continuous demoMath hpi hsin
  ⟨hpi, hsin, h.2.2.1, h.2.2.2.1.2.1, h.2.2.2.2 demoScene⟩

/-! ## Idempotence of the animation step -/

/-- Writing twice through the same index keeps the second value. -/
theorem QVector.assign_assign {α : Type} (v : List α) (i : Int) (a b : α) :
    QVector.assign (QVector.assign v i a) i b = QVector.assign v i b := by
  unfold QVector.assign
  simp only [List.set_set]

/-- The sequencing of calls is associative. -/
theorem Outcome.andThen_assoc {σ : Type} (o : Outcome σ Unit) (f g : σ → Outcome σ Unit) :
    (o.andThen f).andThen g = o.andThen (fun s => (f s).andThen g) := by
  cases o <;> rfl

section StepFacts
variable {F : Type} [Field F]

/-- The method `Light::setPosition` forgets the position and the model matrix
the light had. -/
theorem Light.setPosition_setPosition (l : Light F) (a b c x y z : F) :
    (l.setPosition a b c).setPosition x y z = l.setPosition x y z := rfl

/-- Setting the position of the first light twice is setting it once. -/
theorem Scene.setLightSourcePosition_idem (s : Scene F) (x y z : F) :
    (s.setLightSourcePosition 0 x y z).andThen (fun s1 => s1.setLightSourcePosition 0 x y z) =
      s.setLightSourcePosition 0 x y z := by
  cases hl : QVector.index s.m_pointLights 0 with
  | none =>
    unfold Scene.setLightSourcePosition
    by_cases h0 : (0 : Int) < QVector.size s.m_pointLights
    · simp only [if_pos h0, hl]
      rfl
    · simp only [if_neg h0, Outcome.andThen_returned]
  | some l =>
    rw [Scene.setLightSourcePosition_first s l x y z hl, Outcome.andThen_returned,
      Scene.setLightSourcePosition_first _ (l.setPosition x y z) x y z
        (QVector.index_assign _ _ _ _ hl)]
    simp only [QVector.assign_assign, Light.setPosition_setPosition]

/-- In the sweep windows running the animation step twice at the same elapsed
time is running it once. -/
theorem GLDisplay.animation_sweep_idem (M : CMath F) (t : Int) (s : Scene F)
    (h0 : 0 ≤ t) (h1 : t < 17000) :
    (GLDisplay.animation M t s).andThen (GLDisplay.animation M t) = GLDisplay.animation M t s := by
  by_cases h9 : t < 9000
  · have hf : GLDisplay.animation M t = fun s1 : Scene F =>
        s1.setLightSourcePosition 0 0 (30 * M.sin (GLDisplay.theta M t))
          (30 * M.cos (GLDisplay.theta M t)) :=
      funext fun s1 => GLDisplay.animation_sweep_yz M t s1 h0 h9
    rw [hf]
    exact Scene.setLightSourcePosition_idem s _ _ _
  · have hf : GLDisplay.animation M t = fun s1 : Scene F =>
        s1.setLightSourcePosition 0 (30 * M.sin (GLDisplay.theta M t)) 0
          (30 * M.cos (GLDisplay.theta M t)) :=
      funext fun s1 => GLDisplay.animation_sweep_xz M t s1 (by omega) h1
    rw [hf]
    exact Scene.setLightSourcePosition_idem s _ _ _

/-- The position of the first light after `translateLightSourceZ(0, c)`. -/
theorem Scene.translateLightSourceZ_position (s : Scene F) (l : Light F) (c : F)
    (hl : QVector.index s.m_pointLights 0 = some l) :
    ∃ s1 l1, s.translateLightSourceZ 0 c = .returned () s1 ∧
      QVector.index s1.m_pointLights 0 = some l1 ∧
      l1.m_lightPosition = { l.m_lightPosition with z := l.m_lightPosition.z + c } :=
  ⟨_, _, Scene.translateLightSourceZ_first s l c hl, QVector.index_assign _ _ _ _ hl, rfl⟩

/-- A run of ticks is the run of its first part followed by the run of the
rest. -/
theorem GLDisplay.animationTicks_append (M : CMath F) (a b : List Int) (s : Scene F) :
    GLDisplay.animationTicks M (a ++ b) s =
      (GLDisplay.animationTicks M a s).andThen (GLDisplay.animationTicks M b) := by
  induction a generalizing s with
  | nil => rfl
  | cons t ts ih =>
    simp only [List.cons_append, GLDisplay.animationTicks]
    rw [Outcome.andThen_assoc]
    congr 1
    funext s1
    exact ih s1

/-- Ticks that each translate the first light by `c` along z move it by the
number of ticks times `c`. -/
theorem GLDisplay.animationTicks_dolly (M : CMath F) (c : F) (lo hi : Int)
    (hstep : ∀ (t : Int) (s : Scene F), lo ≤ t → t < hi →
      GLDisplay.animation M t s = s.translateLightSourceZ 0 c)
    (ticks : List Int) (s : Scene F) (l : Light F) (hticks : ∀ t ∈ ticks, lo ≤ t ∧ t < hi)
    (hl : QVector.index s.m_pointLights 0 = some l) :
    ∃ s1 l1, GLDisplay.animationTicks M ticks s = .returned () s1 ∧
      QVector.index s1.m_pointLights 0 = some l1 ∧
      l1.m_lightPosition =
        { l.m_lightPosition with z := l.m_lightPosition.z + (ticks.length : F) * c } := by
  induction ticks generalizing s l with
  | nil => exact ⟨s, l, rfl, hl, by simp⟩
  | cons t ts ih =>
    have ht := hticks t (List.mem_cons_self t ts)
    obtain ⟨s1, l1, hs1, hl1, hp1⟩ := Scene.translateLightSourceZ_position s l c hl
    obtain ⟨s2, l2, hs2, hl2, hp2⟩ :=
      ih s1 l1 (fun u hu => hticks u (List.mem_cons_of_mem t hu)) hl1
    refine ⟨s2, l2, ?_, hl2, ?_⟩
    · simp only [GLDisplay.animationTicks]
      rw [hstep t s ht.1 ht.2, hs1, Outcome.andThen_returned, hs2]
    · rw [hp2, hp1]
      simp only [List.length_cons, Nat.cast_add, Nat.cast_one]
      congr 1
      ring

end StepFacts

/-- A dolly step run twice differs from the step run once: the second run
moves the light by the same non-zero amount again. -/
theorem GLDisplay.dolly_not_idem {F : Type} [Field F] (c : F) (hc : c ≠ 0) (s : Scene F)
    (l : Light F) (hl : QVector.index s.m_pointLights 0 = some l) :
    (s.translateLightSourceZ 0 c).andThen (fun s1 => s1.translateLightSourceZ 0 c) ≠
      s.translateLightSourceZ 0 c := by
  obtain ⟨s1, l1, hs1, hl1, hp1⟩ := Scene.translateLightSourceZ_position s l c hl
  obtain ⟨s2, l2, hs2, hl2, hp2⟩ := Scene.translateLightSourceZ_position s1 l1 c hl1
  rw [hs1, Outcome.andThen_returned, hs2]
  intro h
  injection h with _ h
  rw [h, hl1] at hl2
  injection hl2 with hl2
  rw [← hl2] at hp2
  have hz := congrArg QVector4D.z hp2
  simp only at hz
  exact hc (by linear_combination -hz)

/-- Claim C28: on a scene that has a first light, running `GLDisplay::animation()`
twice at the same elapsed time t leaves what running it once leaves when
0 ≤ t < 17000 (the sweeps set the position); for 17000 ≤ t < 19000 each run
moves the light by -5*25/300 along z and for 19000 ≤ t < 21000 by +5*25/300,
x and y staying, so that running twice is not running once; after n ticks in
the first and m ticks in the second dolly window the light's z is its z at
entry plus (m - n) * (5*25/300). -/
theorem animation_step_idempotent_in_sweeps_only {F : Type} [Field F] [CharZero F]
    (M : CMath F) (m_scene : Scene F) (l : Light F)
    (hl : QVector.index m_scene.m_pointLights 0 = some l) :
    (∀ t : Int, 0 ≤ t → t < 17000 →
      (GLDisplay.animation M t m_scene).andThen (GLDisplay.animation M t) =
        GLDisplay.animation M t m_scene) ∧
    (∀ t : Int, 17000 ≤ t → t < 19000 →
      (∃ s, GLDisplay.animation M t m_scene = .returned () s ∧
        (QVector.index s.m_pointLights 0).map (fun e => e.m_lightPosition) =
          some { l.m_lightPosition with z := l.m_lightPosition.z + -5 * 25 / 300 }) ∧
      (GLDisplay.animation M t m_scene).andThen (GLDisplay.animation M t) ≠
        GLDisplay.animation M t m_scene) ∧
    (∀ t : Int, 19000 ≤ t → t < 21000 →
      (∃ s, GLDisplay.animation M t m_scene = .returned () s ∧
        (QVector.index s.m_pointLights 0).map (fun e => e.m_lightPosition) =
          some { l.m_lightPosition with z := l.m_lightPosition.z + 5 * 25 / 300 }) ∧
      (GLDisplay.animation M t m_scene).andThen (GLDisplay.animation M t) ≠
        GLDisplay.animation M t m_scene) ∧
    (∀ ticksIn ticksOut : List Int, (∀ t ∈ ticksIn, 17000 ≤ t ∧ t < 19000) →
      (∀ t ∈ ticksOut, 19000 ≤ t ∧ t < 21000) →
      ∃ s, GLDisplay.animationTicks M (ticksIn ++ ticksOut) m_scene = .returned () s ∧
        (QVector.index s.m_pointLights 0).map (fun e => e.m_lightPosition) =
          some { l.m_lightPosition with
            z := l.m_lightPosition.z +
              ((ticksOut.length : F) - (ticksIn.length : F)) * (5 * 25 / 300) }) := by
  have hcIn : (-5 * 25 / 300 : F) ≠ 0 := by norm_num
  have hcOut : (5 * 25 / 300 : F) ≠ 0 := by norm_num
  refine ⟨fun t h0 h1 => GLDisplay.animation_sweep_idem M t m_scene h0 h1, ?_, ?_, ?_⟩
  · intro t h0 h1
    have hf : GLDisplay.animation M t = fun s1 : Scene F =>
        s1.translateLightSourceZ 0 (-5 * 25 / 300) :=
      funext fun s1 => GLDisplay.animation_dolly_in M t s1 h0 h1
    obtain ⟨s1, l1, hs1, hl1, hp1⟩ :=
      Scene.translateLightSourceZ_position m_scene l (-5 * 25 / 300) hl
    refine ⟨⟨s1, ?_, ?_⟩, ?_⟩
    · rw [hf]
      exact hs1
    · rw [hl1, Option.map_some', hp1]
    · rw [hf]
      exact GLDisplay.dolly_not_idem _ hcIn m_scene l hl
  · intro t h0 h1
    have hf : GLDisplay.animation M t = fun s1 : Scene F =>
        s1.translateLightSourceZ 0 (5 * 25 / 300) :=
      funext fun s1 => GLDisplay.animation_dolly_out M t s1 h0 h1
    obtain ⟨s1, l1, hs1, hl1, hp1⟩ :=
      Scene.translateLightSourceZ_position m_scene l (5 * 25 / 300) hl
    refine ⟨⟨s1, ?_, ?_⟩, ?_⟩
    · rw [hf]
      exact hs1
    · rw [hl1, Option.map_some', hp1]
    · rw [hf]
      exact GLDisplay.dolly_not_idem _ hcOut m_scene l hl
  · intro ticksIn ticksOut hIn hOut
    obtain ⟨s1, l1, hs1, hl1, hp1⟩ :=
      GLDisplay.animationTicks_dolly M (-5 * 25 / 300) 17000 19000
        (fun t s => GLDisplay.animation_dolly_in M t s) ticksIn m_scene l hIn hl
    obtain ⟨s2, l2, hs2, hl2, hp2⟩ :=
      GLDisplay.animationTicks_dolly M (5 * 25 / 300) 19000 21000
        (fun t s => GLDisplay.animation_dolly_out M t s) ticksOut s1 l1 hOut hl1
    refine ⟨s2, ?_, ?_⟩
    · rw [GLDisplay.animationTicks_append, hs1, Outcome.andThen_returned, hs2]
    · rw [hl2, Option.map_some', hp2, hp1]
      dsimp only
      congr 2
      ring

/-- Claim C28 on the default scene: the sweep at 4000 ms is idempotent, and
three ticks in the first dolly window followed by one in the second leave the
light at z = 30 + (1 - 3) * (5*25/300). -/
theorem animation_step_idempotent_in_sweeps_only_witness :
    QVector.index demoScene.m_pointLights 0 = some demoLight ∧
    (GLDisplay.animation demoMath 4000 demoScene).andThen (GLDisplay.animation demoMath 4000) =
      GLDisplay.animation demoMath 4000 demoScene ∧
    ∃ s, GLDisplay.animationTicks demoMath ([17000, 17020, 17040] ++ [19000]) demoScene =
        .returned () s ∧
      (QVector.index s.m_pointLights 0).map (fun e => e.m_lightPosition) =
        some { demoLight.m_lightPosition with
          z := demoLight.m_lightPosition.z +
            ((([19000] : List Int).length : ℚ) - (([17000, 17020, 17040] : List Int).length : ℚ)) *
              (5 * 25 / 300) } :=
  have h := animation_step_idempotent_in_sweeps_only demoMath demoScene demoLight rfl
  ⟨rfl, h.1 4000 (by decide) (by decide),
    h.2.2.2 [17000, 17020, 17040] [19000] (by decide) (by decide)⟩

/-! ## The FPS counter -/

/-- Calls that come less than a second after the last update only count. -/
theorem GLDisplay.drawFPSCalls_quiet (st : FPSCounter) (quiet : List Int)
    (hq : ∀ q ∈ quiet, q - st.m_lastFPSUpdate < 1000) :
    GLDisplay.drawFPSCalls quiet st =
      { st with m_frameCounter := st.m_frameCounter + (quiet.length : Int) } := by
  induction quiet generalizing st with
  | nil => simp [GLDisplay.drawFPSCalls]
  | cons q qs ih =>
    have hq0 := hq q (List.mem_cons_self q qs)
    have hstep : GLDisplay.drawFPS q st = { st with m_frameCounter := st.m_frameCounter + 1 } := by
      unfold GLDisplay.drawFPS
      simp only [ge_iff_le]
      rw [if_neg (by omega)]
    have := ih (GLDisplay.drawFPS q st) (by
      intro u hu
      rw [hstep]
      exact hq u (List.mem_cons_of_mem q hu))
    unfold GLDisplay.drawFPSCalls at this ⊢
    rw [List.foldl_cons, this, hstep]
    simp only [List.length_cons, Nat.cast_add, Nat.cast_one]
    congr 1
    ring

/-- Claim C29: every call of `GLDisplay::drawFPS()` counts the frame first;
when the time t of the call is at least 1000 ms after the last update the
displayed FPS becomes the count, the counter goes back to 0 and the last
update becomes t, and otherwise the displayed FPS and the last update stay.
The counter is 0 at construction and after every update, so at an update the
displayed FPS is the number of calls made since the previous update, the
current one included. -/
theorem fps_is_the_number_of_calls_since_last_update :
    (∀ (st : FPSCounter) (t : Int),
      (t - st.m_lastFPSUpdate ≥ 1000 →
        GLDisplay.drawFPS t st =
          { m_FPS := st.m_frameCounter + 1, m_frameCounter := 0, m_lastFPSUpdate := t }) ∧
      (¬ t - st.m_lastFPSUpdate ≥ 1000 →
        GLDisplay.drawFPS t st = { st with m_frameCounter := st.m_frameCounter + 1 })) ∧
    FPSCounter.new.m_frameCounter = 0 ∧
    (∀ (st : FPSCounter) (t : Int), t - st.m_lastFPSUpdate ≥ 1000 →
      (GLDisplay.drawFPS t st).m_frameCounter = 0) ∧
    (∀ (st : FPSCounter) (quiet : List Int) (t : Int), st.m_frameCounter = 0 →
      (∀ q ∈ quiet, q - st.m_lastFPSUpdate < 1000) → t - st.m_lastFPSUpdate ≥ 1000 →
      GLDisplay.drawFPSCalls quiet st = { st with m_frameCounter := (quiet.length : Int) } ∧
      GLDisplay.drawFPSCalls (quiet ++ [t]) st =
        { m_FPS := (quiet.length : Int) + 1, m_frameCounter := 0, m_lastFPSUpdate := t }) := by
  have hupd : ∀ (st : FPSCounter) (t : Int), t - st.m_lastFPSUpdate ≥ 1000 →
      GLDisplay.drawFPS t st =
        { m_FPS := st.m_frameCounter + 1, m_frameCounter := 0, m_lastFPSUpdate := t } := by
    intro st t h
    unfold GLDisplay.drawFPS
    simp only []
    rw [if_pos h]
  refine ⟨fun st t => ⟨hupd st t, ?_⟩, rfl, ?_, ?_⟩
  · intro h
    unfold GLDisplay.drawFPS
    simp only []
    rw [if_neg h]
  · intro st t h
    rw [hupd st t h]
  · intro st quiet t h0 hq ht
    have hquiet := GLDisplay.drawFPSCalls_quiet st quiet hq
    rw [h0, zero_add] at hquiet
    refine ⟨hquiet, ?_⟩
    have happ : GLDisplay.drawFPSCalls (quiet ++ [t]) st =
        GLDisplay.drawFPS t (GLDisplay.drawFPSCalls quiet st) := by
      unfold GLDisplay.drawFPSCalls
      rw [List.foldl_append]
      rfl
    rw [happ, hquiet]
    exact hupd _ t ht

/-! ## Screenshot -/

/-- A read of a C array at an index below its length is defined. -/
theorem arrayAt_of_lt {α : Type} (data : List α) (k : Int) (h0 : 0 ≤ k)
    (h1 : k < (data.length : Int)) : ∃ x, arrayAt data k = some x := by
  unfold arrayAt
  rw [if_pos h0]
  have h : k.toNat < data.length := by omega
  exact ⟨data[k.toNat], List.getElem?_eq_getElem h⟩

/-- When every lookup of a list is defined, so is the list of their values. -/
theorem allDefined_map {α β : Type} (f : α → Option β) (g : α → β) (ks : List α)
    (h : ∀ k ∈ ks, f k = some (g k)) : allDefined (ks.map f) = some (ks.map g) := by
  induction ks with
  | nil => rfl
  | cons k rest ih =>
    rw [List.map_cons, List.map_cons, allDefined, h k (List.mem_cons_self k rest),
      ih (fun u hu => h u (List.mem_cons_of_mem k hu))]
    rfl

/-- The values computed on the way to the index of row `i`, column `j` are
not negative and the three indices read are below `3 * width * height`. -/
theorem screenshot_index_range (width height i j : Int) (hi0 : 0 ≤ i) (hi : i < height)
    (hj0 : 0 ≤ j) (hj : j < width) :
    0 ≤ height - 1 - i ∧ 0 ≤ (height - 1 - i) * width ∧ 0 ≤ (height - 1 - i) * width + j ∧
      (height - 1 - i) * width + j < width * height ∧
      0 ≤ 3 * ((height - 1 - i) * width + j) ∧
      3 * ((height - 1 - i) * width + j) + 2 < 3 * width * height := by
  have h1 : 0 ≤ (height - 1 - i) * width := mul_nonneg (by omega) (by omega)
  have h2 : 0 ≤ i * width := mul_nonneg hi0 (by omega)
  have h3 : (height - 1 - i) * width = width * height - width - i * width := by ring
  have h4 : 3 * width * height = 3 * (width * height) := by ring
  refine ⟨by omega, h1, by omega, by omega, by omega, by omega⟩

/-- The floor of 255 times a value of the unit range lies in 0 .. 255. -/
theorem floor_255_range {F : Type} [LinearOrderedField F] [FloorRing F] (x : F) (h0 : 0 ≤ x)
    (h1 : x ≤ 1) :
    (0 : F) ≤ ((Int.floor (255 * x) : Int) : F) ∧ ((Int.floor (255 * x) : Int) : F) ≤ 255 := by
  constructor
  · have : (0 : Int) ≤ Int.floor (255 * x) := Int.floor_nonneg.mpr (by positivity)
    exact_mod_cast this
  · have h : ((Int.floor (255 * x) : Int) : F) ≤ 255 * x := Int.floor_le _
    linarith

section ScreenshotFacts
variable {F : Type} [LinearOrderedField F] [FloorRing F]

/-- The pixel written at an in-range row and column: the three reads are
defined and the channels are the floors of 255 times them, in reverse order. -/
theorem GLDisplay.screenshotPixel_eq (width height : Int) (data : List F)
    (hdata : (data.length : Int) = 3 * width * height) (i j : Int) (hi0 : 0 ≤ i)
    (hi : i < height) (hj0 : 0 ≤ j) (hj : j < width) :
    ∃ d0 d1 d2, arrayAt data (3 * ((height - 1 - i) * width + j)) = some d0 ∧
      arrayAt data (3 * ((height - 1 - i) * width + j) + 1) = some d1 ∧
      arrayAt data (3 * ((height - 1 - i) * width + j) + 2) = some d2 ∧
      GLDisplay.screenshotPixel width height data i j =
        some [((Int.floor (255 * d2) : Int) : F), ((Int.floor (255 * d1) : Int) : F),
          ((Int.floor (255 * d0) : Int) : F)] := by
  obtain ⟨_, _, _, _, h5, h6⟩ := screenshot_index_range width height i j hi0 hi hj0 hj
  obtain ⟨d0, e0⟩ := arrayAt_of_lt data (3 * ((height - 1 - i) * width + j)) h5 (by omega)
  obtain ⟨d1, e1⟩ := arrayAt_of_lt data (3 * ((height - 1 - i) * width + j) + 1) (by omega)
    (by omega)
  obtain ⟨d2, e2⟩ := arrayAt_of_lt data (3 * ((height - 1 - i) * width + j) + 2) (by omega)
    (by omega)
  refine ⟨d0, d1, d2, e0, e1, e2, ?_⟩
  unfold GLDisplay.screenshotPixel
  rw [e0, e1, e2]

/-- For a buffer of `3 * width * height` values the screenshot is defined and
it is the table of its pixels. -/
theorem GLDisplay.takeScreenshot_eq (width height : Int) (data : List F)
    (hdata : (data.length : Int) = 3 * width * height) :
    GLDisplay.takeScreenshot width height data =
      some ((List.range height.toNat).map fun i : Nat =>
        (List.range width.toNat).map fun j : Nat =>
          (GLDisplay.screenshotPixel width height data (i : Int) (j : Int)).getD []) := by
  unfold GLDisplay.takeScreenshot
  apply allDefined_map
  intro i hi
  apply allDefined_map
  intro j hj
  rw [List.mem_range] at hi hj
  obtain ⟨d0, d1, d2, _, _, _, h⟩ :=
    GLDisplay.screenshotPixel_eq width height data hdata (i : Int) (j : Int) (by omega)
      (by omega) (by omega) (by omega)
  rw [h]
  rfl

end ScreenshotFacts

/-- Claim C25: for every framebuffer size width x height (not negative) and
every read-back buffer `data` of 3*width*height values, `takeScreenshot`
builds a picture of `height` rows of `width` pixels whose value at row i,
column j, channel c is floor(255 * data[3*((height-1-i)*width + j) + (2-c)]):
rows flipped, channels reversed.  Every value computed on the way to an index
is at least 0 and every index read is below 3*width*height, and an input of
the unit range gives a value from 0 to 255. -/
theorem screenshot_flips_rows_and_reverses_channels {F : Type} [LinearOrderedField F]
    [FloorRing F] (width height : Int) (data : List F) (hw : 0 ≤ width) (hh : 0 ≤ height)
    (hdata : (data.length : Int) = 3 * width * height) :
    ∃ picture, GLDisplay.takeScreenshot width height data = some picture ∧
      (picture.length : Int) = height ∧ (∀ row ∈ picture, (row.length : Int) = width) ∧
      ∀ i j c : Nat, (i : Int) < height → (j : Int) < width → c < 3 →
        (0 ≤ height - 1 - (i : Int) ∧ 0 ≤ (height - 1 - (i : Int)) * width + (j : Int) ∧
          (height - 1 - (i : Int)) * width + (j : Int) < width * height ∧
          0 ≤ 3 * ((height - 1 - (i : Int)) * width + (j : Int)) + (2 - (c : Int)) ∧
          3 * ((height - 1 - (i : Int)) * width + (j : Int)) + (2 - (c : Int)) <
            3 * width * height) ∧
        ∃ x, arrayAt data (3 * ((height - 1 - (i : Int)) * width + (j : Int)) + (2 - (c : Int)))
            = some x ∧
          pictureAt picture i j c = some ((Int.floor (255 * x) : Int) : F) ∧
          (0 ≤ x → x ≤ 1 →
            (0 : F) ≤ ((Int.floor (255 * x) : Int) : F) ∧
              ((Int.floor (255 * x) : Int) : F) ≤ 255) := by
  refine ⟨_, GLDisplay.takeScreenshot_eq width height data hdata, ?_, ?_, ?_⟩
  · rw [List.length_map, List.length_range]
    exact Int.toNat_of_nonneg hh
  · intro row hrow
    rw [List.mem_map] at hrow
    obtain ⟨i, _, rfl⟩ := hrow
    rw [List.length_map, List.length_range]
    exact Int.toNat_of_nonneg hw
  · intro i j c hi0 hj0 hc
    have hi : i < height.toNat := by omega
    have hj : j < width.toNat := by omega
    obtain ⟨h1, _, h3, h4, h5, h6⟩ :=
      screenshot_index_range width height (i : Int) (j : Int) (by omega) (by omega) (by omega)
        (by omega)
    obtain ⟨d0, d1, d2, e0, e1, e2, hp⟩ :=
      GLDisplay.screenshotPixel_eq width height data hdata (i : Int) (j : Int) (by omega)
        (by omega) (by omega) (by omega)
    refine ⟨⟨h1, h3, h4, by omega, by omega⟩, ?_⟩
    have hpix : pictureAt
        ((List.range height.toNat).map fun i : Nat =>
          (List.range width.toNat).map fun j : Nat =>
            (GLDisplay.screenshotPixel width height data (i : Int) (j : Int)).getD []) i j c =
        ([((Int.floor (255 * d2) : Int) : F), ((Int.floor (255 * d1) : Int) : F),
          ((Int.floor (255 * d0) : Int) : F)] : List F)[c]? := by
      unfold pictureAt
      simp [List.getElem?_map, List.getElem?_range, hi, hj, hp]
    rw [hpix]
    interval_cases c
    · refine ⟨d2, ?_, rfl, floor_255_range d2⟩
      rw [← e2]
      congr 1
    · refine ⟨d1, ?_, rfl, floor_255_range d1⟩
      rw [← e1]
      congr 1
    · refine ⟨d0, ?_, rfl, floor_255_range d0⟩
      rw [← e0]
      congr 1
      simp

/-- Claim C25 on a framebuffer of 1 x 2 pixels. -/
theorem screenshot_flips_rows_and_reverses_channels_witness :
    (0 : Int) ≤ 1 ∧ (0 : Int) ≤ 2 ∧ ((stripeData.length : Int) = 3 * 1 * 2) ∧
    ∃ picture, GLDisplay.takeScreenshot 1 2 stripeData = some picture ∧
      (picture.length : Int) = 2 ∧ (∀ row ∈ picture, (row.length : Int) = 1) ∧
      ∀ i j c : Nat, (i : Int) < 2 → (j : Int) < 1 → c < 3 →
        (0 ≤ 2 - 1 - (i : Int) ∧ 0 ≤ (2 - 1 - (i : Int)) * 1 + (j : Int) ∧
          (2 - 1 - (i : Int)) * 1 + (j : Int) < 1 * 2 ∧
          0 ≤ 3 * ((2 - 1 - (i : Int)) * 1 + (j : Int)) + (2 - (c : Int)) ∧
          3 * ((2 - 1 - (i : Int)) * 1 + (j : Int)) + (2 - (c : Int)) < 3 * 1 * 2) ∧
        ∃ x, arrayAt stripeData (3 * ((2 - 1 - (i : Int)) * 1 + (j : Int)) + (2 - (c : Int)))
            = some x ∧
          pictureAt picture i j c = some ((Int.floor (255 * x) : Int) : ℚ) ∧
          (0 ≤ x → x ≤ 1 →
            (0 : ℚ) ≤ ((Int.floor (255 * x) : Int) : ℚ) ∧
              ((Int.floor (255 * x) : Int) : ℚ) ≤ 255) :=
  ⟨by decide, by decide, by decide,
    screenshot_flips_rows_and_reverses_channels 1 2 stripeData (by decide) (by decide)
      (by decide)⟩

/-- The screenshot of the 1 x 2 sample: the top pixel (1/4, 1/5, 1/3) comes
first, as (85, 51, 63), then the bottom pixel (0, 1/2, 1) as (255, 127, 0). -/
theorem GLDisplay.takeScreenshot_stripeData :
    GLDisplay.takeScreenshot 1 2 stripeData = some [[[(85 : ℚ), 51, 63]], [[255, 127, 0]]] := by
  simp [GLDisplay.takeScreenshot, allDefined, GLDisplay.screenshotPixel, arrayAt, stripeData,
    List.range, List.range.loop]
  norm_num [Int.floor_eq_iff]

/-! ## The redraw timer -/

/-- A tick of the timer with the animation off and the timer active leaves
both as they are. -/
theorem GLDisplay.handleAll_timeouts (n : Nat) :
    GLDisplay.handleAll ⟨false, true⟩ (List.replicate n .timeout) = ⟨false, true⟩ := by
  induction n with
  | zero => rfl
  | succ k ih =>
    rw [List.replicate_succ]
    unfold GLDisplay.handleAll at ih ⊢
    rw [List.foldl_cons]
    exact ih

/-- Claim C24 (failing input): from the display as constructed, the key S
starts the animation and the timer; the key D then clears the animation flag
and leaves the timer active, and it stays active through every later tick,
each of which redraws.  The key S pressed a second time instead, through
`startStopAnimation()`, clears the flag and stops the timer. -/
theorem reset_key_leaves_the_timer_running :
    GLDisplay.handleAll AnimationControl.new [.keyPress .Key_S] = ⟨true, true⟩ ∧
    GLDisplay.handleAll AnimationControl.new [.keyPress .Key_S, .keyPress .Key_D] =
      ⟨false, true⟩ ∧
    (∀ n : Nat,
      GLDisplay.handleAll AnimationControl.new
        ([.keyPress .Key_S, .keyPress .Key_D] ++ List.replicate n .timeout) = ⟨false, true⟩) ∧
    GLDisplay.handleAll AnimationControl.new [.keyPress .Key_S, .keyPress .Key_S] =
      ⟨false, false⟩ := by
  refine ⟨by decide, by decide, ?_, by decide⟩
  intro n
  have h : GLDisplay.handleAll AnimationControl.new [.keyPress .Key_S, .keyPress .Key_D] =
      ⟨false, true⟩ := by decide
  unfold GLDisplay.handleAll at h ⊢
  rw [List.foldl_append, h]
  exact GLDisplay.handleAll_timeouts n

/-! ## Scene reset -/

/-- Claim C26 (failing input): on the scene built with two objects and one
light `Scene::resetScene()` looks up `m_pointLights[1]`, which is out of
range; on the default scene emptied by `removeObjects()`, whose light was
moved to (0, 0, 35), it returns with the light where it was. -/
theorem resetScene_counts_lights_by_objects :
    twoSquares.m_objects.length = 2 ∧ twoSquares.m_pointLights.length = 1 ∧
    QVector.index twoSquares.m_pointLights 1 = none ∧
    Scene.resetScene demoWorld twoSquares = .undefinedBehaviour ∧
    emptiedScene.m_objects.length = 0 ∧
    (QVector.index emptiedScene.m_pointLights 0).map (fun e => e.m_lightPosition) =
      some ⟨0, 0, 35, 1⟩ ∧
    Scene.resetScene demoWorld emptiedScene = .returned () emptiedScene := by
  refine ⟨rfl, rfl, rfl, ?_, rfl, ?_, ?_⟩
  · simp [Scene.resetScene, twoSquares, Scene.fromLists, Scene.resetLights, QVector.index,
      QVector.assign]
  · simp [emptiedScene, Scene.removeObjects, nudgedScene, demoScene, Scene.new, Scene.buildScene,
      Scene.translateLightSourceZ, QVector.index, QVector.assign, QVector.size, Light.translateZ,
      Light.new]
    norm_num
  · simp [Scene.resetScene, emptiedScene, Scene.removeObjects, Scene.resetLights]

/-! ## Aspect ratio of an object -/

/-- With the diffuse texture not loaded and the specular texture loaded,
`Object::setAspectRatio()` takes the aspect ratio of the diffuse texture. -/
theorem Object.setAspectRatio_specular_only {F : Type} [Field F] (o : Object F)
    (hd : o.m_diffuseTexture.isLoaded = false) (hs : o.m_specularTexture.isLoaded = true) :
    o.setAspectRatio.m_modelMatrix =
      o.m_modelMatrix.scale 1 (1 / o.m_diffuseTexture.getAspectRatio F) := by
  unfold Object.setAspectRatio
  simp only [hd, hs, if_true, Bool.false_eq_true, if_false]

/-- Claim C27 (failing input): the object whose specular texture alone is
loaded (4 x 2, aspect ratio 2) has a diffuse texture of width 0 and height 0;
`Object::setAspectRatio()` scales its model matrix by (1, 1/a) with a the
quotient 0/0 of the diffuse texture, not by (1, 1/2). -/
theorem aspect_ratio_ignores_the_loaded_texture :
    glossObject.m_diffuseTexture.isLoaded = false ∧
    glossObject.m_specularTexture.isLoaded = true ∧
    glossObject.m_specularTexture.m_width = 4 ∧ glossObject.m_specularTexture.m_height = 2 ∧
    glossObject.m_specularTexture.getAspectRatio ℚ = 2 ∧
    glossObject.m_diffuseTexture.m_width = 0 ∧ glossObject.m_diffuseTexture.m_height = 0 ∧
    glossObject.setAspectRatio.m_modelMatrix =
      glossObject.m_modelMatrix.scale 1
        (1 / (((glossObject.m_diffuseTexture.m_width : Int) : ℚ) /
          ((glossObject.m_diffuseTexture.m_height : Int) : ℚ))) ∧
    glossObject.setAspectRatio.m_modelMatrix ≠
      glossObject.m_modelMatrix.scale 1 (1 / glossObject.m_specularTexture.getAspectRatio ℚ) := by
  have hd : glossObject.m_diffuseTexture.isLoaded = false := by decide
  have hs : glossObject.m_specularTexture.isLoaded = true := by decide
  have hw : glossObject.m_specularTexture.m_width = 4 := by decide
  have hh : glossObject.m_specularTexture.m_height = 2 := by decide
  have hdw : glossObject.m_diffuseTexture.m_width = 0 := by decide
  have hdh : glossObject.m_diffuseTexture.m_height = 0 := by decide
  have hr : glossObject.m_specularTexture.getAspectRatio ℚ = 2 := by
    unfold Texture.getAspectRatio
    rw [hw, hh]
    norm_num
  have hm : glossObject.m_modelMatrix = 1 := rfl
  have hset := Object.setAspectRatio_specular_only glossObject hd hs
  refine ⟨hd, hs, hw, hh, hr, hdw, hdh, hset, ?_⟩
  rw [hset, hr]
  unfold Texture.getAspectRatio
  rw [hdw, hdh, hm]
  intro h
  have h11 := congrFun (congrFun h 1) 1
  simp [QMatrix4x4.scale, scaleMatrix, Matrix.mul_apply, Fin.sum_univ_four, Matrix.vecHead,
    Matrix.vecTail] at h11

/-! ## Environment mapping in the main window -/

/-- Claim C30 (failing input): with the check box ticked, loading
"Grace Cathedral" succeeds and turns environment mapping on with the three
textures loaded; loading "Uffizi Gallery" next fails, the three textures are
replaced by unloaded ones with handle 0, and environment mapping stays on. -/
theorem failed_reload_keeps_environment_mapping_on :
    (EnvironmentControl.new galleryWorld demoGL).m_environmentMapping = false ∧
    graceDisplay.m_environmentMapping = true ∧
    graceDisplay.m_scene.m_environmentMap.isLoaded = true ∧
    graceDisplay.m_scene.m_environmentMapRough.isLoaded = true ∧
    graceDisplay.m_scene.m_environmentMapDiffuse.isLoaded = true ∧
    uffiziDisplay.m_environmentMapping = true ∧
    uffiziDisplay.m_scene.m_environmentMap.isLoaded = false ∧
    uffiziDisplay.m_scene.m_environmentMapRough.isLoaded = false ∧
    uffiziDisplay.m_scene.m_environmentMapDiffuse.isLoaded = false ∧
    uffiziDisplay.m_scene.getEnvironmentMapId = 0 := by
  decide

end Real3D
